import Mathlib

/-!
Invite-gated provisioning of jfa-go (`api.go`).

A shallow embedding of the invite store (`checkInvite`, `checkInvites`), of the
provisioning orchestrator (`newUser`), of the form handler (`NewUser`), of the
admin handlers `GenerateInvite`, `SetProfile`, `SetDefaultProfile`,
`DeleteProfile`, `TelegramAddUser`, `ExtendExpiry` and `GetUsers`, of the profile
list of `GetInvites` and of `timeDiff` of `api.go`, followed by theorems about
them.

Conventions of the embedding

* A Go `map[K]V` is an association list `GoMap K V`; `get`, `del` and `put` are
  the map read `m[k]`, `delete(m, k)` and the assignment `m[k] = v`.  A nil map
  and an empty map are both `[]`.
* An instant (`time.Time`) is an integer number of nanoseconds since the Unix
  epoch; `a.After(b)` is `b < a`.  For `timeDiff`, which reads the calendar
  fields, a time in UTC is the record of the fields `Date` and `Clock` return.
  Instants and durations are unbounded integers: the wrap-around of an `int64`
  `time.Duration` is not modelled, and no theorem below states the value of an
  instant computed from a requested number of hours or minutes.  The zero value
  of a struct has the instant 0 in its time fields, where `time.Time{}` is
  1 January of year 1; no theorem below depends on the time fields of a
  zero-valued invite.
* A goroutine that `newUser` or `checkInvite` starts is recorded in the trace
  at the point where it is started; a goroutine `newUser` does not wait for
  (the creation notices) may run later than that point.
* Every call that leaves the process (account service, companion service,
  chat and mail transports, the durable store, the token signer, the clock)
  takes its answer from an environment record, and is recorded in a trace of
  events, in program order.
* `app.storage.loadInvites()` refreshes the in-memory invite map from the
  durable store; the field `invites` of the state is the map as loaded.
-/

namespace JfaGo

/-! ## Go maps -/

/-- Go map as an association list. -/
abbrev GoMap (κ : Type) (α : Type) := List (κ × α)

namespace GoMap

variable {κ α : Type} [DecidableEq κ]

/-- Map read `m[k]` with the comma-ok flag folded into the option. -/
def get : GoMap κ α → κ → Option α
  | [], _ => none
  | (k₁, v) :: rest, k => if k₁ = k then some v else get rest k

/-- Builtin `delete(m, k)`. -/
def del : GoMap κ α → κ → GoMap κ α
  | [], _ => []
  | (k₁, v) :: rest, k => if k₁ = k then del rest k else (k₁, v) :: del rest k

/-- Assignment `m[k] = v`. -/
def put : GoMap κ α → κ → α → GoMap κ α
  | [], k, v => [(k, v)]
  | (k₁, v₁) :: rest, k, v =>
    if k₁ = k then (k, v) :: rest else (k₁, v₁) :: put rest k v

end GoMap

/-! ## Data model -/

/-- Instants, in nanoseconds since the Unix epoch. -/
abbrev Time := Int

/-- Method `Time.Unix`: whole seconds since the epoch. -/
def Time.unix (t : Time) : Int := t / 1000000000

/-- Method `Time.After`. -/
def Time.after (a b : Time) : Bool := decide (b < a)

/-- Call `strconv.FormatInt(n, 10)`. -/
def formatInt (n : Int) : String := toString n

/-- Struct `Invite`, with the fields `api.go` uses. -/
structure Invite where
  Label : String := ""
  Created : Time := 0
  ValidTill : Time := 0
  RemainingUses : Int := 0
  NoLimit : Bool := false
  Profile : String := ""
  UserExpiry : Bool := false
  UserMonths : Int := 0
  UserDays : Int := 0
  UserHours : Int := 0
  UserMinutes : Int := 0
  UsedBy : List (List String) := []
  Notify : GoMap String (GoMap String Bool) := []
  SendTo : String := ""
  Keys : List String := []
  deriving DecidableEq, Repr

instance : Inhabited Invite := ⟨{}⟩

/-- Struct `EmailAddress`. -/
structure EmailAddress where
  Addr : String := ""
  Contact : Bool := false
  deriving DecidableEq, Repr

/-- Struct `DiscordUser`. -/
structure DiscordUser where
  ID : String := ""
  Username : String := ""
  Discriminator : String := ""
  Contact : Bool := false
  deriving DecidableEq, Repr

instance : Inhabited DiscordUser := ⟨{}⟩

/-- Struct `MatrixUser`. -/
structure MatrixUser where
  UserID : String := ""
  RoomID : String := ""
  Lang : String := ""
  Contact : Bool := false
  Encrypted : Bool := false
  deriving DecidableEq, Repr

instance : Inhabited MatrixUser := ⟨{}⟩

/-- Entry of `app.matrix.tokens`: a pending Matrix verification. -/
structure MatrixToken where
  User : MatrixUser := {}
  Verified : Bool := false
  deriving DecidableEq, Repr

/-- Struct `TelegramUser`. -/
structure TelegramUser where
  ChatID : Int := 0
  Username : String := ""
  Lang : String := ""
  Contact : Bool := false
  deriving DecidableEq, Repr

/-- Entry of `app.telegram.verifiedTokens`. -/
structure TelegramVerifiedToken where
  ChatID : Int := 0
  Token : String := ""
  Username : String := ""
  deriving DecidableEq, Repr

/-- Struct `Profile`; a nil slice is `none`. -/
structure Profile where
  Admin : Bool := false
  PolicyBlockedTags : Option (List String) := none
  ConfigurationGroupedFolders : Option (List String) := none
  Displayprefs : GoMap String String := []
  Ombi : GoMap String String := []
  deriving DecidableEq, Repr

instance : Inhabited Profile := ⟨{}⟩

/-- Request body `newUserDTO`. -/
structure NewUserDTO where
  Username : String := ""
  Password : String := ""
  Email : String := ""
  Code : String := ""
  TelegramPIN : String := ""
  TelegramContact : Bool := false
  DiscordPIN : String := ""
  DiscordContact : Bool := false
  MatrixPIN : String := ""
  MatrixContact : Bool := false
  CaptchaID : String := ""
  CaptchaText : String := ""
  deriving DecidableEq, Repr

/-- Settings read by the modelled functions: the package-level enable flags
and the configuration keys. -/
structure Config where
  emailEnabled : Bool := false
  discordEnabled : Bool := false
  matrixEnabled : Bool := false
  telegramEnabled : Bool := false
  discordRequired : Bool := false
  matrixRequired : Bool := false
  telegramRequired : Bool := false
  emailConfirmation : Bool := false
  notificationsEnabled : Bool := false
  ombiEnabled : Bool := false
  welcomeEmail : Bool := false
  captchaEnabled : Bool := false
  emailRequired : Bool := false
  inviteEmails : Bool := false
  deriving DecidableEq, Repr

/-- The in-memory state of `appContext` that the modelled functions touch. -/
structure AppState where
  invites : GoMap String Invite := []
  profiles : GoMap String Profile := []
  emails : GoMap String EmailAddress := []
  users : GoMap String Time := []
  discord : GoMap String DiscordUser := []
  telegram : GoMap String TelegramUser := []
  matrix : GoMap String MatrixUser := []
  discordTokens : GoMap String DiscordUser := []
  matrixTokens : GoMap String MatrixToken := []
  telegramTokens : List TelegramVerifiedToken := []
  telegramLanguages : GoMap Int String := []
  cacheExpiry : Time := 0
  defaultProfile : String := ""
  deriving DecidableEq, Repr

/-- The claim set signed at the confirmation gate. -/
structure Claims where
  valid : Bool
  invite : String
  email : String
  username : String
  password : String
  telegramPIN : String
  exp : Int
  type : String
  deriving DecidableEq, Repr

/-- Calls that leave the process, and the lock operations, in program order. -/
inductive Event where
  | storeInvites
  | expiryNotice (code : String) (address : String)
  | userByName (name : String)
  | applyRole (discordID : String)
  | signToken (claims : Claims)
  | jfNewUser (name : String) (password : String)
  | loadProfiles
  | createdNotice (code : String) (address : String)
  | setPolicy (id : String)
  | setConfiguration (id : String)
  | setDisplayPreferences (id : String)
  | storeEmails
  | lockUsers
  | unlockUsers
  | storeUsers
  | storeDiscordUsers
  | storeTelegramUsers
  | storeMatrixUsers
  | ombiNewUser (name : String)
  | ombiGetUsers
  | jfUserByID (id : String)
  | ombiSetNotificationPrefs (discordID : String) (telegramUser : String)
  | constructWelcome (name : String)
  | sendByID (id : String)
  | verifyCaptcha (code : String)
  | validatePassword
  | constructConfirmation (code : String) (username : String) (key : String)
  | emailSend (address : String)
  | discordGetUsers (query : String)
  | constructInvite (code : String)
  | discordSendDM (discordID : String)
  | storeProfiles
  | jfGetUsers
  | linkExistingOmbiDiscordTelegram
  deriving DecidableEq, Repr

/-! ## `checkInvite` -/

/-- The addresses of `notify` subscribed to `notify-expiry`, for which
`checkInvite` starts a goroutine that builds and sends the expiry notice. -/
def expirySubscribers (notify : GoMap String (GoMap String Bool)) : List String :=
  (notify.filter (fun e => (GoMap.get e.2 "notify-expiry").getD false)).map (fun e => e.1)

/-- The expiry-notification block shared by `checkInvites` and `checkInvite`. -/
def expiryNotices (cfg : Config) (code : String) (inv : Invite) : List Event :=
  if cfg.emailEnabled && cfg.notificationsEnabled && inv.Notify.length != 0 then
    (expirySubscribers inv.Notify).map (fun a => Event.expiryNotice code a)
  else []

/-- Result of `checkInvite`: the state afterwards, the returned `match`, and
the calls made. -/
structure CheckResult where
  state : AppState
  ok : Bool
  trace : List Event
  deriving DecidableEq, Repr

/-- Function `checkInvite(code, used, username)` run at instant `now`. -/
def checkInvite (cfg : Config) (s : AppState) (now : Time) (code : String) (used : Bool)
    (username : String) : CheckResult :=
  match s.invites.get code with
  | none => { state := s, ok := false, trace := [] }
  | some inv =>
    if now.after inv.ValidTill then
      { state := { s with invites := s.invites.del code }
        ok := false
        trace := expiryNotices cfg code inv ++ [Event.storeInvites] }
    else if used then
      let del := decide (inv.RemainingUses = 1)
      let invites₁ := if del then s.invites.del code else s.invites
      let uses := if inv.RemainingUses = 1 then inv.RemainingUses
        else if inv.RemainingUses ≠ 0 then inv.RemainingUses - 1 else inv.RemainingUses
      let newInv : Invite :=
        { inv with
          RemainingUses := uses
          UsedBy := inv.UsedBy ++ [[username, formatInt now.unix]] }
      let invites₂ := if del then invites₁ else invites₁.put code newInv
      { state := { s with invites := invites₂ }, ok := true, trace := [Event.storeInvites] }
    else
      { state := s, ok := true, trace := [] }

/-- Successive calls `checkInvite(code, true, username)`, one at each instant of
`times`; returns the final state and the value each call returned. -/
def consumeAt (cfg : Config) (code username : String) :
    AppState → List Time → AppState × List Bool
  | s, [] => (s, [])
  | s, t :: ts =>
    let r := checkInvite cfg s t code true username
    let rest := consumeAt cfg code username r.state ts
    (rest.1, r.ok :: rest.2)

/-- The statements of `checkInvite` that follow its read
`inv, match := app.storage.invites[code]`, run on the state `s` with the values
`read` that the read returned (`none` when `match` is false).  The function
takes no lock, so the state `s` on which a call continues need not be the state
it read from. -/
def checkInviteAfterRead (cfg : Config) (s : AppState) (now : Time) (code : String)
    (used : Bool) (username : String) (read : Option Invite) : CheckResult :=
  match read with
  | none => { state := s, ok := false, trace := [] }
  | some inv =>
    if now.after inv.ValidTill then
      { state := { s with invites := s.invites.del code }
        ok := false
        trace := expiryNotices cfg code inv ++ [Event.storeInvites] }
    else if used then
      let del := decide (inv.RemainingUses = 1)
      let invites₁ := if del then s.invites.del code else s.invites
      let uses := if inv.RemainingUses = 1 then inv.RemainingUses
        else if inv.RemainingUses ≠ 0 then inv.RemainingUses - 1 else inv.RemainingUses
      let newInv : Invite :=
        { inv with
          RemainingUses := uses
          UsedBy := inv.UsedBy ++ [[username, formatInt now.unix]] }
      let invites₂ := if del then invites₁ else invites₁.put code newInv
      { state := { s with invites := invites₂ }, ok := true, trace := [Event.storeInvites] }
    else
      { state := s, ok := true, trace := [] }

/-- Two calls `checkInvite(code, true, u₁)` and `checkInvite(code, true, u₂)`
that run at the same time, in the schedule in which both make their read of the
invite map before either goes on: the first call then runs to its end, and the
second after it.  Returns the result of each call; the state of the second is
the final state. -/
def checkInviteBothRead (cfg : Config) (s : AppState) (t₁ t₂ : Time) (code u₁ u₂ : String) :
    CheckResult × CheckResult :=
  let read₁ := s.invites.get code
  let read₂ := s.invites.get code
  let first := checkInviteAfterRead cfg s t₁ code true u₁ read₁
  let second := checkInviteAfterRead cfg first.state t₂ code true u₂ read₂
  (first, second)

/-! ## Responses -/

deriving instance DecidableEq for Except


/-- Struct `stringResponse`. -/
structure StringResponse where
  Response : String := ""
  Error : String := ""
  deriving DecidableEq, Repr

/-- What `gc.JSON(code, resp)` sends for a `stringResponse`. -/
structure HttpResponse where
  code : Int
  body : StringResponse
  deriving DecidableEq, Repr

/-- Function `respond(code, message, gc)`. -/
def respond (code : Int) (message : String) : HttpResponse :=
  if code = 200 ∨ code = 204 then
    { code := code, body := { Response := message } }
  else
    { code := code, body := { Error := message } }

/-- An `errorFunc` returned by `newUser`: the response it sends, and the calls
it makes after responding. -/
structure ErrorFunc where
  resp : HttpResponse
  after : List Event := []
  deriving DecidableEq, Repr

/-! ## Environment -/

/-- Status and error returned by a call to the account or companion service. -/
structure CallResult where
  status : Int := 200
  err : Bool := false
  deriving DecidableEq, Repr

/-- Test `(status == 200 || status == 204) && err == nil`. -/
def CallResult.ok (r : CallResult) : Bool :=
  (r.status == 200 || r.status == 204) && !r.err

/-- Test `!(err != nil || code != 200)`. -/
def CallResult.ok200 (r : CallResult) : Bool :=
  !(r.err || r.status != 200)

/-- The value a companion-service user record (a `map[string]interface{}`)
holds under one key: none (the key is absent or the value is nil), a string, or
a value of another type. -/
inductive OmbiField where
  | absent
  | str (s : String)
  | other
  deriving DecidableEq, Repr

/-- A user record returned by `app.ombi.GetUsers`, by the two keys that
`getOmbiUser` reads. -/
structure OmbiUser where
  userName : OmbiField := .absent
  emailAddress : OmbiField := .absent
  deriving DecidableEq, Repr

/-- Answers of the collaborators during one run of `newUser`. -/
structure Env where
  /-- `Name` of the user returned by `app.jf.UserByName`. -/
  existingUserName : String := ""
  /-- Whether `app.discord.ApplyRole` returns an error. -/
  applyRoleErr : Bool := false
  /-- `time.Now()` read when the claim set is built. -/
  nowGate : Time := 0
  /-- The key returned by `tk.SignedString`, `none` for an error. -/
  signedString : Option String := some "key"
  /-- Whether `constructConfirmation` returns an error. -/
  constructConfirmationErr : Bool := false
  /-- Status and error of `app.jf.NewUser`. -/
  jfNewUser : CallResult := {}
  /-- `ID` of the user returned by `app.jf.NewUser`. -/
  newUserID : String := "id"
  /-- The configured message for `errorUnknown`. -/
  langErrorUnknown : String := "errorUnknown"
  /-- `time.Now()` read by the consuming `checkInvite`. -/
  nowConsume : Time := 0
  setPolicy : CallResult := {}
  setConfiguration : CallResult := {}
  setDisplayPreferences : CallResult := {}
  /-- `time.Now()` read when the account expiry is computed. -/
  nowExpiry : Time := 0
  /-- Method `Time.AddDate(0, months, days)`. -/
  addDate : Time → Int → Int → Time := fun t _ _ => t
  storeUsersErr : Bool := false
  storeDiscordUsersErr : Bool := false
  storeTelegramUsersErr : Bool := false
  storeMatrixUsersErr : Bool := false
  ombiNewUser : CallResult := {}
  ombiGetUsers : CallResult := {}
  jfUserByID : CallResult := {}
  /-- The user records returned by `app.ombi.GetUsers`. -/
  ombiUsers : List OmbiUser := []
  /-- `Name` of the user returned by `app.jf.UserByID`. -/
  jfUserName : String := ""
  ombiSetNotificationPrefs : CallResult := {}
  constructWelcomeErr : Bool := false
  sendByIDErr : Bool := false
  /-- `time.Now()` stored in `app.jf.CacheExpiry`. -/
  nowCache : Time := 0

/-! ## `newUser` -/

/-- Result of `newUser`: the state afterwards, the returned `errorFunc`
(`none` for nil), the returned `success`, and the calls made.  When `newUser`
panics it returns nothing: `panicked` is set, `f` and `success` hold the values
the named results had at the panic (nil and false), `state` is the state at the
panic and `trace` the calls made up to it and by the deferred `Unlock`. -/
structure NewUserResult where
  state : AppState
  f : Option ErrorFunc
  success : Bool
  trace : List Event
  panicked : Bool := false
  deriving DecidableEq, Repr

/-- The Discord block of `newUser`: the calls made, and either the `errorFunc`
response or `(discordUser, discordVerified)`. -/
def discordCheck (cfg : Config) (env : Env) (s : AppState) (req : NewUserDTO) :
    List Event × Except HttpResponse (DiscordUser × Bool) :=
  if cfg.discordEnabled then
    if req.DiscordPIN = "" then
      if cfg.discordRequired then
        ([], .error (respond 401 "errorDiscordVerification"))
      else ([], .ok (default, false))
    else
      match s.discordTokens.get req.DiscordPIN with
      | none => ([], .error (respond 401 "errorInvalidPIN"))
      | some discordUser =>
        if env.applyRoleErr then
          ([Event.applyRole discordUser.ID], .error (respond 401 "error"))
        else ([Event.applyRole discordUser.ID], .ok (discordUser, true))
  else ([], .ok (default, false))

/-- The Matrix block of `newUser`: either the `errorFunc` response or
`(matrixUser, matrixVerified)`. -/
def matrixCheck (cfg : Config) (s : AppState) (req : NewUserDTO) :
    Except HttpResponse (MatrixUser × Bool) :=
  if cfg.matrixEnabled then
    if req.MatrixPIN = "" then
      if cfg.matrixRequired then .error (respond 401 "errorMatrixVerification")
      else .ok (default, false)
    else
      match s.matrixTokens.get req.MatrixPIN with
      | none => .error (respond 401 "errorInvalidPIN")
      | some user =>
        if !user.Verified then .error (respond 401 "errorInvalidPIN")
        else .ok (user.User, user.Verified)
  else .ok (default, false)

/-- The loop `for i, v := range verifiedTokens` with its `break`: the first
index whose `Token` is the PIN. -/
def telegramFind : List TelegramVerifiedToken → String → Option Nat
  | [], _ => none
  | v :: rest, pin =>
    if v.Token = pin then some 0 else (telegramFind rest pin).map (· + 1)

/-- The Telegram block of `newUser`: either the `errorFunc` response or
`telegramTokenIndex` (`none` for -1). -/
def telegramCheck (cfg : Config) (s : AppState) (req : NewUserDTO) :
    Except HttpResponse (Option Nat) :=
  if cfg.telegramEnabled then
    if req.TelegramPIN = "" then
      if cfg.telegramRequired then .error (respond 401 "errorTelegramVerification")
      else .ok none
    else
      match telegramFind s.telegramTokens req.TelegramPIN with
      | none => .error (respond 401 "errorInvalidPIN")
      | some i => .ok (some i)
  else .ok none

/-- The claim set built at the confirmation gate. -/
def confirmationClaims (env : Env) (req : NewUserDTO) : Claims :=
  { valid := true
    invite := req.Code
    email := req.Email
    username := req.Username
    password := req.Password
    telegramPIN := req.TelegramPIN
    exp := Time.unix (env.nowGate + 12 * 3600 * 1000000000)
    type := "confirmation" }

/-- The confirmation gate of `newUser` (the body of the `!confirmed` branch). -/
def confirmationGate (env : Env) (s : AppState) (req : NewUserDTO) (pre : List Event) :
    NewUserResult :=
  match env.signedString with
  | none =>
    { state := s, f := some { resp := respond 500 "errorUnknown" }, success := false
      trace := pre ++ [Event.signToken (confirmationClaims env req)] }
  | some key =>
    let inv := (s.invites.get req.Code).getD default
    let inv₁ := { inv with Keys := inv.Keys ++ [key] }
    { state := { s with invites := s.invites.put req.Code inv₁ }
      f := some
        { resp := respond 401 "confirmEmail"
          after := [Event.constructConfirmation req.Code req.Username key] ++
            (if env.constructConfirmationErr then [] else [Event.emailSend req.Email]) }
      success := false
      trace := pre ++ [Event.signToken (confirmationClaims env req), Event.storeInvites] }

/-- The addresses of `notify` subscribed to `notify-creation`. -/
def creationSubscribers (notify : GoMap String (GoMap String Bool)) : List String :=
  (notify.filter (fun e => (GoMap.get e.2 "notify-creation").getD false)).map (fun e => e.1)

/-- The creation-notification block: one goroutine per subscribed address,
recorded where it is started; `newUser` does not wait for these goroutines. -/
def createdNotices (cfg : Config) (code : String) (invite : Invite) : List Event :=
  if cfg.emailEnabled && cfg.notificationsEnabled then
    (creationSubscribers invite.Notify).map (fun a => Event.createdNotice code a)
  else []

/-- The profile named by the invite, or the profile `Default` when there is
none of that name. -/
def lookupProfile (s : AppState) (invite : Invite) : Profile :=
  match s.profiles.get invite.Profile with
  | some p => p
  | none => (s.profiles.get "Default").getD default

/-- The account-service calls that apply a profile: the policy, then the
configuration followed, when that succeeded, by the display preferences. -/
def profileCalls (env : Env) (id : String) (profile : Profile) : List Event :=
  (if profile.PolicyBlockedTags.isSome then [Event.setPolicy id] else []) ++
  (if profile.ConfigurationGroupedFolders.isSome && profile.Displayprefs.length != 0 then
    Event.setConfiguration id ::
      (if env.setConfiguration.ok then [Event.setDisplayPreferences id] else [])
  else [])

/-- The profile looked up for the invite (zero value when the invite names
none), and the account-service calls that apply it. -/
def applyProfile (env : Env) (s : AppState) (id : String) (invite : Invite) :
    Profile × List Event :=
  if invite.Profile ≠ "" then
    (lookupProfile s invite, profileCalls env id (lookupProfile s invite))
  else (default, [])

/-- A state together with the calls made so far. -/
structure Run where
  state : AppState
  trace : List Event
  deriving DecidableEq, Repr

/-- Block `if req.Email != ""`: record the address of the new account. -/
def storeEmail (req : NewUserDTO) (id : String) (r : Run) : Run :=
  if req.Email ≠ "" then
    { state := { r.state with
                 emails := r.state.emails.put id { Addr := req.Email, Contact := true } }
      trace := r.trace ++ [Event.storeEmails] }
  else r

/-- The account expiry computed from the invite's offset. -/
def userExpiry (env : Env) (invite : Invite) : Time :=
  env.addDate env.nowExpiry invite.UserMonths invite.UserDays
    + (60 * invite.UserHours + invite.UserMinutes) * 60000000000

/-- Block `if invite.UserExpiry`: take `usersLock` (released on return) and
record the expiry of the new account. -/
def storeExpiry (env : Env) (invite : Invite) (id : String) (r : Run) : Run :=
  if invite.UserExpiry then
    { state := { r.state with users := r.state.users.put id (userExpiry env invite) }
      trace := r.trace ++ [Event.lockUsers, Event.storeUsers] }
  else r

/-- Block `if discordEnabled && discordVerified`: link the Discord identity and
drop its PIN when the store write succeeds. -/
def linkDiscord (cfg : Config) (env : Env) (req : NewUserDTO) (id : String)
    (discordUser : DiscordUser) (discordVerified : Bool) (r : Run) : Run :=
  if cfg.discordEnabled && discordVerified then
    let s₁ := { r.state with
                discord := r.state.discord.put id { discordUser with Contact := req.DiscordContact } }
    let s₂ := if env.storeDiscordUsersErr then s₁
      else { s₁ with discordTokens := s₁.discordTokens.del req.DiscordPIN }
    { state := s₂, trace := r.trace ++ [Event.storeDiscordUsers] }
  else r

/-- The swap with the last element followed by the truncation, by which
`newUser` removes `verifiedTokens[i]`. -/
def swapRemove {α : Type} (l : List α) (i : Nat) : List α :=
  match l[i]?, l[l.length - 1]? with
  | some x, some y => ((l.set (l.length - 1) x).set i y).take (l.length - 1)
  | _, _ => l

/-- Block `if telegramEnabled && telegramTokenIndex != -1`: link the Telegram
identity and drop its token when the store write succeeds. -/
def linkTelegram (cfg : Config) (env : Env) (req : NewUserDTO) (id : String)
    (telegramTokenIndex : Option Nat) (r : Run) : Run :=
  match telegramTokenIndex with
  | none => r
  | some i =>
    if cfg.telegramEnabled then
      let tgToken := (r.state.telegramTokens[i]?).getD {}
      let tgUser : TelegramUser :=
        { ChatID := tgToken.ChatID
          Username := tgToken.Username
          Contact := req.TelegramContact
          Lang := (r.state.telegramLanguages.get tgToken.ChatID).getD "" }
      let s₁ := { r.state with telegram := r.state.telegram.put id tgUser }
      let s₂ := if env.storeTelegramUsersErr then s₁
        else { s₁ with telegramTokens := swapRemove s₁.telegramTokens i }
      { state := s₂, trace := r.trace ++ [Event.storeTelegramUsers] }
    else r

/-- Outcome of `getOmbiUser`: a user returned with status 200 and no error, a
return with an error or another status, or a panic. -/
inductive OmbiLookup where
  | found
  | failed
  | panic
  deriving DecidableEq, Repr

/-- The loop `for _, ombiUser := range ombiUsers` of `getOmbiUser`.  The type
assertion `a.(string)` is made for an `emailAddress` that is present and not
nil, and panics when that is not a string; the type assertion
`ombiUser["userName"].(string)` is made for every record visited, and panics
when `userName` is absent, nil or not a string.  The loop ends without a user
when no record matches (`Couldn't find user`, status 400). -/
def ombiScan (username email : String) : List OmbiUser → OmbiLookup
  | [] => .failed
  | ombiUser :: rest =>
    if ombiUser.emailAddress = .other then .panic
    else
      let ombiAddr := match ombiUser.emailAddress with
        | .str a => a
        | _ => ""
      match ombiUser.userName with
      | .str name =>
        if name = username ∨ (ombiAddr = email ∧ email ≠ "") then .found
        else ombiScan username email rest
      | _ => .panic

/-- Function `getOmbiUser(jfID)` on the state `s`: its outcome and the calls
made. -/
def getOmbiUser (env : Env) (s : AppState) (id : String) : OmbiLookup × List Event :=
  if !env.ombiGetUsers.ok200 then (.failed, [Event.ombiGetUsers])
  else if !env.jfUserByID.ok200 then (.failed, [Event.ombiGetUsers, Event.jfUserByID id])
  else
    let email := match s.emails.get id with
      | some e => e.Addr
      | none => ""
    (ombiScan env.jfUserName email env.ombiUsers, [Event.ombiGetUsers, Event.jfUserByID id])

/-- Block `if invite.Profile != "" && ombi enabled`: the companion-service
calls made, and whether the block panicked (in `getOmbiUser`). -/
def ombiCalls (cfg : Config) (env : Env) (req : NewUserDTO) (id : String) (invite : Invite)
    (profile : Profile) (discordUser : DiscordUser) (discordVerified : Bool)
    (telegramTokenIndex : Option Nat) (s : AppState) : List Event × Bool :=
  if invite.Profile ≠ "" && cfg.ombiEnabled then
    if profile.Ombi.length != 0 then
      if !env.ombiNewUser.ok200 then ([Event.ombiNewUser req.Username], false)
      else if (cfg.discordEnabled && discordVerified) ||
          (cfg.telegramEnabled && telegramTokenIndex.isSome) then
        let found := getOmbiUser env s id
        let dID := if cfg.discordEnabled && discordVerified then discordUser.ID else ""
        let tUser :=
          if cfg.telegramEnabled && telegramTokenIndex.isSome then
            ((s.telegram.get id).getD {}).Username
          else ""
        (Event.ombiNewUser req.Username :: found.2 ++
          (if found.1 = .found then [Event.ombiSetNotificationPrefs dID tUser] else []),
          decide (found.1 = .panic))
      else ([Event.ombiNewUser req.Username], false)
    else ([], false)
  else ([], false)

/-- Block `if matrixVerified`: drop the Matrix PIN and link the identity. -/
def linkMatrix (req : NewUserDTO) (id : String) (matrixUser : MatrixUser)
    (matrixVerified : Bool) (r : Run) : Run :=
  if matrixVerified then
    { state := { r.state with
                 matrixTokens := r.state.matrixTokens.del req.MatrixPIN
                 matrix := r.state.matrix.put id { matrixUser with Contact := req.MatrixContact } }
      trace := r.trace ++ [Event.storeMatrixUsers] }
  else r

/-- The welcome-message block. -/
def welcomeCalls (cfg : Config) (env : Env) (req : NewUserDTO) (id : String)
    (discordVerified : Bool) (telegramTokenIndex : Option Nat) : List Event :=
  if (cfg.emailEnabled && cfg.welcomeEmail && decide (req.Email ≠ "")) ||
      telegramTokenIndex.isSome || discordVerified then
    Event.constructWelcome req.Username ::
      (if env.constructWelcomeErr then [] else [Event.sendByID id])
  else []

/-- The part of `newUser` after `app.jf.NewUser` has succeeded, up to the
companion-service block: the consumption of the invite, the notices, the
profile, and the stores of the address, the expiry and the Discord and
Telegram identities. -/
def provisionHead (cfg : Config) (env : Env) (s : AppState) (req : NewUserDTO)
    (discordUser : DiscordUser) (discordVerified : Bool)
    (telegramTokenIndex : Option Nat) (pre : List Event) : Run :=
  let invite := (s.invites.get req.Code).getD default
  let c := checkInvite cfg s env.nowConsume req.Code true req.Username
  let id := env.newUserID
  let applied := applyProfile env c.state id invite
  let r₀ : Run :=
    { state := c.state
      trace := pre ++ [Event.loadProfiles] ++ c.trace ++
        createdNotices cfg req.Code invite ++ applied.2 }
  let r₁ := storeEmail req id r₀
  let r₂ := storeExpiry env invite id r₁
  let r₃ := linkDiscord cfg env req id discordUser discordVerified r₂
  linkTelegram cfg env req id telegramTokenIndex r₃

/-- The companion-service block of `newUser`, run after `provisionHead`. -/
def ombiStep (cfg : Config) (env : Env) (s : AppState) (req : NewUserDTO)
    (discordUser : DiscordUser) (discordVerified : Bool)
    (telegramTokenIndex : Option Nat) (pre : List Event) : List Event × Bool :=
  let invite := (s.invites.get req.Code).getD default
  let c := checkInvite cfg s env.nowConsume req.Code true req.Username
  ombiCalls cfg env req env.newUserID invite (applyProfile env c.state env.newUserID invite).1
    discordUser discordVerified telegramTokenIndex
    (provisionHead cfg env s req discordUser discordVerified telegramTokenIndex pre).state

/-- The part of `newUser` after `app.jf.NewUser` has succeeded.  A panic in the
companion-service block ends the run there: the Matrix link, the welcome
message and `success = true` are not reached, and the deferred `Unlock` runs. -/
def provision (cfg : Config) (env : Env) (s : AppState) (req : NewUserDTO)
    (discordUser : DiscordUser) (discordVerified : Bool)
    (matrixUser : MatrixUser) (matrixVerified : Bool)
    (telegramTokenIndex : Option Nat) (pre : List Event) : NewUserResult :=
  let invite := (s.invites.get req.Code).getD default
  let id := env.newUserID
  let r₄ := provisionHead cfg env s req discordUser discordVerified telegramTokenIndex pre
  let ombi := ombiStep cfg env s req discordUser discordVerified telegramTokenIndex pre
  if ombi.2 then
    { state := r₄.state, f := none, success := false, panicked := true
      trace := r₄.trace ++ ombi.1 ++ (if invite.UserExpiry then [Event.unlockUsers] else []) }
  else
    let r₅ : Run := { r₄ with trace := r₄.trace ++ ombi.1 }
    let r₆ := linkMatrix req id matrixUser matrixVerified r₅
    let r₇ : Run :=
      { state := { r₆.state with cacheExpiry := env.nowCache }
        trace := r₆.trace ++ welcomeCalls cfg env req id discordVerified telegramTokenIndex ++
          (if invite.UserExpiry then [Event.unlockUsers] else []) }
    { state := r₇.state, f := none, success := true, trace := r₇.trace }

/-- The account-creation step of `newUser` and what follows it. -/
def createAccount (cfg : Config) (env : Env) (s : AppState) (req : NewUserDTO)
    (discordUser : DiscordUser) (discordVerified : Bool)
    (matrixUser : MatrixUser) (matrixVerified : Bool)
    (telegramTokenIndex : Option Nat) (pre : List Event) : NewUserResult :=
  let pre₁ := pre ++ [Event.jfNewUser req.Username req.Password]
  if !env.jfNewUser.ok then
    { state := s, f := some { resp := respond 401 env.langErrorUnknown }, success := false
      trace := pre₁ }
  else
    provision cfg env s req discordUser discordVerified matrixUser matrixVerified
      telegramTokenIndex pre₁

/-- Function `newUser(req, confirmed)`. -/
def newUser (cfg : Config) (env : Env) (s : AppState) (req : NewUserDTO) (confirmed : Bool) :
    NewUserResult :=
  let t₀ := [Event.userByName req.Username]
  if env.existingUserName ≠ "" then
    { state := s, f := some { resp := respond 401 "errorUserExists" }, success := false
      trace := t₀ }
  else
    match discordCheck cfg env s req with
    | (td, .error resp) =>
      { state := s, f := some { resp := resp }, success := false, trace := t₀ ++ td }
    | (td, .ok (discordUser, discordVerified)) =>
      match matrixCheck cfg s req with
      | .error resp =>
        { state := s, f := some { resp := resp }, success := false, trace := t₀ ++ td }
      | .ok (matrixUser, matrixVerified) =>
        match telegramCheck cfg s req with
        | .error resp =>
          { state := s, f := some { resp := resp }, success := false, trace := t₀ ++ td }
        | .ok telegramTokenIndex =>
          if cfg.emailEnabled && cfg.emailConfirmation && !confirmed then
            confirmationGate env s req (t₀ ++ td)
          else
            createAccount cfg env s req discordUser discordVerified matrixUser matrixVerified
              telegramTokenIndex (t₀ ++ td)

/-! ## `NewUser` -/

/-- What the handler `NewUser` sends: a `stringResponse`, or the password
validation map with a status code. -/
inductive Reply where
  | message (r : HttpResponse)
  | validation (code : Int) (v : GoMap String Bool)
  /-- The handler panics: `newUser` panicked, or a nil `errorFunc` is called. -/
  | panic
  deriving DecidableEq, Repr

/-- Answers of the collaborators of the handler `NewUser` ahead of `newUser`. -/
structure HandlerEnv where
  /-- Result of `app.verifyCaptcha`. -/
  captchaOk : Bool := true
  /-- `time.Now()` read by the validating `checkInvite`. -/
  nowValidate : Time := 0
  /-- Result of `app.validator.validate(req.Password)`. -/
  validation : GoMap String Bool := []
  /-- Answers during `newUser`. -/
  env : Env := {}

/-- Result of the handler: the state afterwards, the response, the calls
made. -/
structure HandlerResult where
  state : AppState
  reply : Reply
  trace : List Event
  deriving DecidableEq, Repr

/-- Handler `NewUser(gc)` for the request body `req`. -/
def NewUser (cfg : Config) (h : HandlerEnv) (s : AppState) (req : NewUserDTO) : HandlerResult :=
  if cfg.captchaEnabled && !h.captchaOk then
    { state := s, reply := .message (respond 400 "errorCaptcha")
      trace := [Event.verifyCaptcha req.Code] }
  else
    let t₀ := if cfg.captchaEnabled then [Event.verifyCaptcha req.Code] else []
    let c := checkInvite cfg s h.nowValidate req.Code false ""
    if !c.ok then
      { state := c.state, reply := .message (respond 401 "errorInvalidCode")
        trace := t₀ ++ c.trace }
    else
      let t₁ := t₀ ++ c.trace ++ [Event.validatePassword]
      let valid := h.validation.all (fun e => e.2)
      if !valid then
        { state := c.state, reply := .validation 200 h.validation, trace := t₁ }
      else if cfg.emailEnabled && cfg.emailRequired && !(req.Email.contains '@') then
        { state := c.state, reply := .message (respond 400 "errorNoEmail"), trace := t₁ }
      else
        let r := newUser cfg h.env c.state req false
        if !r.success then
          match r.f with
          | some f =>
            { state := r.state, reply := .message f.resp, trace := t₁ ++ r.trace ++ f.after }
          | none => { state := r.state, reply := .panic, trace := t₁ ++ r.trace }
        else
          { state := r.state
            reply := .validation (if h.validation.all (fun e => e.2) then 200 else 400)
              h.validation
            trace := t₁ ++ r.trace }

/-! ## Observations on traces -/

/-- Whether the event is the account-service call that creates a user. -/
def Event.isAccountCreation : Event → Bool
  | .jfNewUser _ _ => true
  | _ => false

/-- Whether a run called the account service to create a user. -/
def createsAccount (t : List Event) : Bool := t.any Event.isAccountCreation

/-- Whether the event is the signing of a confirmation token. -/
def Event.isTokenIssue : Event → Bool
  | .signToken _ => true
  | _ => false

/-- Whether a run issued a confirmation token. -/
def issuesToken (t : List Event) : Bool := t.any Event.isTokenIssue

/-- Whether every enabled provider's check of `newUser` passes. -/
def checksPass (cfg : Config) (env : Env) (s : AppState) (req : NewUserDTO) : Bool :=
  match (discordCheck cfg env s req).2, matrixCheck cfg s req, telegramCheck cfg s req with
  | .ok _, .ok _, .ok _ => true
  | _, _, _ => false

/-- The condition of the confirmation gate. -/
def gateOpen (cfg : Config) (confirmed : Bool) : Bool :=
  cfg.emailEnabled && cfg.emailConfirmation && !confirmed

/-! ## `checkInvites` -/

/-- Result of `checkInvites`: the state afterwards and the calls made. -/
structure SweepResult where
  state : AppState
  trace : List Event
  deriving DecidableEq, Repr

/-- The `for code, data := range app.storage.invites` loop of `checkInvites`,
over the entries the map had when the loop started: the map, the flag `changed`
and the calls made so far are threaded through.  The only entry a step deletes
is the one it is visiting, so no entry still to be visited disappears. -/
def sweepLoop (cfg : Config) (now : Time) :
    List (String × Invite) → GoMap String Invite → Bool → List Event →
      GoMap String Invite × Bool × List Event
  | [], m, changed, t => (m, changed, t)
  | (code, data) :: rest, m, changed, t =>
    if !now.after data.ValidTill then sweepLoop cfg now rest m changed t
    else sweepLoop cfg now rest (m.del code) true (t ++ expiryNotices cfg code data)

/-- Function `checkInvites()` run at instant `now`. -/
def checkInvites (cfg : Config) (s : AppState) (now : Time) : SweepResult :=
  let r := sweepLoop cfg now s.invites s.invites false []
  { state := { s with invites := r.1 }
    trace := r.2.2 ++ (if r.2.1 then [Event.storeInvites] else []) }

/-- Number of `storeInvites()` calls in a trace. -/
def storeCount (t : List Event) : Nat := t.count Event.storeInvites

/-! ## `GenerateInvite` -/

/-- Request body `generateInviteDTO`. -/
structure GenerateInviteDTO where
  Months : Int := 0
  Days : Int := 0
  Hours : Int := 0
  Minutes : Int := 0
  Label : String := ""
  MultipleUses : Bool := false
  NoLimit : Bool := false
  RemainingUses : Int := 0
  UserExpiry : Bool := false
  UserMonths : Int := 0
  UserDays : Int := 0
  UserHours : Int := 0
  UserMinutes : Int := 0
  SendTo : String := ""
  Profile : String := ""
  deriving DecidableEq, Repr

/-- Struct `boolResponse`. -/
structure BoolResponse where
  Success : Bool := false
  Error : Bool := false
  deriving DecidableEq, Repr

/-- Function `respondBool(code, val, gc)`: the status and the body sent. -/
def respondBool (code : Int) (val : Bool) : Int × BoolResponse :=
  if !val then (code, { Error := true }) else (code, { Success := true })

/-- Answers of the collaborators during one run of `GenerateInvite`. -/
structure GenerateEnv where
  /-- `time.Now()`. -/
  now : Time := 0
  /-- Method `Time.AddDate(0, months, days)`. -/
  addDate : Time → Int → Int → Time := fun t _ _ => t
  /-- The successive results of `shortuuid.New()`. -/
  codes : List String := []
  /-- The `User.ID` of the users returned by `app.discord.GetUsers(req.SendTo)`. -/
  discordUsers : List String := []
  /-- Whether `constructInvite` returns an error. -/
  constructInviteErr : Bool := false
  /-- Whether the send (`SendDM` or `email.send`) returns an error. -/
  sendErr : Bool := false

/-- The code loop of `GenerateInvite`: calls of `shortuuid.New()` are repeated
while `strconv.Atoi(string(inviteCode[0]))` succeeds, that is while the code
begins with a decimal digit.  `none` when the results supplied run out before
a usable code, or when a code is empty (the index `inviteCode[0]` panics). -/
def pickCode : List String → Option String
  | [] => none
  | c :: rest =>
    match c.data with
    | [] => none
    | ch :: _ => if ch.isDigit then pickCode rest else some c

/-- The `RemainingUses` / `NoLimit` block of `GenerateInvite`, applied to the
zero-valued invite. -/
def setUses (req : GenerateInviteDTO) (invite : Invite) : Invite :=
  if req.MultipleUses then
    if req.NoLimit then { invite with NoLimit := true }
    else { invite with RemainingUses := req.RemainingUses }
  else { invite with RemainingUses := 1 }

/-- The `UserExpiry` block of `GenerateInvite`. -/
def setUserExpiry (req : GenerateInviteDTO) (invite : Invite) : Invite :=
  if req.UserExpiry then
    { invite with
      UserExpiry := true
      UserMonths := req.UserMonths
      UserDays := req.UserDays
      UserHours := req.UserHours
      UserMinutes := req.UserMinutes }
  else { invite with UserExpiry := false }

/-- The block `if req.SendTo != "" && invite_emails enabled` of
`GenerateInvite`: the invite with `SendTo` set, and the calls made. -/
def sendInvite (cfg : Config) (env : GenerateEnv) (req : GenerateInviteDTO)
    (inviteCode : String) (invite : Invite) : Invite × List Event :=
  if req.SendTo ≠ "" && cfg.inviteEmails then
    let resolved : Invite × Bool × String × List Event :=
      if cfg.discordEnabled && !(req.SendTo.contains '@') then
        if env.discordUsers.length = 0 then
          ({ invite with SendTo := "Failed: User not found: \"" ++ req.SendTo ++ "\"" },
            false, "", [Event.discordGetUsers req.SendTo])
        else if env.discordUsers.length > 1 then
          ({ invite with SendTo := "Failed: Multiple users found: \"" ++ req.SendTo ++ "\"" },
            false, "", [Event.discordGetUsers req.SendTo])
        else
          ({ invite with SendTo := req.SendTo }, true, env.discordUsers.headD "",
            [Event.discordGetUsers req.SendTo])
      else if cfg.emailEnabled then ({ invite with SendTo := req.SendTo }, true, "", [])
      else (invite, false, "", [])
    let invite₁ := resolved.1
    let addressValid := resolved.2.1
    let discord := resolved.2.2.1
    let t₁ := resolved.2.2.2
    if addressValid then
      if env.constructInviteErr then
        ({ invite₁ with SendTo := "Failed to send to " ++ req.SendTo },
          t₁ ++ [Event.constructInvite inviteCode])
      else
        let sent := if discord ≠ "" then Event.discordSendDM discord
          else Event.emailSend req.SendTo
        if env.sendErr then
          ({ invite₁ with SendTo := "Failed to send to " ++ req.SendTo },
            t₁ ++ [Event.constructInvite inviteCode, sent])
        else (invite₁, t₁ ++ [Event.constructInvite inviteCode, sent])
    else (invite₁, t₁)
  else (invite, [])

/-- The `Profile` block of `GenerateInvite`. -/
def setProfile (s : AppState) (req : GenerateInviteDTO) (invite : Invite) : Invite :=
  if req.Profile ≠ "" then
    if (s.profiles.get req.Profile).isSome then { invite with Profile := req.Profile }
    else { invite with Profile := "Default" }
  else invite

/-- Result of `GenerateInvite`: the state afterwards, the code and the invite
stored under it, the response, and the calls made. -/
structure GenerateResult where
  state : AppState
  code : String
  invite : Invite
  reply : Int × BoolResponse
  trace : List Event
  deriving DecidableEq, Repr

/-- The invite `GenerateInvite` builds for the code `inviteCode`, and the calls
made while building it. -/
def buildInvite (cfg : Config) (env : GenerateEnv) (s : AppState) (req : GenerateInviteDTO)
    (inviteCode : String) : Invite × List Event :=
  let validTill : Time :=
    env.addDate env.now req.Months req.Days
      + (3600000000000 * req.Hours + 60000000000 * req.Minutes)
  let invite₀ : Invite := if req.Label ≠ "" then { Label := req.Label } else {}
  let invite₁ := { invite₀ with Created := env.now }
  let invite₂ := setUses req invite₁
  let invite₃ := setUserExpiry req invite₂
  let invite₄ := { invite₃ with ValidTill := validTill }
  let sent := sendInvite cfg env req inviteCode invite₄
  (setProfile s req sent.1, sent.2)

/-- Handler `GenerateInvite(gc)` for the request body `req`; `none` when the
code loop yields no code. -/
def GenerateInvite (cfg : Config) (env : GenerateEnv) (s : AppState)
    (req : GenerateInviteDTO) : Option GenerateResult :=
  match pickCode env.codes with
  | none => none
  | some inviteCode =>
    let built := buildInvite cfg env s req inviteCode
    some
      { state := { s with invites := s.invites.put inviteCode built.1 }
        code := inviteCode
        invite := built.1
        reply := respondBool 200 true
        trace := built.2 ++ [Event.storeInvites] }

/-! ## Further observations on traces -/

/-- Whether the event is the application of the Discord role. -/
def Event.isRoleApplication : Event → Bool
  | .applyRole _ => true
  | _ => false

/-- Whether a run applied the Discord role to a user. -/
def appliesRole (t : List Event) : Bool := t.any Event.isRoleApplication

/-- Whether the event is a call to the account service, a call to the
companion service, or the sending of a mail or chat message. -/
def Event.isExternalCall : Event → Bool
  | .userByName _ => true
  | .jfNewUser _ _ => true
  | .setPolicy _ => true
  | .setConfiguration _ => true
  | .setDisplayPreferences _ => true
  | .jfUserByID _ => true
  | .jfGetUsers => true
  | .ombiNewUser _ => true
  | .ombiGetUsers => true
  | .ombiSetNotificationPrefs _ _ => true
  | .linkExistingOmbiDiscordTelegram => true
  | .expiryNotice _ _ => true
  | .createdNotice _ _ => true
  | .sendByID _ => true
  | .emailSend _ => true
  | .discordSendDM _ => true
  | _ => false

/-- Whether, in a trace read from left to right with `usersLock` held or not at
its start, some account-service call, companion-service call or send happens
while the lock is held. -/
def lockHeldAtCall : Bool → List Event → Bool
  | _, [] => false
  | held, e :: rest =>
    match e with
    | .lockUsers => lockHeldAtCall true rest
    | .unlockUsers => lockHeldAtCall false rest
    | _ => (held && e.isExternalCall) || lockHeldAtCall held rest

/-! ## Handlers of the admin interface -/

/-- What a handler of the admin interface sends: a `stringResponse` through
`respond`, or a `boolResponse` through `respondBool`. -/
inductive AdminReply where
  | message (r : HttpResponse)
  | bool (r : Int × BoolResponse)
  deriving DecidableEq, Repr

/-- Result of a handler of the admin interface: the state afterwards, the
response, the calls made. -/
structure AdminResult where
  state : AppState
  reply : AdminReply
  trace : List Event
  deriving DecidableEq, Repr

/-- Request body `inviteProfileDTO`. -/
structure InviteProfileDTO where
  Invite : String := ""
  Profile : String := ""
  deriving DecidableEq, Repr

/-- Handler `SetProfile(gc)` for the request body `req`. -/
def SetProfile (s : AppState) (req : InviteProfileDTO) : AdminResult :=
  if (s.profiles.get req.Profile).isNone && decide (req.Profile ≠ "") then
    { state := s, reply := .message (respond 500 "Profile not found"), trace := [] }
  else
    let inv := (s.invites.get req.Invite).getD default
    let inv₁ := { inv with Profile := req.Profile }
    { state := { s with invites := s.invites.put req.Invite inv₁ }
      reply := .bool (respondBool 200 true)
      trace := [Event.storeInvites] }

/-- Request body `profileChangeDTO`. -/
structure ProfileChangeDTO where
  Name : String := ""
  deriving DecidableEq, Repr

/-- The loop `for name, profile := range app.storage.profiles` of
`SetDefaultProfile`, over the entries the map had when the loop started.  For
the entry named `name` the loop variable is assigned and written back to the
map; for every other entry the loop variable, a copy of the map value, is
assigned and the map is not written. -/
def markDefault (name : String) :
    List (String × Profile) → GoMap String Profile → GoMap String Profile
  | [], m => m
  | (n, profile) :: rest, m =>
    if n = name then markDefault name rest (m.put n { profile with Admin := true })
    else markDefault name rest m

/-- Handler `SetDefaultProfile(gc)` for the request body `req`. -/
def SetDefaultProfile (s : AppState) (req : ProfileChangeDTO) : AdminResult :=
  if (s.profiles.get req.Name).isNone then
    { state := s, reply := .message (respond 500 "Profile not found"), trace := [] }
  else
    { state := { s with
                 profiles := markDefault req.Name s.profiles s.profiles
                 defaultProfile := req.Name }
      reply := .bool (respondBool 200 true)
      trace := [] }

/-- Handler `DeleteProfile(gc)` for the request body `req`. -/
def DeleteProfile (s : AppState) (req : ProfileChangeDTO) : AdminResult :=
  let s₁ :=
    if (s.profiles.get req.Name).isSome then
      { s with
        defaultProfile := if s.defaultProfile = req.Name then "" else s.defaultProfile
        profiles := s.profiles.del req.Name }
    else s
  { state := s₁, reply := .bool (respondBool 200 true), trace := [Event.storeProfiles] }

/-- The assignment `profiles[i] = v` to a slice: `none`, a run-time panic, when
the index is out of range. -/
def setIndex (xs : List String) (i : Nat) (v : String) : Option (List String) :=
  if i < xs.length then some (xs.set i v) else none

/-- The loop `for p := range app.storage.profiles` of `GetInvites`, with the
slice `profiles` and the index `i` threaded through. -/
def fillProfiles (defaultProfile : String) :
    List (String × Profile) → List String → Nat → Option (List String)
  | [], profiles, _ => some profiles
  | (p, _) :: rest, profiles, i =>
    if p ≠ defaultProfile then
      match setIndex profiles i p with
      | none => none
      | some profiles₁ => fillProfiles defaultProfile rest profiles₁ (i + 1)
    else fillProfiles defaultProfile rest profiles i

/-- The slice `profiles` that `GetInvites` builds for its response; `none`
when building it panics. -/
def profileList (s : AppState) : Option (List String) :=
  let profiles := List.replicate s.profiles.length ""
  if s.profiles.length ≠ 0 then
    match setIndex profiles 0 s.defaultProfile with
    | none => none
    | some profiles₀ =>
      if s.profiles.length > 1 then fillProfiles s.defaultProfile s.profiles profiles₀ 1
      else some profiles₀
  else some profiles

/-- Request body `telegramSetDTO`. -/
structure TelegramSetDTO where
  Token : String := ""
  ID : String := ""
  deriving DecidableEq, Repr

/-- Answers of the collaborators during one run of `TelegramAddUser`. -/
structure TelegramAddEnv where
  storeTelegramUsersErr : Bool := false

/-- Handler `TelegramAddUser(gc)` for the request body `req`. -/
def TelegramAddUser (env : TelegramAddEnv) (s : AppState) (req : TelegramSetDTO) :
    AdminResult :=
  if req.Token = "" ∨ req.ID = "" then
    { state := s, reply := .bool (respondBool 400 false), trace := [] }
  else
    match telegramFind s.telegramTokens req.Token with
    | none => { state := s, reply := .bool (respondBool 500 false), trace := [] }
    | some tokenIndex =>
      let tgToken := (s.telegramTokens[tokenIndex]?).getD {}
      let tgUser : TelegramUser :=
        { ChatID := tgToken.ChatID
          Username := tgToken.Username
          Contact := true
          Lang := (s.telegramLanguages.get tgToken.ChatID).getD "" }
      let s₁ := { s with telegram := s.telegram.put req.ID tgUser }
      let s₂ := if env.storeTelegramUsersErr then s₁
        else { s₁ with telegramTokens := swapRemove s₁.telegramTokens tokenIndex }
      { state := s₂
        reply := .bool (respondBool 200 true)
        trace := [Event.storeTelegramUsers, Event.linkExistingOmbiDiscordTelegram] }

/-- Request body `extendExpiryDTO`. -/
structure ExtendExpiryDTO where
  Users : List String := []
  Months : Int := 0
  Days : Int := 0
  Hours : Int := 0
  Minutes : Int := 0
  deriving DecidableEq, Repr

/-- Answers of the collaborators during one run of `ExtendExpiry`. -/
structure ExtendEnv where
  /-- `time.Now()`, read for a user that has no expiry yet. -/
  now : Time := 0
  /-- Method `Time.AddDate(0, months, days)`. -/
  addDate : Time → Int → Int → Time := fun t _ _ => t
  storeUsersErr : Bool := false

/-- The loop `for _, id := range req.Users` of `ExtendExpiry`. -/
def extendLoop (env : ExtendEnv) (req : ExtendExpiryDTO) :
    List String → GoMap String Time → GoMap String Time
  | [], users => users
  | id :: rest, users =>
    let base := match users.get id with
      | some expiry => expiry
      | none => env.now
    extendLoop env req rest
      (users.put id
        (env.addDate base req.Months req.Days + (60 * req.Hours + req.Minutes) * 60000000000))

/-- Handler `ExtendExpiry(gc)` for the request body `req`; the deferred
`Unlock` runs when the handler returns. -/
def ExtendExpiry (env : ExtendEnv) (s : AppState) (req : ExtendExpiryDTO) : AdminResult :=
  if req.Months ≤ 0 ∧ req.Days ≤ 0 ∧ req.Hours ≤ 0 ∧ req.Minutes ≤ 0 then
    { state := s, reply := .bool (respondBool 400 false), trace := [] }
  else
    let s₁ := { s with users := extendLoop env req req.Users s.users }
    { state := s₁
      reply := .bool (if env.storeUsersErr then respondBool 500 false else respondBool 204 true)
      trace := [Event.lockUsers, Event.storeUsers, Event.unlockUsers] }

/-- Handler `GetUsers(gc)`: the status it sends and its calls and lock
operations, in program order.  Between `Lock` and the deferred `Unlock` the
handler reads the in-memory maps to fill the body of its response, which is
left out here. -/
def GetUsers (jfGetUsers : CallResult) : Int × List Event :=
  if !jfGetUsers.ok then (500, [Event.jfGetUsers])
  else (200, [Event.jfGetUsers, Event.lockUsers, Event.unlockUsers])

/-! ## `timeDiff` -/

/-- A `time.Time` whose location is UTC, by the fields its methods `Date` and
`Clock` return (`year`, `month`, `day`, `hour`, `min`, `sec`) and the
nanosecond within the second. -/
structure UTCTime where
  year : Int := 1
  month : Int := 1
  day : Int := 1
  hour : Int := 0
  min : Int := 0
  sec : Int := 0
  nsec : Int := 0
  deriving DecidableEq, Repr

/-- Leap years of the proleptic Gregorian calendar, which package `time` uses. -/
def isLeap (y : Int) : Bool :=
  decide (y % 4 = 0) && (decide (y % 100 ≠ 0) || decide (y % 400 = 0))

/-- Number of days of month `m` of year `y`. -/
def daysIn (y m : Int) : Int :=
  if m = 2 then (if isLeap y then 29 else 28)
  else if m = 4 ∨ m = 6 ∨ m = 9 ∨ m = 11 then 30
  else 31

/-- The field values `Date` and `Clock` can return. -/
def UTCTime.valid (t : UTCTime) : Bool :=
  decide (1 ≤ t.month) && decide (t.month ≤ 12) &&
  decide (1 ≤ t.day) && decide (t.day ≤ daysIn t.year t.month) &&
  decide (0 ≤ t.hour) && decide (t.hour ≤ 23) &&
  decide (0 ≤ t.min) && decide (t.min ≤ 59) &&
  decide (0 ≤ t.sec) && decide (t.sec ≤ 59) &&
  decide (0 ≤ t.nsec) && decide (t.nsec ≤ 999999999)

/-- Method `Time.After` on two times in UTC: the fields of `a` come later than
those of `b`, compared from the year down to the nanosecond. -/
def UTCTime.after (a b : UTCTime) : Bool :=
  decide (b.year < a.year) || (decide (b.year = a.year) &&
  (decide (b.month < a.month) || (decide (b.month = a.month) &&
  (decide (b.day < a.day) || (decide (b.day = a.day) &&
  (decide (b.hour < a.hour) || (decide (b.hour = a.hour) &&
  (decide (b.min < a.min) || (decide (b.min = a.min) &&
  (decide (b.sec < a.sec) || (decide (b.sec = a.sec) &&
  decide (b.nsec < a.nsec))))))))))))

/-- The value `time.Date(y, M, 32, 0, 0, 0, 0, time.UTC).Day()`: day 32 of a
month is normalised to a day of the month after it. -/
def dayOf32 (y m : Int) : Int := 32 - daysIn y m

/-- The six results of `timeDiff`. -/
structure TimeDiff where
  year : Int
  month : Int
  day : Int
  hour : Int
  min : Int
  sec : Int
  deriving DecidableEq, Repr

/-- The body of `timeDiff` after the swap `if a.After(b) { a, b = b, a }`: the
field differences, then the five normalisation steps in the order of the
source. -/
def fieldDiff (a b : UTCTime) : TimeDiff :=
  let year := b.year - a.year
  let month := b.month - a.month
  let day := b.day - a.day
  let hour := b.hour - a.hour
  let min := b.min - a.min
  let sec := b.sec - a.sec
  let min₁ := if sec < 0 then min - 1 else min
  let sec₁ := if sec < 0 then sec + 60 else sec
  let hour₁ := if min₁ < 0 then hour - 1 else hour
  let min₂ := if min₁ < 0 then min₁ + 60 else min₁
  let day₁ := if hour₁ < 0 then day - 1 else day
  let hour₂ := if hour₁ < 0 then hour₁ + 24 else hour₁
  let month₁ := if day₁ < 0 then month - 1 else month
  let day₂ := if day₁ < 0 then day₁ + (32 - dayOf32 a.year a.month) else day₁
  let year₁ := if month₁ < 0 then year - 1 else year
  let month₂ := if month₁ < 0 then month₁ + 12 else month₁
  { year := year₁, month := month₂, day := day₂, hour := hour₂, min := min₂, sec := sec₁ }

/-- Function `timeDiff(a, b)` for two times in UTC (so that the conversion
`b.In(a.Location())` is not taken). -/
def timeDiff (a b : UTCTime) : TimeDiff :=
  if a.after b then fieldDiff b a else fieldDiff a b

/-! ## Lemmas on Go maps -/

namespace GoMap

variable {κ α : Type} [DecidableEq κ]

theorem get_del_self (m : GoMap κ α) (k : κ) : (m.del k).get k = none := by
  induction m with
  | nil => rfl
  | cons e rest ih =>
    obtain ⟨k₁, v⟩ := e
    by_cases h : k₁ = k
    · simp [del, h, ih]
    · simp [del, h, get, ih]

theorem get_del_ne (m : GoMap κ α) {k k₂ : κ} (h : k₂ ≠ k) :
    (m.del k).get k₂ = m.get k₂ := by
  induction m with
  | nil => rfl
  | cons e rest ih =>
    obtain ⟨k₁, v⟩ := e
    by_cases h₁ : k₁ = k
    · have h₂ : ¬ k = k₂ := fun e => h e.symm
      simp [del, h₁, get, h₂, ih]
    · simp [del, h₁, get, ih]

theorem get_put_self (m : GoMap κ α) (k : κ) (v : α) : (m.put k v).get k = some v := by
  induction m with
  | nil => simp [put, get]
  | cons e rest ih =>
    obtain ⟨k₁, v₁⟩ := e
    by_cases h : k₁ = k
    · simp [put, h, get]
    · simp [put, h, get, ih]

theorem get_put_ne (m : GoMap κ α) {k k₂ : κ} (v : α) (h : k₂ ≠ k) :
    (m.put k v).get k₂ = m.get k₂ := by
  induction m with
  | nil => simp [put, get, Ne.symm h]
  | cons e rest ih =>
    obtain ⟨k₁, v₁⟩ := e
    by_cases h₁ : k₁ = k
    · have h₂ : k₁ ≠ k₂ := fun e => h (e ▸ h₁)
      simp [put, h₁, get, Ne.symm h]
    · simp [put, h₁, get, ih]

end GoMap

/-! ## Lemmas on `checkInvite` -/

theorem checkInvite_missing (cfg : Config) (s : AppState) (now : Time) (code : String)
    (used : Bool) (u : String) (h : s.invites.get code = none) :
    checkInvite cfg s now code used u = { state := s, ok := false, trace := [] } := by
  simp [checkInvite, h]

theorem checkInvite_expired (cfg : Config) (s : AppState) (now : Time) (code : String)
    (used : Bool) (u : String) (inv : Invite) (h : s.invites.get code = some inv)
    (hexp : inv.ValidTill < now) :
    checkInvite cfg s now code used u =
      { state := { s with invites := s.invites.del code }, ok := false
        trace := expiryNotices cfg code inv ++ [Event.storeInvites] } := by
  simp [checkInvite, h, Time.after, hexp]

theorem checkInvite_last_use (cfg : Config) (s : AppState) (now : Time) (code u : String)
    (inv : Invite) (h : s.invites.get code = some inv) (hexp : now ≤ inv.ValidTill)
    (h1 : inv.RemainingUses = 1) :
    checkInvite cfg s now code true u =
      { state := { s with invites := s.invites.del code }, ok := true
        trace := [Event.storeInvites] } := by
  simp [checkInvite, h, Time.after, not_lt.mpr hexp, h1]

theorem checkInvite_counted_use (cfg : Config) (s : AppState) (now : Time) (code u : String)
    (inv : Invite) (h : s.invites.get code = some inv) (hexp : now ≤ inv.ValidTill)
    (h1 : inv.RemainingUses ≠ 1) (h0 : inv.RemainingUses ≠ 0) :
    checkInvite cfg s now code true u =
      { state :=
          { s with
            invites := s.invites.put code
              { inv with
                RemainingUses := inv.RemainingUses - 1
                UsedBy := inv.UsedBy ++ [[u, formatInt now.unix]] } }
        ok := true, trace := [Event.storeInvites] } := by
  simp [checkInvite, h, Time.after, not_lt.mpr hexp, h1, h0]

theorem checkInvite_unlimited_use (cfg : Config) (s : AppState) (now : Time) (code u : String)
    (inv : Invite) (h : s.invites.get code = some inv) (hexp : now ≤ inv.ValidTill)
    (h0 : inv.RemainingUses = 0) :
    checkInvite cfg s now code true u =
      { state :=
          { s with
            invites := s.invites.put code
              { inv with UsedBy := inv.UsedBy ++ [[u, formatInt now.unix]] } }
        ok := true, trace := [Event.storeInvites] } := by
  simp [checkInvite, h, Time.after, not_lt.mpr hexp, h0]

theorem checkInvite_validate (cfg : Config) (s : AppState) (now : Time) (code u : String)
    (inv : Invite) (h : s.invites.get code = some inv) (hexp : now ≤ inv.ValidTill) :
    checkInvite cfg s now code false u = { state := s, ok := true, trace := [] } := by
  simp [checkInvite, h, Time.after, not_lt.mpr hexp]

/-- Consuming an unexpired invite with `n + 1` uses left, once at each of
`n + 1` instants: every call returns true and the code is then gone. -/
theorem consumeAt_exhausts (cfg : Config) (code u : String) :
    ∀ (times : List Time) (s : AppState) (inv : Invite),
      s.invites.get code = some inv →
      inv.RemainingUses = (times.length : Int) →
      times ≠ [] →
      (∀ t ∈ times, t ≤ inv.ValidTill) →
      (consumeAt cfg code u s times).2 = List.replicate times.length true ∧
      (consumeAt cfg code u s times).1.invites.get code = none := by
  intro times
  induction times with
  | nil => intro s inv _ _ hne; exact absurd rfl hne
  | cons t ts ih =>
    intro s inv hget huses _ htimes
    have ht : t ≤ inv.ValidTill := htimes t (List.mem_cons_self _ _)
    cases ts with
    | nil =>
      have h1 : inv.RemainingUses = 1 := by simpa using huses
      simp [consumeAt, checkInvite_last_use cfg s t code u inv hget ht h1,
        GoMap.get_del_self]
    | cons t₂ ts₂ =>
      have hlen : inv.RemainingUses = (ts₂.length : Int) + 2 := by
        rw [huses]; simp; ring
      have h1 : inv.RemainingUses ≠ 1 := by omega
      have h0 : inv.RemainingUses ≠ 0 := by omega
      have hstep := checkInvite_counted_use cfg s t code u inv hget ht h1 h0
      have hrec := ih
        { s with
          invites := s.invites.put code
            { inv with
              RemainingUses := inv.RemainingUses - 1
              UsedBy := inv.UsedBy ++ [[u, formatInt (Time.unix t)]] } }
        { inv with RemainingUses := inv.RemainingUses - 1
                   UsedBy := inv.UsedBy ++ [[u, formatInt (Time.unix t)]] }
        (by simp [GoMap.get_put_self])
        (by simp [hlen]; ring)
        (by simp)
        (fun t' ht' => htimes t' (List.mem_cons_of_mem _ ht'))
      rw [consumeAt]
      simp only [hstep]
      refine ⟨?_, hrec.2⟩
      rw [hrec.1]
      simp [List.replicate_succ]

/-! ## Lemmas on traces -/

theorem createsAccount_append (a b : List Event) :
    createsAccount (a ++ b) = (createsAccount a || createsAccount b) := by
  simp [createsAccount]

theorem issuesToken_append (a b : List Event) :
    issuesToken (a ++ b) = (issuesToken a || issuesToken b) := by
  simp [issuesToken]

theorem discordCheck_trace (cfg : Config) (env : Env) (s : AppState) (req : NewUserDTO) :
    createsAccount (discordCheck cfg env s req).1 = false ∧
    issuesToken (discordCheck cfg env s req).1 = false := by
  unfold discordCheck
  cases s.discordTokens.get req.DiscordPIN <;>
    split_ifs <;> constructor <;> rfl

/-! ## Lemmas on `newUser` -/

theorem newUser_name_taken (cfg : Config) (env : Env) (s : AppState) (req : NewUserDTO)
    (confirmed : Bool) (h : env.existingUserName ≠ "") :
    newUser cfg env s req confirmed =
      { state := s, f := some { resp := respond 401 "errorUserExists" }, success := false
        trace := [Event.userByName req.Username] } := by
  simp [newUser, h]

theorem newUser_discord_fails (cfg : Config) (env : Env) (s : AppState) (req : NewUserDTO)
    (confirmed : Bool) (h : env.existingUserName = "") (td : List Event) (e : HttpResponse)
    (hd : discordCheck cfg env s req = (td, .error e)) :
    newUser cfg env s req confirmed =
      { state := s, f := some { resp := e }, success := false
        trace := [Event.userByName req.Username] ++ td } := by
  simp [newUser, h, hd]

theorem newUser_matrix_fails (cfg : Config) (env : Env) (s : AppState) (req : NewUserDTO)
    (confirmed : Bool) (h : env.existingUserName = "") (td : List Event)
    (du : DiscordUser) (dv : Bool) (e : HttpResponse)
    (hd : discordCheck cfg env s req = (td, .ok (du, dv)))
    (hm : matrixCheck cfg s req = .error e) :
    newUser cfg env s req confirmed =
      { state := s, f := some { resp := e }, success := false
        trace := [Event.userByName req.Username] ++ td } := by
  simp [newUser, h, hd, hm]

theorem newUser_telegram_fails (cfg : Config) (env : Env) (s : AppState) (req : NewUserDTO)
    (confirmed : Bool) (h : env.existingUserName = "") (td : List Event)
    (du : DiscordUser) (dv : Bool) (mu : MatrixUser) (mv : Bool) (e : HttpResponse)
    (hd : discordCheck cfg env s req = (td, .ok (du, dv)))
    (hm : matrixCheck cfg s req = .ok (mu, mv))
    (ht : telegramCheck cfg s req = .error e) :
    newUser cfg env s req confirmed =
      { state := s, f := some { resp := e }, success := false
        trace := [Event.userByName req.Username] ++ td } := by
  simp [newUser, h, hd, hm, ht]

theorem newUser_at_gate (cfg : Config) (env : Env) (s : AppState) (req : NewUserDTO)
    (confirmed : Bool) (h : env.existingUserName = "") (td : List Event)
    (du : DiscordUser) (dv : Bool) (mu : MatrixUser) (mv : Bool) (ti : Option Nat)
    (hd : discordCheck cfg env s req = (td, .ok (du, dv)))
    (hm : matrixCheck cfg s req = .ok (mu, mv))
    (ht : telegramCheck cfg s req = .ok ti)
    (hg : gateOpen cfg confirmed = true) :
    newUser cfg env s req confirmed =
      confirmationGate env s req ([Event.userByName req.Username] ++ td) := by
  unfold gateOpen at hg
  simp only [newUser, h, hd, hm, ht, hg]
  simp

theorem newUser_past_gate (cfg : Config) (env : Env) (s : AppState) (req : NewUserDTO)
    (confirmed : Bool) (h : env.existingUserName = "") (td : List Event)
    (du : DiscordUser) (dv : Bool) (mu : MatrixUser) (mv : Bool) (ti : Option Nat)
    (hd : discordCheck cfg env s req = (td, .ok (du, dv)))
    (hm : matrixCheck cfg s req = .ok (mu, mv))
    (ht : telegramCheck cfg s req = .ok ti)
    (hg : gateOpen cfg confirmed = false) :
    newUser cfg env s req confirmed =
      createAccount cfg env s req du dv mu mv ti ([Event.userByName req.Username] ++ td) := by
  unfold gateOpen at hg
  simp only [newUser, h, hd, hm, ht, hg]
  simp

/-- The shape of every run of `newUser`: an early failure that leaves the state
alone and makes no account-service creation call and issues no token, the
confirmation gate, or the account-creation step; the latter two after a prefix
of calls with neither. -/
theorem newUser_split (cfg : Config) (env : Env) (s : AppState) (req : NewUserDTO)
    (confirmed : Bool) :
    ((env.existingUserName ≠ "" ∨ checksPass cfg env s req = false) ∧
      (newUser cfg env s req confirmed).success = false ∧
      (newUser cfg env s req confirmed).state = s ∧
      createsAccount (newUser cfg env s req confirmed).trace = false ∧
      issuesToken (newUser cfg env s req confirmed).trace = false) ∨
    (env.existingUserName = "" ∧ checksPass cfg env s req = true ∧
      gateOpen cfg confirmed = true ∧
      ∃ pre, createsAccount pre = false ∧ issuesToken pre = false ∧
        newUser cfg env s req confirmed = confirmationGate env s req pre) ∨
    (env.existingUserName = "" ∧ checksPass cfg env s req = true ∧
      gateOpen cfg confirmed = false ∧
      ∃ pre du dv mu mv ti, createsAccount pre = false ∧ issuesToken pre = false ∧
        newUser cfg env s req confirmed = createAccount cfg env s req du dv mu mv ti pre) := by
  by_cases hname : env.existingUserName = ""
  swap
  · left
    rw [newUser_name_taken cfg env s req confirmed hname]
    exact ⟨Or.inl hname, rfl, rfl, rfl, rfl⟩
  have htr := discordCheck_trace cfg env s req
  have hpre : ∀ td, td = (discordCheck cfg env s req).1 →
      createsAccount ([Event.userByName req.Username] ++ td) = false ∧
      issuesToken ([Event.userByName req.Username] ++ td) = false := by
    intro td h
    subst h
    rw [createsAccount_append, issuesToken_append, htr.1, htr.2]
    exact ⟨rfl, rfl⟩
  rcases hd : discordCheck cfg env s req with ⟨td, _ | ⟨du, dv⟩⟩
  · rename_i e
    left
    rw [newUser_discord_fails cfg env s req confirmed hname td e hd]
    have := hpre td (by rw [hd])
    exact ⟨Or.inr (by simp [checksPass, hd]), rfl, rfl, this.1, this.2⟩
  rcases hm : matrixCheck cfg s req with e | ⟨mu, mv⟩
  · left
    rw [newUser_matrix_fails cfg env s req confirmed hname td du dv e hd hm]
    have := hpre td (by rw [hd])
    exact ⟨Or.inr (by simp [checksPass, hd, hm]), rfl, rfl, this.1, this.2⟩
  rcases ht : telegramCheck cfg s req with e | ti
  · left
    rw [newUser_telegram_fails cfg env s req confirmed hname td du dv mu mv e hd hm ht]
    have := hpre td (by rw [hd])
    exact ⟨Or.inr (by simp [checksPass, hd, hm, ht]), rfl, rfl, this.1, this.2⟩
  have hpass : checksPass cfg env s req = true := by simp [checksPass, hd, hm, ht]
  have hq := hpre td (by rw [hd])
  cases hg : gateOpen cfg confirmed
  · right; right
    exact ⟨hname, hpass, rfl, _, du, dv, mu, mv, ti, hq.1, hq.2,
      newUser_past_gate cfg env s req confirmed hname td du dv mu mv ti hd hm ht hg⟩
  · right; left
    exact ⟨hname, hpass, rfl, _, hq.1, hq.2,
      newUser_at_gate cfg env s req confirmed hname td du dv mu mv ti hd hm ht hg⟩

theorem confirmationGate_no_creation (env : Env) (s : AppState) (req : NewUserDTO)
    (pre : List Event) :
    createsAccount (confirmationGate env s req pre).trace = createsAccount pre ∧
    (confirmationGate env s req pre).success = false := by
  unfold confirmationGate
  cases env.signedString <;> simp [createsAccount, Event.isAccountCreation]

theorem createAccount_fails (cfg : Config) (env : Env) (s : AppState) (req : NewUserDTO)
    (du : DiscordUser) (dv : Bool) (mu : MatrixUser) (mv : Bool) (ti : Option Nat)
    (pre : List Event) (h : env.jfNewUser.ok = false) :
    createAccount cfg env s req du dv mu mv ti pre =
      { state := s, f := some { resp := respond 401 env.langErrorUnknown }, success := false
        trace := pre ++ [Event.jfNewUser req.Username req.Password] } := by
  simp [createAccount, h]

theorem createAccount_succeeds (cfg : Config) (env : Env) (s : AppState) (req : NewUserDTO)
    (du : DiscordUser) (dv : Bool) (mu : MatrixUser) (mv : Bool) (ti : Option Nat)
    (pre : List Event) (h : env.jfNewUser.ok = true) :
    createAccount cfg env s req du dv mu mv ti pre =
      provision cfg env s req du dv mu mv ti
        (pre ++ [Event.jfNewUser req.Username req.Password]) := by
  simp [createAccount, h]

/-- The run of `provision` in which the companion-service block panics. -/
theorem provision_panic (cfg : Config) (env : Env) (s : AppState) (req : NewUserDTO)
    (du : DiscordUser) (dv : Bool) (mu : MatrixUser) (mv : Bool) (ti : Option Nat)
    (pre : List Event) (h : (ombiStep cfg env s req du dv ti pre).2 = true) :
    provision cfg env s req du dv mu mv ti pre =
      { state := (provisionHead cfg env s req du dv ti pre).state
        f := none
        success := false
        panicked := true
        trace := (provisionHead cfg env s req du dv ti pre).trace ++
          (ombiStep cfg env s req du dv ti pre).1 ++
          (if ((s.invites.get req.Code).getD default).UserExpiry then [Event.unlockUsers]
          else []) } := by
  simp [provision, h]

/-- The run of `provision` in which the companion-service block does not
panic. -/
theorem provision_ok (cfg : Config) (env : Env) (s : AppState) (req : NewUserDTO)
    (du : DiscordUser) (dv : Bool) (mu : MatrixUser) (mv : Bool) (ti : Option Nat)
    (pre : List Event) (h : (ombiStep cfg env s req du dv ti pre).2 = false) :
    provision cfg env s req du dv mu mv ti pre =
      { state :=
          { (linkMatrix req env.newUserID mu mv
              { state := (provisionHead cfg env s req du dv ti pre).state
                trace := (provisionHead cfg env s req du dv ti pre).trace ++
                  (ombiStep cfg env s req du dv ti pre).1 }).state with
            cacheExpiry := env.nowCache }
        f := none
        success := true
        trace :=
          (linkMatrix req env.newUserID mu mv
              { state := (provisionHead cfg env s req du dv ti pre).state
                trace := (provisionHead cfg env s req du dv ti pre).trace ++
                  (ombiStep cfg env s req du dv ti pre).1 }).trace ++
            welcomeCalls cfg env req env.newUserID dv ti ++
            (if ((s.invites.get req.Code).getD default).UserExpiry then [Event.unlockUsers]
            else []) } := by
  simp [provision, h]

theorem provision_panicked (cfg : Config) (env : Env) (s : AppState) (req : NewUserDTO)
    (du : DiscordUser) (dv : Bool) (mu : MatrixUser) (mv : Bool) (ti : Option Nat)
    (pre : List Event) :
    (provision cfg env s req du dv mu mv ti pre).panicked =
      (ombiStep cfg env s req du dv ti pre).2 := by
  cases h : (ombiStep cfg env s req du dv ti pre).2
  · rw [provision_ok cfg env s req du dv mu mv ti pre h]
  · rw [provision_panic cfg env s req du dv mu mv ti pre h]

/-- After account creation `newUser` returns `success = true` unless it
panics. -/
theorem provision_success (cfg : Config) (env : Env) (s : AppState) (req : NewUserDTO)
    (du : DiscordUser) (dv : Bool) (mu : MatrixUser) (mv : Bool) (ti : Option Nat)
    (pre : List Event) :
    (provision cfg env s req du dv mu mv ti pre).success =
      !(provision cfg env s req du dv mu mv ti pre).panicked := by
  cases h : (ombiStep cfg env s req du dv ti pre).2
  · rw [provision_ok cfg env s req du dv mu mv ti pre h]; rfl
  · rw [provision_panic cfg env s req du dv mu mv ti pre h]; rfl

theorem storeEmail_invites (req : NewUserDTO) (id : String) (r : Run) :
    (storeEmail req id r).state.invites = r.state.invites := by
  unfold storeEmail; split_ifs <;> rfl

theorem storeExpiry_invites (env : Env) (invite : Invite) (id : String) (r : Run) :
    (storeExpiry env invite id r).state.invites = r.state.invites := by
  unfold storeExpiry; split_ifs <;> rfl

theorem linkDiscord_invites (cfg : Config) (env : Env) (req : NewUserDTO) (id : String)
    (du : DiscordUser) (dv : Bool) (r : Run) :
    (linkDiscord cfg env req id du dv r).state.invites = r.state.invites := by
  unfold linkDiscord; split_ifs <;> rfl

theorem linkTelegram_invites (cfg : Config) (env : Env) (req : NewUserDTO) (id : String)
    (ti : Option Nat) (r : Run) :
    (linkTelegram cfg env req id ti r).state.invites = r.state.invites := by
  unfold linkTelegram
  cases ti with
  | none => rfl
  | some i => simp only; split_ifs <;> rfl

theorem linkMatrix_invites (req : NewUserDTO) (id : String) (mu : MatrixUser) (mv : Bool)
    (r : Run) :
    (linkMatrix req id mu mv r).state.invites = r.state.invites := by
  unfold linkMatrix; split_ifs <;> rfl

/-- After account creation the invite map is written by the consuming
`checkInvite` and by nothing else. -/
theorem provision_invites (cfg : Config) (env : Env) (s : AppState) (req : NewUserDTO)
    (du : DiscordUser) (dv : Bool) (mu : MatrixUser) (mv : Bool) (ti : Option Nat)
    (pre : List Event) :
    (provision cfg env s req du dv mu mv ti pre).state.invites =
      (checkInvite cfg s env.nowConsume req.Code true req.Username).state.invites := by
  have hhead : (provisionHead cfg env s req du dv ti pre).state.invites =
      (checkInvite cfg s env.nowConsume req.Code true req.Username).state.invites := by
    simp only [provisionHead, linkTelegram_invites, linkDiscord_invites,
      storeExpiry_invites, storeEmail_invites]
  cases h : (ombiStep cfg env s req du dv ti pre).2
  · rw [provision_ok cfg env s req du dv mu mv ti pre h]
    simp only [linkMatrix_invites, hhead]
  · rw [provision_panic cfg env s req du dv mu mv ti pre h]
    exact hhead

/-- The account-creation step returns `success = true` exactly when the
account service created the account and the run did not panic afterwards. -/
theorem createAccount_creates (cfg : Config) (env : Env) (s : AppState) (req : NewUserDTO)
    (du : DiscordUser) (dv : Bool) (mu : MatrixUser) (mv : Bool) (ti : Option Nat)
    (pre : List Event) :
    (createAccount cfg env s req du dv mu mv ti pre).success =
      (env.jfNewUser.ok && !(createAccount cfg env s req du dv mu mv ti pre).panicked) := by
  cases h : env.jfNewUser.ok
  · rw [createAccount_fails cfg env s req du dv mu mv ti pre h]; rfl
  · rw [createAccount_succeeds cfg env s req du dv mu mv ti pre h, provision_success]
    simp

theorem createAccount_success_ok (cfg : Config) (env : Env) (s : AppState) (req : NewUserDTO)
    (du : DiscordUser) (dv : Bool) (mu : MatrixUser) (mv : Bool) (ti : Option Nat)
    (pre : List Event)
    (h : (createAccount cfg env s req du dv mu mv ti pre).success = true) :
    env.jfNewUser.ok = true := by
  rw [createAccount_creates] at h
  simp only [Bool.and_eq_true] at h
  exact h.1

theorem createAccount_failure_returned (cfg : Config) (env : Env) (s : AppState)
    (req : NewUserDTO) (du : DiscordUser) (dv : Bool) (mu : MatrixUser) (mv : Bool)
    (ti : Option Nat) (pre : List Event)
    (hret : (createAccount cfg env s req du dv mu mv ti pre).panicked = false)
    (h : (createAccount cfg env s req du dv mu mv ti pre).success = false) :
    env.jfNewUser.ok = false := by
  rw [createAccount_creates, hret] at h
  simpa using h

theorem expiryNotices_no_creation (cfg : Config) (code : String) (inv : Invite) :
    createsAccount (expiryNotices cfg code inv) = false := by
  unfold expiryNotices createsAccount
  split_ifs
  · simp [Event.isAccountCreation]
  · rfl

theorem checkInvite_no_creation (cfg : Config) (s : AppState) (now : Time) (code : String)
    (used : Bool) (u : String) :
    createsAccount (checkInvite cfg s now code used u).trace = false := by
  unfold checkInvite
  cases s.invites.get code with
  | none => rfl
  | some inv =>
    simp only
    split_ifs <;>
      first
        | rfl
        | (rw [createsAccount_append, expiryNotices_no_creation]; rfl)

/-! ## Lemmas on the provider checks -/

theorem telegramFind_none (l : List TelegramVerifiedToken) (pin : String) :
    telegramFind l pin = none ↔ ∀ v ∈ l, v.Token ≠ pin := by
  induction l with
  | nil => simp [telegramFind]
  | cons v rest ih =>
    by_cases h : v.Token = pin
    · simp [telegramFind, h]
    · simp [telegramFind, h, ih]

theorem telegramFind_some (l : List TelegramVerifiedToken) (pin : String) (i : Nat)
    (h : telegramFind l pin = some i) :
    ∃ v, l[i]? = some v ∧ v.Token = pin := by
  induction l generalizing i with
  | nil => simp [telegramFind] at h
  | cons v rest ih =>
    by_cases hv : v.Token = pin
    · simp [telegramFind, hv] at h
      subst h
      exact ⟨v, by simp, hv⟩
    · simp [telegramFind, hv] at h
      obtain ⟨j, hj, rfl⟩ := h
      obtain ⟨w, hw, hwt⟩ := ih j hj
      exact ⟨w, by simpa using hw, hwt⟩

/-! ## Lemmas on the confirmation gate and on tokens -/

theorem confirmationGate_signed (env : Env) (s : AppState) (req : NewUserDTO)
    (pre : List Event) (key : String) (h : env.signedString = some key) :
    confirmationGate env s req pre =
      { state :=
          { s with
            invites := s.invites.put req.Code
              { (s.invites.get req.Code).getD default with
                Keys := ((s.invites.get req.Code).getD default).Keys ++ [key] } }
        f := some
          { resp := respond 401 "confirmEmail"
            after := [Event.constructConfirmation req.Code req.Username key] ++
              (if env.constructConfirmationErr then [] else [Event.emailSend req.Email]) }
        success := false
        trace := pre ++ [Event.signToken (confirmationClaims env req), Event.storeInvites] } := by
  simp [confirmationGate, h]

theorem gateOpen_confirmed (cfg : Config) : gateOpen cfg true = false := by
  simp [gateOpen]

theorem checkInvite_no_token (cfg : Config) (s : AppState) (now : Time) (code : String)
    (used : Bool) (u : String) :
    issuesToken (checkInvite cfg s now code used u).trace = false := by
  unfold checkInvite
  cases s.invites.get code with
  | none => rfl
  | some inv =>
    simp only
    split_ifs <;>
      first
        | rfl
        | (unfold expiryNotices
           split_ifs <;> simp [issuesToken, Event.isTokenIssue])

theorem createdNotices_no_token (cfg : Config) (code : String) (invite : Invite) :
    issuesToken (createdNotices cfg code invite) = false := by
  unfold createdNotices
  split_ifs <;> simp [issuesToken, Event.isTokenIssue]

theorem applyProfile_no_token (env : Env) (s : AppState) (id : String) (invite : Invite) :
    issuesToken (applyProfile env s id invite).2 = false := by
  unfold applyProfile profileCalls
  split_ifs <;> rfl

theorem storeEmail_tokens (req : NewUserDTO) (id : String) (r : Run) :
    issuesToken (storeEmail req id r).trace = issuesToken r.trace := by
  unfold storeEmail
  split_ifs <;> simp [issuesToken, Event.isTokenIssue]

theorem storeExpiry_tokens (env : Env) (invite : Invite) (id : String) (r : Run) :
    issuesToken (storeExpiry env invite id r).trace = issuesToken r.trace := by
  unfold storeExpiry
  split_ifs <;> simp [issuesToken, Event.isTokenIssue]

theorem linkDiscord_tokens (cfg : Config) (env : Env) (req : NewUserDTO) (id : String)
    (du : DiscordUser) (dv : Bool) (r : Run) :
    issuesToken (linkDiscord cfg env req id du dv r).trace = issuesToken r.trace := by
  unfold linkDiscord
  split_ifs <;> simp [issuesToken, Event.isTokenIssue]

theorem linkTelegram_tokens (cfg : Config) (env : Env) (req : NewUserDTO) (id : String)
    (ti : Option Nat) (r : Run) :
    issuesToken (linkTelegram cfg env req id ti r).trace = issuesToken r.trace := by
  unfold linkTelegram
  cases ti with
  | none => rfl
  | some i => simp only; split_ifs <;> simp [issuesToken, Event.isTokenIssue]

theorem linkMatrix_tokens (req : NewUserDTO) (id : String) (mu : MatrixUser) (mv : Bool)
    (r : Run) :
    issuesToken (linkMatrix req id mu mv r).trace = issuesToken r.trace := by
  unfold linkMatrix
  split_ifs <;> simp [issuesToken, Event.isTokenIssue]

theorem getOmbiUser_no_token (env : Env) (s : AppState) (id : String) :
    issuesToken (getOmbiUser env s id).2 = false := by
  unfold getOmbiUser
  split_ifs <;> rfl

theorem getOmbiUser_no_creation (env : Env) (s : AppState) (id : String) :
    createsAccount (getOmbiUser env s id).2 = false := by
  unfold getOmbiUser
  split_ifs <;> rfl

theorem ombiCalls_no_token (cfg : Config) (env : Env) (req : NewUserDTO) (id : String)
    (invite : Invite) (profile : Profile) (du : DiscordUser) (dv : Bool) (ti : Option Nat)
    (s : AppState) :
    issuesToken (ombiCalls cfg env req id invite profile du dv ti s).1 = false := by
  have h := getOmbiUser_no_token env s id
  unfold issuesToken at h
  unfold ombiCalls
  split_ifs <;> simp [issuesToken, Event.isTokenIssue, h]

theorem ombiStep_no_token (cfg : Config) (env : Env) (s : AppState) (req : NewUserDTO)
    (du : DiscordUser) (dv : Bool) (ti : Option Nat) (pre : List Event) :
    issuesToken (ombiStep cfg env s req du dv ti pre).1 = false := by
  unfold ombiStep
  exact ombiCalls_no_token _ _ _ _ _ _ _ _ _ _

theorem welcomeCalls_no_token (cfg : Config) (env : Env) (req : NewUserDTO) (id : String)
    (dv : Bool) (ti : Option Nat) :
    issuesToken (welcomeCalls cfg env req id dv ti) = false := by
  unfold welcomeCalls
  split_ifs <;> simp [issuesToken, Event.isTokenIssue]

theorem provision_tokens (cfg : Config) (env : Env) (s : AppState) (req : NewUserDTO)
    (du : DiscordUser) (dv : Bool) (mu : MatrixUser) (mv : Bool) (ti : Option Nat)
    (pre : List Event) :
    issuesToken (provision cfg env s req du dv mu mv ti pre).trace = issuesToken pre := by
  have hhead : issuesToken (provisionHead cfg env s req du dv ti pre).trace =
      issuesToken pre := by
    simp only [provisionHead, issuesToken_append, linkTelegram_tokens,
      linkDiscord_tokens, storeExpiry_tokens, storeEmail_tokens, checkInvite_no_token,
      createdNotices_no_token, applyProfile_no_token, Bool.or_false]
    simp [issuesToken, Event.isTokenIssue]
  cases h : (ombiStep cfg env s req du dv ti pre).2
  · rw [provision_ok cfg env s req du dv mu mv ti pre h]
    simp only [issuesToken_append, linkMatrix_tokens, hhead, ombiStep_no_token,
      welcomeCalls_no_token, Bool.or_false]
    split_ifs <;> simp [issuesToken, Event.isTokenIssue]
  · rw [provision_panic cfg env s req du dv mu mv ti pre h]
    simp only [issuesToken_append, hhead, ombiStep_no_token, Bool.or_false]
    split_ifs <;> simp [issuesToken, Event.isTokenIssue]

theorem createAccount_tokens (cfg : Config) (env : Env) (s : AppState) (req : NewUserDTO)
    (du : DiscordUser) (dv : Bool) (mu : MatrixUser) (mv : Bool) (ti : Option Nat)
    (pre : List Event) :
    issuesToken (createAccount cfg env s req du dv mu mv ti pre).trace = issuesToken pre := by
  cases h : env.jfNewUser.ok
  · rw [createAccount_fails cfg env s req du dv mu mv ti pre h]
    simp [issuesToken, Event.isTokenIssue]
  · rw [createAccount_succeeds cfg env s req du dv mu mv ti pre h, provision_tokens]
    simp [issuesToken, Event.isTokenIssue]

theorem provision_calls_creation (cfg : Config) (env : Env) (s : AppState) (req : NewUserDTO)
    (du : DiscordUser) (dv : Bool) (mu : MatrixUser) (mv : Bool) (ti : Option Nat)
    (pre : List Event) (h : createsAccount pre = true) :
    createsAccount (provision cfg env s req du dv mu mv ti pre).trace = true := by
  have h1 : ∀ (r : Run), createsAccount r.trace = true →
      createsAccount (storeEmail req env.newUserID r).trace = true := by
    intro r hr; unfold storeEmail
    split_ifs <;> first | exact hr | simp only [createsAccount_append, hr, Bool.true_or]
  have h2 : ∀ (inv : Invite) (r : Run), createsAccount r.trace = true →
      createsAccount (storeExpiry env inv env.newUserID r).trace = true := by
    intro inv r hr; unfold storeExpiry
    split_ifs <;> first | exact hr | simp only [createsAccount_append, hr, Bool.true_or]
  have h3 : ∀ (r : Run), createsAccount r.trace = true →
      createsAccount (linkDiscord cfg env req env.newUserID du dv r).trace = true := by
    intro r hr; unfold linkDiscord
    split_ifs <;> first | exact hr | simp only [createsAccount_append, hr, Bool.true_or]
  have h4 : ∀ (r : Run), createsAccount r.trace = true →
      createsAccount (linkTelegram cfg env req env.newUserID ti r).trace = true := by
    intro r hr; unfold linkTelegram
    cases ti with
    | none => exact hr
    | some i =>
      simp only
      split_ifs <;> first | exact hr | simp only [createsAccount_append, hr, Bool.true_or]
  have h5 : ∀ (r : Run), createsAccount r.trace = true →
      createsAccount (linkMatrix req env.newUserID mu mv r).trace = true := by
    intro r hr; unfold linkMatrix
    split_ifs <;> first | exact hr | simp only [createsAccount_append, hr, Bool.true_or]
  have hhead : createsAccount (provisionHead cfg env s req du dv ti pre).trace = true := by
    simp only [provisionHead]
    exact h4 _ (h3 _ (h2 _ _ (h1 _ (by
      simp only [createsAccount_append, h, Bool.true_or]))))
  cases hp : (ombiStep cfg env s req du dv ti pre).2
  · rw [provision_ok cfg env s req du dv mu mv ti pre hp]
    simp only [createsAccount_append]
    rw [h5 _ (by simp only [createsAccount_append, hhead, Bool.true_or])]
    rfl
  · rw [provision_panic cfg env s req du dv mu mv ti pre hp]
    simp only [createsAccount_append, hhead, Bool.true_or]

theorem createAccount_calls_creation (cfg : Config) (env : Env) (s : AppState)
    (req : NewUserDTO) (du : DiscordUser) (dv : Bool) (mu : MatrixUser) (mv : Bool)
    (ti : Option Nat) (pre : List Event) :
    createsAccount (createAccount cfg env s req du dv mu mv ti pre).trace = true := by
  have hpre : createsAccount (pre ++ [Event.jfNewUser req.Username req.Password]) = true := by
    simp [createsAccount, Event.isAccountCreation]
  cases h : env.jfNewUser.ok
  · rw [createAccount_fails cfg env s req du dv mu mv ti pre h]; exact hpre
  · rw [createAccount_succeeds cfg env s req du dv mu mv ti pre h]
    exact provision_calls_creation cfg env s req du dv mu mv ti _ hpre

/-- A call of `checkInvite` adds no invite and leaves the `Keys` of every invite
it keeps as they were. -/
theorem checkInvite_keys (cfg : Config) (s : AppState) (now : Time) (code : String)
    (used : Bool) (u : String) (c : String) (inv₁ : Invite)
    (h : (checkInvite cfg s now code used u).state.invites.get c = some inv₁) :
    ∃ inv, s.invites.get c = some inv ∧ inv₁.Keys = inv.Keys := by
  cases hget : s.invites.get code with
  | none =>
    rw [checkInvite_missing cfg s now code used u hget] at h
    exact ⟨inv₁, h, rfl⟩
  | some inv =>
    have hdel : (s.invites.del code).get c = some inv₁ →
        ∃ inv, s.invites.get c = some inv ∧ inv₁.Keys = inv.Keys := by
      intro hd
      by_cases hc : c = code
      · subst hc; rw [GoMap.get_del_self] at hd; exact absurd hd (by simp)
      · rw [GoMap.get_del_ne _ hc] at hd; exact ⟨inv₁, hd, rfl⟩
    have hput : ∀ inv₂ : Invite, inv₂.Keys = inv.Keys →
        (s.invites.put code inv₂).get c = some inv₁ →
        ∃ inv, s.invites.get c = some inv ∧ inv₁.Keys = inv.Keys := by
      intro inv₂ hk hp
      by_cases hc : c = code
      · subst hc
        rw [GoMap.get_put_self] at hp
        cases hp
        exact ⟨inv, hget, hk⟩
      · rw [GoMap.get_put_ne _ _ hc] at hp; exact ⟨inv₁, hp, rfl⟩
    by_cases hexp : inv.ValidTill < now
    · rw [checkInvite_expired cfg s now code used u inv hget hexp] at h
      exact hdel h
    · have hle : now ≤ inv.ValidTill := not_lt.mp hexp
      cases used with
      | false =>
        rw [checkInvite_validate cfg s now code u inv hget hle] at h
        exact ⟨inv₁, h, rfl⟩
      | true =>
        by_cases h1 : inv.RemainingUses = 1
        · rw [checkInvite_last_use cfg s now code u inv hget hle h1] at h
          exact hdel h
        · by_cases h0 : inv.RemainingUses = 0
          · rw [checkInvite_unlimited_use cfg s now code u inv hget hle h0] at h
            exact hput { inv with UsedBy := inv.UsedBy ++ [[u, formatInt now.unix]] } rfl h
          · rw [checkInvite_counted_use cfg s now code u inv hget hle h1 h0] at h
            exact hput
              { inv with
                RemainingUses := inv.RemainingUses - 1
                UsedBy := inv.UsedBy ++ [[u, formatInt now.unix]] } rfl h

/-! ## More lemmas on `checkInvite` -/

/-- A call of `checkInvite` touches no code but its own. -/
theorem checkInvite_get_other (cfg : Config) (s : AppState) (now : Time) (code : String)
    (used : Bool) (u : String) (c : String) (hc : c ≠ code) :
    (checkInvite cfg s now code used u).state.invites.get c = s.invites.get c := by
  cases hget : s.invites.get code with
  | none => rw [checkInvite_missing cfg s now code used u hget]
  | some inv =>
    by_cases hexp : inv.ValidTill < now
    · rw [checkInvite_expired cfg s now code used u inv hget hexp]
      exact GoMap.get_del_ne _ hc
    · have hle : now ≤ inv.ValidTill := not_lt.mp hexp
      cases used with
      | false => rw [checkInvite_validate cfg s now code u inv hget hle]
      | true =>
        by_cases h1 : inv.RemainingUses = 1
        · rw [checkInvite_last_use cfg s now code u inv hget hle h1]
          exact GoMap.get_del_ne _ hc
        · by_cases h0 : inv.RemainingUses = 0
          · rw [checkInvite_unlimited_use cfg s now code u inv hget hle h0]
            exact GoMap.get_put_ne _ _ hc
          · rw [checkInvite_counted_use cfg s now code u inv hget hle h1 h0]
            exact GoMap.get_put_ne _ _ hc

/-- The invite a consuming `checkInvite` leaves under its code: none when the
invite was expired or on its last use, else the invite with the use recorded. -/
theorem checkInvite_get_self (cfg : Config) (s : AppState) (now : Time) (code u : String)
    (inv : Invite) (hget : s.invites.get code = some inv) :
    (checkInvite cfg s now code true u).state.invites.get code =
      if inv.ValidTill < now ∨ inv.RemainingUses = 1 then none
      else some
        { inv with
          RemainingUses := if inv.RemainingUses = 0 then 0 else inv.RemainingUses - 1
          UsedBy := inv.UsedBy ++ [[u, formatInt (Time.unix now)]] } := by
  by_cases hexp : inv.ValidTill < now
  · rw [checkInvite_expired cfg s now code true u inv hget hexp, if_pos (Or.inl hexp)]
    exact GoMap.get_del_self _ _
  · have hle : now ≤ inv.ValidTill := not_lt.mp hexp
    by_cases h1 : inv.RemainingUses = 1
    · rw [checkInvite_last_use cfg s now code u inv hget hle h1, if_pos (Or.inr h1)]
      exact GoMap.get_del_self _ _
    · rw [if_neg (by rintro (h | h) <;> contradiction)]
      by_cases h0 : inv.RemainingUses = 0
      · rw [checkInvite_unlimited_use cfg s now code u inv hget hle h0, if_pos h0]
        simp only [GoMap.get_put_self]
        congr 2
      · rw [checkInvite_counted_use cfg s now code u inv hget hle h1 h0, if_neg h0]
        exact GoMap.get_put_self _ _ _

/-! ## Lemmas on `checkInvites` -/

namespace GoMap

variable {κ α : Type} [DecidableEq κ]

theorem del_eq_filter (m : GoMap κ α) (k : κ) :
    m.del k = m.filter (fun e => decide (e.1 ≠ k)) := by
  induction m with
  | nil => rfl
  | cons e rest ih =>
    obtain ⟨k₁, v⟩ := e
    by_cases h : k₁ = k
    · simp [del, h, ih]
    · simp [del, h, ih]

theorem get_eq_none_of_not_mem (m : GoMap κ α) (k : κ) (h : k ∉ m.map Prod.fst) :
    m.get k = none := by
  induction m with
  | nil => rfl
  | cons e rest ih =>
    obtain ⟨k₁, v⟩ := e
    simp only [List.map_cons, List.mem_cons, not_or] at h
    simp [get, Ne.symm h.1, ih h.2]

/-- In a map with distinct keys, the lookup in a filtered map is the lookup in
the map, kept when the entry passes the filter. -/
theorem get_filter (m : GoMap κ α) (p : κ × α → Bool) (k : κ)
    (hn : (m.map Prod.fst).Nodup) :
    GoMap.get (m.filter p) k =
      match m.get k with
      | some v => if p (k, v) then some v else none
      | none => none := by
  induction m with
  | nil => rfl
  | cons e rest ih =>
    obtain ⟨k₁, v⟩ := e
    simp only [List.map_cons, List.nodup_cons] at hn
    by_cases hk : k₁ = k
    · subst hk
      have hnone : GoMap.get (rest.filter p) k₁ = none := by
        apply get_eq_none_of_not_mem
        intro hmem
        apply hn.1
        simp only [List.mem_map] at hmem ⊢
        obtain ⟨e, he, hek⟩ := hmem
        exact ⟨e, (List.mem_filter.mp he).1, hek⟩
      by_cases hp : p (k₁, v) = true
      · simp [List.filter_cons, hp, get]
      · simp [List.filter_cons, hp, get, hnone]
    · by_cases hp : p (k₁, v) = true
      · simp [List.filter_cons, hp, get, hk, ih hn.2]
      · simp [List.filter_cons, hp, get, hk, ih hn.2]

end GoMap

theorem expiryNotices_no_store (cfg : Config) (code : String) (inv : Invite) :
    storeCount (expiryNotices cfg code inv) = 0 := by
  unfold expiryNotices storeCount
  split_ifs
  · rw [List.count_eq_zero]
    simp
  · rfl

/-- The map left by the loop: the entries whose code is not the code of an
expired entry among those visited. -/
theorem sweepLoop_map (cfg : Config) (now : Time) :
    ∀ (l : List (String × Invite)) (m : GoMap String Invite) (ch : Bool) (t : List Event),
      (sweepLoop cfg now l m ch t).1 =
        m.filter (fun e =>
          decide (e.1 ∉ (l.filter (fun x => now.after x.2.ValidTill)).map Prod.fst)) := by
  intro l
  induction l with
  | nil => intro m ch t; simp [sweepLoop]
  | cons e rest ih =>
    intro m ch t
    obtain ⟨code, data⟩ := e
    by_cases h : now.after data.ValidTill = true
    · have hf : List.filter (fun x : String × Invite => now.after x.2.ValidTill)
          ((code, data) :: rest) =
          (code, data) :: List.filter (fun x => now.after x.2.ValidTill) rest :=
        List.filter_cons_of_pos h
      simp only [sweepLoop, h, Bool.not_true, Bool.false_eq_true, if_false]
      rw [ih, GoMap.del_eq_filter, List.filter_filter, hf]
      apply List.filter_congr
      intro x _
      by_cases hA : x.1 ∈ List.map Prod.fst
          (List.filter (fun x : String × Invite => now.after x.2.ValidTill) rest) <;>
        by_cases hB : x.1 = code <;> simp [hA, hB]
    · have hf : List.filter (fun x : String × Invite => now.after x.2.ValidTill)
          ((code, data) :: rest) =
          List.filter (fun x => now.after x.2.ValidTill) rest :=
        List.filter_cons_of_neg h
      simp only [sweepLoop, h, Bool.not_false, if_true]
      rw [ih, hf]

theorem sweepLoop_changed (cfg : Config) (now : Time) :
    ∀ (l : List (String × Invite)) (m : GoMap String Invite) (ch : Bool) (t : List Event),
      (sweepLoop cfg now l m ch t).2.1 =
        (ch || l.any (fun x => now.after x.2.ValidTill)) := by
  intro l
  induction l with
  | nil => intro m ch t; simp [sweepLoop]
  | cons e rest ih =>
    intro m ch t
    obtain ⟨code, data⟩ := e
    by_cases h : now.after data.ValidTill = true
    · simp only [sweepLoop, h, Bool.not_true, Bool.false_eq_true, if_false]
      rw [ih]; simp [h]
    · simp only [sweepLoop, h, Bool.not_false, if_true]
      rw [ih]; simp [h]

theorem sweepLoop_no_store (cfg : Config) (now : Time) :
    ∀ (l : List (String × Invite)) (m : GoMap String Invite) (ch : Bool) (t : List Event),
      storeCount (sweepLoop cfg now l m ch t).2.2 = storeCount t := by
  intro l
  induction l with
  | nil => intro m ch t; simp [sweepLoop]
  | cons e rest ih =>
    intro m ch t
    obtain ⟨code, data⟩ := e
    by_cases h : now.after data.ValidTill = true
    · simp only [sweepLoop, h, Bool.not_true, Bool.false_eq_true, if_false]
      rw [ih]
      have := expiryNotices_no_store cfg code data
      unfold storeCount at this ⊢
      rw [List.count_append, this, Nat.add_zero]
    · simp only [sweepLoop, h, Bool.not_false, if_true]
      rw [ih]

/-- With distinct codes, `checkInvites` leaves exactly the entries that are not
expired. -/
theorem checkInvites_map (cfg : Config) (s : AppState) (now : Time)
    (hn : (s.invites.map Prod.fst).Nodup) :
    (checkInvites cfg s now).state.invites =
      s.invites.filter (fun e => !now.after e.2.ValidTill) := by
  simp only [checkInvites]
  rw [sweepLoop_map]
  apply List.filter_congr
  intro x hx
  have hinj := List.inj_on_of_nodup_map hn
  by_cases h : now.after x.2.ValidTill = true
  · simp only [h, Bool.not_true, decide_eq_false_iff_not, not_not, List.mem_map,
      List.mem_filter]
    exact ⟨x, ⟨hx, h⟩, rfl⟩
  · simp only [h, Bool.not_false, decide_eq_true_eq, List.mem_map, List.mem_filter,
      not_exists, not_and]
    rintro y ⟨hy, hya⟩ hxy
    have := hinj hy hx hxy
    subst this
    exact h hya

/-- What `checkInvite` returns for a code in the map: whether its invite is
unexpired. -/
theorem checkInvite_ok (cfg : Config) (s : AppState) (now : Time) (code : String)
    (used : Bool) (u : String) (inv : Invite) (hget : s.invites.get code = some inv) :
    (checkInvite cfg s now code used u).ok = !now.after inv.ValidTill := by
  by_cases hexp : inv.ValidTill < now
  · rw [checkInvite_expired cfg s now code used u inv hget hexp]
    simp [Time.after, hexp]
  · have hle : now ≤ inv.ValidTill := not_lt.mp hexp
    have hr : (!now.after inv.ValidTill) = true := by simp [Time.after, hexp]
    rw [hr]
    cases used with
    | false => rw [checkInvite_validate cfg s now code u inv hget hle]
    | true =>
      by_cases h1 : inv.RemainingUses = 1
      · rw [checkInvite_last_use cfg s now code u inv hget hle h1]
      · by_cases h0 : inv.RemainingUses = 0
        · rw [checkInvite_unlimited_use cfg s now code u inv hget hle h0]
        · rw [checkInvite_counted_use cfg s now code u inv hget hle h1 h0]

/-- With distinct codes, the lookup after `checkInvites`: the invite when it is
unexpired, nothing otherwise. -/
theorem checkInvites_get (cfg : Config) (s : AppState) (now : Time) (code : String)
    (hn : (s.invites.map Prod.fst).Nodup) :
    (checkInvites cfg s now).state.invites.get code =
      match s.invites.get code with
      | some inv => if !now.after inv.ValidTill then some inv else none
      | none => none := by
  rw [checkInvites_map cfg s now hn,
    GoMap.get_filter s.invites (fun e => !now.after e.2.ValidTill) code hn]
  cases s.invites.get code <;> rfl

theorem checkInvites_stores (cfg : Config) (s : AppState) (now : Time) :
    storeCount (checkInvites cfg s now).trace =
      if s.invites.any (fun e => now.after e.2.ValidTill) then 1 else 0 := by
  have h1 := sweepLoop_no_store cfg now s.invites s.invites false []
  have h2 := sweepLoop_changed cfg now s.invites s.invites false []
  simp only [checkInvites]
  unfold storeCount at h1 ⊢
  rw [List.count_append, h1, h2]
  simp only [Bool.false_or, List.count_nil, Nat.zero_add]
  split_ifs <;> rfl

/-! ## Lemmas on `GenerateInvite` -/

theorem GenerateInvite_of_code (cfg : Config) (env : GenerateEnv) (s : AppState)
    (req : GenerateInviteDTO) (code : String) (h : pickCode env.codes = some code) :
    GenerateInvite cfg env s req =
      some
        { state := { s with invites := s.invites.put code (buildInvite cfg env s req code).1 }
          code := code
          invite := (buildInvite cfg env s req code).1
          reply := respondBool 200 true
          trace := (buildInvite cfg env s req code).2 ++ [Event.storeInvites] } := by
  simp [GenerateInvite, h]

theorem sendInvite_uses (cfg : Config) (env : GenerateEnv) (req : GenerateInviteDTO)
    (code : String) (invite : Invite) :
    (sendInvite cfg env req code invite).1.RemainingUses = invite.RemainingUses ∧
    (sendInvite cfg env req code invite).1.NoLimit = invite.NoLimit := by
  unfold sendInvite
  split_ifs <;> exact ⟨rfl, rfl⟩

theorem setProfile_uses (s : AppState) (req : GenerateInviteDTO) (invite : Invite) :
    (setProfile s req invite).RemainingUses = invite.RemainingUses ∧
    (setProfile s req invite).NoLimit = invite.NoLimit := by
  unfold setProfile
  split_ifs <;> exact ⟨rfl, rfl⟩

theorem setUserExpiry_uses (req : GenerateInviteDTO) (invite : Invite) :
    (setUserExpiry req invite).RemainingUses = invite.RemainingUses ∧
    (setUserExpiry req invite).NoLimit = invite.NoLimit := by
  unfold setUserExpiry
  split_ifs <;> exact ⟨rfl, rfl⟩

/-- The use count and the `NoLimit` flag of the invite built are those set by
the `MultipleUses` block. -/
theorem buildInvite_uses (cfg : Config) (env : GenerateEnv) (s : AppState)
    (req : GenerateInviteDTO) (code : String) :
    (buildInvite cfg env s req code).1.RemainingUses =
      (if req.MultipleUses then (if req.NoLimit then 0 else req.RemainingUses) else 1) ∧
    (buildInvite cfg env s req code).1.NoLimit = (req.MultipleUses && req.NoLimit) := by
  simp only [buildInvite]
  rw [(setProfile_uses _ _ _).1, (setProfile_uses _ _ _).2, (sendInvite_uses _ _ _ _ _).1,
    (sendInvite_uses _ _ _ _ _).2]
  simp only [(setUserExpiry_uses _ _).1, (setUserExpiry_uses _ _).2]
  unfold setUses
  split_ifs <;> simp_all

/-! ## Lemmas on the identity links written by `newUser` -/

/-- A call of `checkInvite` changes no part of the state but the invite map. -/
theorem checkInvite_frame (cfg : Config) (s : AppState) (now : Time) (code : String)
    (used : Bool) (u : String) :
    (checkInvite cfg s now code used u).state =
      { s with invites := (checkInvite cfg s now code used u).state.invites } := by
  cases hget : s.invites.get code with
  | none => rw [checkInvite_missing cfg s now code used u hget]
  | some inv =>
    by_cases hexp : inv.ValidTill < now
    · rw [checkInvite_expired cfg s now code used u inv hget hexp]
    · have hle : now ≤ inv.ValidTill := not_lt.mp hexp
      cases used with
      | false => rw [checkInvite_validate cfg s now code u inv hget hle]
      | true =>
        by_cases h1 : inv.RemainingUses = 1
        · rw [checkInvite_last_use cfg s now code u inv hget hle h1]
        · by_cases h0 : inv.RemainingUses = 0
          · rw [checkInvite_unlimited_use cfg s now code u inv hget hle h0]
          · rw [checkInvite_counted_use cfg s now code u inv hget hle h1 h0]

theorem checkInvite_fields (cfg : Config) (s : AppState) (now : Time) (code : String)
    (used : Bool) (u : String) :
    (checkInvite cfg s now code used u).state.discord = s.discord ∧
    (checkInvite cfg s now code used u).state.discordTokens = s.discordTokens ∧
    (checkInvite cfg s now code used u).state.matrix = s.matrix ∧
    (checkInvite cfg s now code used u).state.matrixTokens = s.matrixTokens ∧
    (checkInvite cfg s now code used u).state.telegram = s.telegram ∧
    (checkInvite cfg s now code used u).state.telegramTokens = s.telegramTokens ∧
    (checkInvite cfg s now code used u).state.telegramLanguages = s.telegramLanguages := by
  rw [checkInvite_frame]
  exact ⟨rfl, rfl, rfl, rfl, rfl, rfl, rfl⟩

theorem storeEmail_fields (req : NewUserDTO) (id : String) (r : Run) :
    (storeEmail req id r).state.discord = r.state.discord ∧
    (storeEmail req id r).state.discordTokens = r.state.discordTokens ∧
    (storeEmail req id r).state.matrix = r.state.matrix ∧
    (storeEmail req id r).state.matrixTokens = r.state.matrixTokens ∧
    (storeEmail req id r).state.telegram = r.state.telegram ∧
    (storeEmail req id r).state.telegramTokens = r.state.telegramTokens ∧
    (storeEmail req id r).state.telegramLanguages = r.state.telegramLanguages := by
  unfold storeEmail
  split_ifs <;> exact ⟨rfl, rfl, rfl, rfl, rfl, rfl, rfl⟩

theorem storeExpiry_fields (env : Env) (invite : Invite) (id : String) (r : Run) :
    (storeExpiry env invite id r).state.discord = r.state.discord ∧
    (storeExpiry env invite id r).state.discordTokens = r.state.discordTokens ∧
    (storeExpiry env invite id r).state.matrix = r.state.matrix ∧
    (storeExpiry env invite id r).state.matrixTokens = r.state.matrixTokens ∧
    (storeExpiry env invite id r).state.telegram = r.state.telegram ∧
    (storeExpiry env invite id r).state.telegramTokens = r.state.telegramTokens ∧
    (storeExpiry env invite id r).state.telegramLanguages = r.state.telegramLanguages := by
  unfold storeExpiry
  split_ifs <;> exact ⟨rfl, rfl, rfl, rfl, rfl, rfl, rfl⟩

theorem linkDiscord_fields (cfg : Config) (env : Env) (req : NewUserDTO) (id : String)
    (du : DiscordUser) (dv : Bool) (r : Run) :
    (linkDiscord cfg env req id du dv r).state.discord =
      (if cfg.discordEnabled && dv then
        r.state.discord.put id { du with Contact := req.DiscordContact }
      else r.state.discord) ∧
    (linkDiscord cfg env req id du dv r).state.discordTokens =
      (if cfg.discordEnabled && dv && !env.storeDiscordUsersErr then
        r.state.discordTokens.del req.DiscordPIN
      else r.state.discordTokens) ∧
    (linkDiscord cfg env req id du dv r).state.matrix = r.state.matrix ∧
    (linkDiscord cfg env req id du dv r).state.matrixTokens = r.state.matrixTokens ∧
    (linkDiscord cfg env req id du dv r).state.telegram = r.state.telegram ∧
    (linkDiscord cfg env req id du dv r).state.telegramTokens = r.state.telegramTokens ∧
    (linkDiscord cfg env req id du dv r).state.telegramLanguages =
      r.state.telegramLanguages := by
  unfold linkDiscord
  by_cases h : (cfg.discordEnabled && dv) = true
  · cases he : env.storeDiscordUsersErr <;> simp [h, he]
  · simp [h]

/-- The Telegram identity `newUser` links for the token at index `i`. -/
theorem linkTelegram_fields (cfg : Config) (env : Env) (req : NewUserDTO) (id : String)
    (ti : Option Nat) (r : Run) :
    (linkTelegram cfg env req id ti r).state.telegram =
      (match ti with
        | none => r.state.telegram
        | some i =>
          if cfg.telegramEnabled then
            r.state.telegram.put id
              { ChatID := ((r.state.telegramTokens[i]?).getD {}).ChatID
                Username := ((r.state.telegramTokens[i]?).getD {}).Username
                Contact := req.TelegramContact
                Lang := (r.state.telegramLanguages.get
                  ((r.state.telegramTokens[i]?).getD {}).ChatID).getD "" }
          else r.state.telegram) ∧
    (linkTelegram cfg env req id ti r).state.telegramTokens =
      (match ti with
        | none => r.state.telegramTokens
        | some i =>
          if cfg.telegramEnabled && !env.storeTelegramUsersErr then
            swapRemove r.state.telegramTokens i
          else r.state.telegramTokens) ∧
    (linkTelegram cfg env req id ti r).state.telegramLanguages = r.state.telegramLanguages ∧
    (linkTelegram cfg env req id ti r).state.discord = r.state.discord ∧
    (linkTelegram cfg env req id ti r).state.discordTokens = r.state.discordTokens ∧
    (linkTelegram cfg env req id ti r).state.matrix = r.state.matrix ∧
    (linkTelegram cfg env req id ti r).state.matrixTokens = r.state.matrixTokens := by
  unfold linkTelegram
  cases ti with
  | none => exact ⟨rfl, rfl, rfl, rfl, rfl, rfl, rfl⟩
  | some i =>
    by_cases h : cfg.telegramEnabled = true
    · cases he : env.storeTelegramUsersErr <;> simp [h, he]
    · simp [h]

theorem linkMatrix_fields (req : NewUserDTO) (id : String) (mu : MatrixUser) (mv : Bool)
    (r : Run) :
    (linkMatrix req id mu mv r).state.matrix =
      (if mv then r.state.matrix.put id { mu with Contact := req.MatrixContact }
      else r.state.matrix) ∧
    (linkMatrix req id mu mv r).state.matrixTokens =
      (if mv then r.state.matrixTokens.del req.MatrixPIN else r.state.matrixTokens) ∧
    (linkMatrix req id mu mv r).state.discord = r.state.discord ∧
    (linkMatrix req id mu mv r).state.discordTokens = r.state.discordTokens ∧
    (linkMatrix req id mu mv r).state.telegram = r.state.telegram ∧
    (linkMatrix req id mu mv r).state.telegramTokens = r.state.telegramTokens ∧
    (linkMatrix req id mu mv r).state.telegramLanguages = r.state.telegramLanguages := by
  unfold linkMatrix
  cases mv <;> simp

/-- The identity links and the registries after the part of `newUser` that
follows account creation, when it returned `success = true`. -/
theorem provision_links (cfg : Config) (env : Env) (s : AppState) (req : NewUserDTO)
    (du : DiscordUser) (dv : Bool) (mu : MatrixUser) (mv : Bool) (ti : Option Nat)
    (pre : List Event) :
    (provision cfg env s req du dv mu mv ti pre).success = true →
    (provision cfg env s req du dv mu mv ti pre).state.discord =
      (if cfg.discordEnabled && dv then
        s.discord.put env.newUserID { du with Contact := req.DiscordContact }
      else s.discord) ∧
    (provision cfg env s req du dv mu mv ti pre).state.discordTokens =
      (if cfg.discordEnabled && dv && !env.storeDiscordUsersErr then
        s.discordTokens.del req.DiscordPIN
      else s.discordTokens) ∧
    (provision cfg env s req du dv mu mv ti pre).state.matrix =
      (if mv then s.matrix.put env.newUserID { mu with Contact := req.MatrixContact }
      else s.matrix) ∧
    (provision cfg env s req du dv mu mv ti pre).state.matrixTokens =
      (if mv then s.matrixTokens.del req.MatrixPIN else s.matrixTokens) ∧
    (provision cfg env s req du dv mu mv ti pre).state.telegram =
      (match ti with
        | none => s.telegram
        | some i =>
          if cfg.telegramEnabled then
            s.telegram.put env.newUserID
              { ChatID := ((s.telegramTokens[i]?).getD {}).ChatID
                Username := ((s.telegramTokens[i]?).getD {}).Username
                Contact := req.TelegramContact
                Lang := (s.telegramLanguages.get
                  ((s.telegramTokens[i]?).getD {}).ChatID).getD "" }
          else s.telegram) ∧
    (provision cfg env s req du dv mu mv ti pre).state.telegramTokens =
      (match ti with
        | none => s.telegramTokens
        | some i =>
          if cfg.telegramEnabled && !env.storeTelegramUsersErr then
            swapRemove s.telegramTokens i
          else s.telegramTokens) := by
  intro hsucc
  cases h : (ombiStep cfg env s req du dv ti pre).2
  · clear hsucc
    rw [provision_ok cfg env s req du dv mu mv ti pre h]
    simp only [provisionHead, linkMatrix_fields, linkTelegram_fields, linkDiscord_fields,
      storeExpiry_fields, storeEmail_fields, checkInvite_fields]
    exact ⟨trivial, trivial, trivial, trivial, trivial, trivial⟩
  · rw [provision_panic cfg env s req du dv mu mv ti pre h] at hsucc
    exact absurd hsucc (by simp)

/-- The shape of a successful run of `newUser`: the username was free, every
check passed, the gate was not taken, account creation succeeded, and the rest
is the provisioning part. -/
theorem newUser_success_shape (cfg : Config) (env : Env) (s : AppState) (req : NewUserDTO)
    (confirmed : Bool) (hsucc : (newUser cfg env s req confirmed).success = true) :
    ∃ td du dv mu mv ti,
      env.existingUserName = "" ∧
      discordCheck cfg env s req = (td, .ok (du, dv)) ∧
      matrixCheck cfg s req = .ok (mu, mv) ∧
      telegramCheck cfg s req = .ok ti ∧
      env.jfNewUser.ok = true ∧
      newUser cfg env s req confirmed =
        provision cfg env s req du dv mu mv ti
          ([Event.userByName req.Username] ++ td ++
            [Event.jfNewUser req.Username req.Password]) := by
  by_cases hname : env.existingUserName = ""
  swap
  · rw [newUser_name_taken cfg env s req confirmed hname] at hsucc
    exact absurd hsucc (by simp)
  rcases hd : discordCheck cfg env s req with ⟨td, e | ⟨du, dv⟩⟩
  · rw [newUser_discord_fails cfg env s req confirmed hname td e hd] at hsucc
    exact absurd hsucc (by simp)
  rcases hm : matrixCheck cfg s req with e | ⟨mu, mv⟩
  · rw [newUser_matrix_fails cfg env s req confirmed hname td du dv e hd hm] at hsucc
    exact absurd hsucc (by simp)
  rcases ht : telegramCheck cfg s req with e | ti
  · rw [newUser_telegram_fails cfg env s req confirmed hname td du dv mu mv e hd hm ht]
      at hsucc
    exact absurd hsucc (by simp)
  cases hg : gateOpen cfg confirmed
  · have heq := newUser_past_gate cfg env s req confirmed hname td du dv mu mv ti hd hm ht hg
    rw [heq] at hsucc
    have hok := createAccount_success_ok cfg env s req du dv mu mv ti _ hsucc
    refine ⟨td, du, dv, mu, mv, ti, hname, rfl, rfl, rfl, hok, ?_⟩
    rw [heq, createAccount_succeeds cfg env s req du dv mu mv ti _ hok]
  · have heq := newUser_at_gate cfg env s req confirmed hname td du dv mu mv ti hd hm ht hg
    rw [heq, (confirmationGate_no_creation env s req _).2] at hsucc
    exact absurd hsucc (by simp)

/-! ## Lemmas on the consumption of PINs -/

/-- Every element left by `swapRemove l i` stood in `l` at an index other
than `i`. -/
theorem swapRemove_mem {α : Type} (l : List α) (i : Nat) (hi : i < l.length) (v : α)
    (hv : v ∈ swapRemove l i) : ∃ k, k ≠ i ∧ l[k]? = some v := by
  have hx : l[i]? = some l[i] := List.getElem?_eq_getElem hi
  have hlast : l.length - 1 < l.length := by omega
  have hy : l[l.length - 1]? = some l[l.length - 1] := List.getElem?_eq_getElem hlast
  unfold swapRemove at hv
  rw [hx, hy] at hv
  simp only at hv
  obtain ⟨k, hk⟩ := List.mem_iff_getElem?.mp hv
  rw [List.getElem?_take] at hk
  split_ifs at hk with hlt
  rw [List.getElem?_set] at hk
  split_ifs at hk with hik hlen
  · refine ⟨l.length - 1, by omega, ?_⟩
    rw [hy, ← hk]
  · rw [List.getElem?_set, if_neg (by omega)] at hk
    exact ⟨k, fun h => hik h.symm, hk⟩

/-- After the removal of the only entry carrying a PIN, the PIN is not found. -/
theorem telegramFind_after_removal (l : List TelegramVerifiedToken) (pin : String) (i : Nat)
    (hfind : telegramFind l pin = some i)
    (huniq : ∀ k v, l[k]? = some v → v.Token = pin → k = i) :
    telegramFind (swapRemove l i) pin = none := by
  obtain ⟨tok, htok, _⟩ := telegramFind_some l pin i hfind
  have hi : i < l.length := (List.getElem?_eq_some.mp htok).1
  rw [telegramFind_none]
  intro v hv hvt
  obtain ⟨k, hk, hkv⟩ := swapRemove_mem l i hi v hv
  exact hk (huniq k v hkv hvt)

theorem discordCheck_ok_pin (cfg : Config) (env : Env) (s : AppState) (req : NewUserDTO)
    (td : List Event) (du : DiscordUser) (dv : Bool)
    (hen : cfg.discordEnabled = true) (hpin : req.DiscordPIN ≠ "")
    (hd : discordCheck cfg env s req = (td, .ok (du, dv))) :
    dv = true ∧ s.discordTokens.get req.DiscordPIN = some du := by
  simp only [discordCheck, hen, hpin, if_true, if_false] at hd
  cases hget : s.discordTokens.get req.DiscordPIN with
  | none => rw [hget] at hd; simp at hd
  | some u =>
    rw [hget] at hd
    simp only at hd
    split_ifs at hd
    · simp at hd
    · simp only [Prod.mk.injEq, Except.ok.injEq] at hd
      exact ⟨hd.2.2.symm, by rw [hd.2.1]⟩

theorem matrixCheck_ok_pin (cfg : Config) (s : AppState) (req : NewUserDTO)
    (mu : MatrixUser) (mv : Bool)
    (hen : cfg.matrixEnabled = true) (hpin : req.MatrixPIN ≠ "")
    (hm : matrixCheck cfg s req = .ok (mu, mv)) :
    mv = true := by
  simp only [matrixCheck, hen, hpin, if_true, if_false] at hm
  cases hget : s.matrixTokens.get req.MatrixPIN with
  | none => rw [hget] at hm; simp at hm
  | some t =>
    rw [hget] at hm
    simp only at hm
    split_ifs at hm with hv
    simp only [Except.ok.injEq, Prod.mk.injEq] at hm
    rw [← hm.2]
    simpa using hv

theorem telegramCheck_ok_pin (cfg : Config) (s : AppState) (req : NewUserDTO)
    (ti : Option Nat)
    (hen : cfg.telegramEnabled = true) (hpin : req.TelegramPIN ≠ "")
    (ht : telegramCheck cfg s req = .ok ti) :
    ∃ i, ti = some i ∧ telegramFind s.telegramTokens req.TelegramPIN = some i := by
  simp only [telegramCheck, hen, hpin, if_true, if_false] at ht
  cases hfind : telegramFind s.telegramTokens req.TelegramPIN with
  | none => rw [hfind] at ht; simp at ht
  | some i =>
    rw [hfind] at ht
    simp only [Except.ok.injEq] at ht
    exact ⟨i, ht.symm, rfl⟩

/-- The registries after a successful `newUser` that presented a PIN. -/
theorem newUser_success_registries (cfg : Config) (env : Env) (s : AppState)
    (req : NewUserDTO) (confirmed : Bool)
    (hsucc : (newUser cfg env s req confirmed).success = true) :
    (cfg.discordEnabled = true → req.DiscordPIN ≠ "" → env.storeDiscordUsersErr = false →
      (newUser cfg env s req confirmed).state.discordTokens =
        s.discordTokens.del req.DiscordPIN) ∧
    (cfg.matrixEnabled = true → req.MatrixPIN ≠ "" →
      (newUser cfg env s req confirmed).state.matrixTokens =
        s.matrixTokens.del req.MatrixPIN) ∧
    (cfg.telegramEnabled = true → req.TelegramPIN ≠ "" → env.storeTelegramUsersErr = false →
      ∃ i, telegramFind s.telegramTokens req.TelegramPIN = some i ∧
        (newUser cfg env s req confirmed).state.telegramTokens =
          swapRemove s.telegramTokens i) := by
  obtain ⟨td, du, dv, mu, mv, ti, _, hd, hm, ht, _, heq⟩ :=
    newUser_success_shape cfg env s req confirmed hsucc
  have hl := provision_links cfg env s req du dv mu mv ti
    ([Event.userByName req.Username] ++ td ++ [Event.jfNewUser req.Username req.Password])
    (by rw [← heq]; exact hsucc)
  rw [heq]
  refine ⟨?_, ?_, ?_⟩
  · intro hen hpin he
    have hdv := (discordCheck_ok_pin cfg env s req td du dv hen hpin hd).1
    rw [hl.2.1]
    simp [hen, hdv, he]
  · intro hen hpin
    have hmv := matrixCheck_ok_pin cfg s req mu mv hen hpin hm
    rw [hl.2.2.2.1]
    simp [hmv]
  · intro hen hpin he
    obtain ⟨i, rfl, hfind⟩ := telegramCheck_ok_pin cfg s req ti hen hpin ht
    refine ⟨i, hfind, ?_⟩
    rw [hl.2.2.2.2.2]
    simp [hen, he]

/-- A run of `newUser` in which some provider's check fails creates no account. -/
theorem newUser_fails_of_checks (cfg : Config) (env : Env) (s : AppState) (req : NewUserDTO)
    (confirmed : Bool) (hfail : checksPass cfg env s req = false) :
    (newUser cfg env s req confirmed).success = false ∧
    createsAccount (newUser cfg env s req confirmed).trace = false := by
  rcases newUser_split cfg env s req confirmed with
    ⟨_, hs, _, hc, _⟩ | ⟨_, hp, _⟩ | ⟨_, hp, _⟩
  · exact ⟨hs, hc⟩
  · rw [hp] at hfail; exact absurd hfail (by decide)
  · rw [hp] at hfail; exact absurd hfail (by decide)

/-! ## Lemmas on the claim set and on the Discord role -/

theorem filter_tokens_of_none (t : List Event) (h : issuesToken t = false) :
    t.filter Event.isTokenIssue = [] := by
  unfold issuesToken at h
  rw [List.filter_eq_nil_iff]
  intro e he
  have := List.any_eq_false.mp h e he
  simpa using this

theorem confirmationGate_tokens (env : Env) (s : AppState) (req : NewUserDTO)
    (pre : List Event) (h : issuesToken pre = false) :
    (confirmationGate env s req pre).trace.filter Event.isTokenIssue =
      [Event.signToken (confirmationClaims env req)] := by
  unfold confirmationGate
  cases env.signedString <;>
    simp [List.filter_append, filter_tokens_of_none pre h, List.filter_cons,
      Event.isTokenIssue]

theorem confirmationClaims_exp (env : Env) (req : NewUserDTO) :
    (confirmationClaims env req).exp = Time.unix env.nowGate + 43200 := by
  simp only [confirmationClaims, Time.unix]
  omega

/-- The calls of the Discord block: the role application, made exactly when
a PIN was supplied and resolves to a verified user. -/
theorem discordCheck_calls (cfg : Config) (env : Env) (s : AppState) (req : NewUserDTO) :
    (discordCheck cfg env s req).1 =
      (if cfg.discordEnabled = true ∧ req.DiscordPIN ≠ "" then
        match s.discordTokens.get req.DiscordPIN with
        | some discordUser => [Event.applyRole discordUser.ID]
        | none => []
      else []) := by
  unfold discordCheck
  cases hget : s.discordTokens.get req.DiscordPIN <;>
    by_cases hen : cfg.discordEnabled = true <;>
    by_cases hpin : req.DiscordPIN = "" <;>
    simp [hen, hpin] <;> split_ifs <;> rfl

theorem discordCheck_roles (cfg : Config) (env : Env) (s : AppState) (req : NewUserDTO) :
    (∀ e ∈ (discordCheck cfg env s req).1, e.isRoleApplication = true) ∧
    (appliesRole (discordCheck cfg env s req).1 = true ↔
      (cfg.discordEnabled = true ∧ req.DiscordPIN ≠ "" ∧
        (s.discordTokens.get req.DiscordPIN).isSome = true)) := by
  rw [discordCheck_calls]
  by_cases h : cfg.discordEnabled = true ∧ req.DiscordPIN ≠ ""
  · rw [if_pos h]
    cases hget : s.discordTokens.get req.DiscordPIN with
    | none => simp [appliesRole]
    | some u => simp [appliesRole, Event.isRoleApplication, h.1, h.2]
  · rw [if_neg h]
    constructor
    · intro e he; simp at he
    · constructor
      · intro h'; simp [appliesRole] at h'
      · intro h'; exact absurd ⟨h'.1, h'.2.1⟩ h

theorem confirmationGate_unsigned (env : Env) (s : AppState) (req : NewUserDTO)
    (pre : List Event) (h : env.signedString = none) :
    confirmationGate env s req pre =
      { state := s, f := some { resp := respond 500 "errorUnknown" }, success := false
        trace := pre ++ [Event.signToken (confirmationClaims env req)] } := by
  simp [confirmationGate, h]

theorem appliesRole_append (a b : List Event) :
    appliesRole (a ++ b) = (appliesRole a || appliesRole b) := by
  simp [appliesRole]

/-- The calls of a run of `newUser` that made the Discord check and then, before
any account existed, the calls `rest`, none of them a provider action. -/
theorem failure_trace (cfg : Config) (env : Env) (s : AppState) (req : NewUserDTO)
    (td rest : List Event) (htd : (discordCheck cfg env s req).1 = td)
    (hname : env.existingUserName = "")
    (hrest : ∀ e ∈ rest, e = Event.signToken (confirmationClaims env req) ∨
      e = Event.storeInvites ∨ e = Event.jfNewUser req.Username req.Password) :
    (∀ e ∈ [Event.userByName req.Username] ++ td ++ rest,
      e = Event.userByName req.Username ∨ e.isRoleApplication = true ∨
      e = Event.signToken (confirmationClaims env req) ∨ e = Event.storeInvites ∨
      e = Event.jfNewUser req.Username req.Password) ∧
    (appliesRole ([Event.userByName req.Username] ++ td ++ rest) = true ↔
      (env.existingUserName = "" ∧ cfg.discordEnabled = true ∧ req.DiscordPIN ≠ "" ∧
        (s.discordTokens.get req.DiscordPIN).isSome = true)) := by
  have hroles := discordCheck_roles cfg env s req
  rw [htd] at hroles
  have hnone : appliesRole rest = false := by
    unfold appliesRole
    rw [List.any_eq_false]
    intro e he
    rcases hrest e he with h | h | h <;> subst h <;> simp [Event.isRoleApplication]
  constructor
  · intro e he
    rw [List.mem_append, List.mem_append] at he
    rcases he with (he | he) | he
    · left; simpa using he
    · right; left; exact hroles.1 e he
    · right; right; exact hrest e he
  · rw [appliesRole_append, appliesRole_append, hnone]
    have h0 : appliesRole [Event.userByName req.Username] = false := rfl
    rw [h0, Bool.false_or, Bool.or_false, hroles.2]
    exact ⟨fun h => ⟨hname, h⟩, fun h => h.2⟩

/-! ## Lemmas on `usersLock` -/

/-- No account-service call, companion-service call or send happens while
`ExtendExpiry` holds `usersLock`. -/
theorem ExtendExpiry_lock (env : ExtendEnv) (s : AppState) (req : ExtendExpiryDTO) :
    lockHeldAtCall false (ExtendExpiry env s req).trace = false := by
  unfold ExtendExpiry
  split_ifs <;> rfl

/-- No account-service call, companion-service call or send happens while
`GetUsers` holds `usersLock`: its account-service call precedes `Lock`. -/
theorem GetUsers_lock (jfGetUsers : CallResult) :
    lockHeldAtCall false (GetUsers jfGetUsers).2 = false := by
  unfold GetUsers
  split_ifs <;> rfl

/-! ## Lemmas on the removal of a Telegram token -/

theorem swapRemove_eq {α : Type} (l : List α) (i : Nat) (x y : α)
    (hx : l[i]? = some x) (hy : l[l.length - 1]? = some y) :
    swapRemove l i = (l.take (l.length - 1)).set i y := by
  unfold swapRemove
  rw [hx, hy]
  simp only
  have h : (l.take (l.length - 1)).set (l.length - 1) x = l.take (l.length - 1) :=
    List.set_eq_of_length_le (by simp)
  rw [List.set_take, List.set_take, h]

theorem take_append_last {α : Type} (l : List α) (y : α)
    (hy : l[l.length - 1]? = some y) : l.take (l.length - 1) ++ [y] = l := by
  obtain ⟨hlt, hget⟩ := List.getElem?_eq_some.mp hy
  have hdrop : l.drop (l.length - 1) = [y] := by
    rw [List.drop_eq_getElem_cons hlt, hget, List.drop_eq_nil_of_le (by omega)]
  rw [← hdrop, List.take_append_drop]

theorem swapRemove_length {α : Type} (l : List α) (i : Nat) (hi : i < l.length) :
    (swapRemove l i).length + 1 = l.length := by
  have hlast : l.length - 1 < l.length := by omega
  rw [swapRemove_eq l i l[i] l[l.length - 1] (List.getElem?_eq_getElem hi)
    (List.getElem?_eq_getElem hlast)]
  simp
  omega

theorem set_perm_cons_eraseIdx {α : Type} (l : List α) (i : Nat) (y : α) (hi : i < l.length) :
    (l.set i y).Perm (y :: l.eraseIdx i) := by
  induction l generalizing i with
  | nil => simp at hi
  | cons a l ih =>
    cases i with
    | zero => simp
    | succ i =>
      simp only [List.set_cons_succ, List.eraseIdx_cons_succ]
      have := ih i (by simpa using hi)
      exact (List.Perm.cons a this).trans (List.Perm.swap y a _)

/-- As a multiset, `swapRemove l i` is `l` without the entry at index `i`. -/
theorem swapRemove_perm {α : Type} (l : List α) (i : Nat) (hi : i < l.length) :
    (swapRemove l i).Perm (l.eraseIdx i) := by
  have hlast : l.length - 1 < l.length := by omega
  have hy : l[l.length - 1]? = some l[l.length - 1] := List.getElem?_eq_getElem hlast
  rw [swapRemove_eq l i l[i] l[l.length - 1] (List.getElem?_eq_getElem hi) hy]
  have hl := take_append_last l l[l.length - 1] hy
  have hlen : (l.take (l.length - 1)).length = l.length - 1 := by simp
  by_cases hin : i < l.length - 1
  · have herase : l.eraseIdx i = (l.take (l.length - 1)).eraseIdx i ++ [l[l.length - 1]] := by
      conv_lhs => rw [← hl]
      exact List.eraseIdx_append_of_lt_length (by omega) _
    rw [herase]
    exact (set_perm_cons_eraseIdx _ i _ (by omega)).trans
      (List.perm_append_singleton _ _).symm
  · have herase : l.eraseIdx i = l.take (l.length - 1) := by
      conv_lhs => rw [← hl]
      rw [List.eraseIdx_append_of_length_le (by omega)]
      have : i - (l.take (l.length - 1)).length = 0 := by omega
      rw [this]
      simp
    rw [herase, List.set_eq_of_length_le (by omega)]

theorem telegramFind_first (l : List TelegramVerifiedToken) (pin : String) (i : Nat)
    (h : telegramFind l pin = some i) :
    ∀ (j : Nat) (v : TelegramVerifiedToken), j < i → l[j]? = some v → v.Token ≠ pin := by
  induction l generalizing i with
  | nil => simp [telegramFind] at h
  | cons w rest ih =>
    by_cases hw : w.Token = pin
    · simp [telegramFind, hw] at h
      subst h
      intro j v hj
      omega
    · simp [telegramFind, hw] at h
      obtain ⟨i', hi', rfl⟩ := h
      intro j v hj hv
      cases j with
      | zero =>
        simp at hv
        subst hv
        exact hw
      | succ j =>
        simp at hv
        exact ih i' hi' j v (by omega) hv

theorem token_index_unique (l : List TelegramVerifiedToken)
    (hnd : (l.map (fun v => v.Token)).Nodup) (j k : Nat) (v w : TelegramVerifiedToken)
    (hj : l[j]? = some v) (hk : l[k]? = some w) (h : v.Token = w.Token) : j = k := by
  have hj' : (l.map (fun v => v.Token))[j]? = some v.Token := by simp [hj]
  have hk' : (l.map (fun v => v.Token))[k]? = some w.Token := by simp [hk]
  have hjl : j < (l.map (fun v => v.Token)).length := (List.getElem?_eq_some.mp hj').1
  have hkl : k < (l.map (fun v => v.Token)).length := (List.getElem?_eq_some.mp hk').1
  have e1 := (List.getElem?_eq_some.mp hj').2
  have e2 := (List.getElem?_eq_some.mp hk').2
  exact (List.Nodup.getElem_inj_iff hnd).mp (by rw [e1, e2, h])

/-- What the removal of the token found for a PIN does to `verifiedTokens`. -/
theorem swapRemove_found (l : List TelegramVerifiedToken) (pin : String) (i : Nat)
    (hfind : telegramFind l pin = some i) :
    ∃ v, l[i]? = some v ∧ v.Token = pin ∧
      (∀ (j : Nat) (w : TelegramVerifiedToken), j < i → l[j]? = some w → w.Token ≠ pin) ∧
      (swapRemove l i).length + 1 = l.length ∧
      (swapRemove l i).Perm (l.eraseIdx i) ∧
      ((l.map (fun t => t.Token)).Nodup → telegramFind (swapRemove l i) pin = none) := by
  obtain ⟨v, hv, hvt⟩ := telegramFind_some l pin i hfind
  have hi : i < l.length := (List.getElem?_eq_some.mp hv).1
  refine ⟨v, hv, hvt, telegramFind_first l pin i hfind, swapRemove_length l i hi,
    swapRemove_perm l i hi, fun hnd => ?_⟩
  apply telegramFind_after_removal l pin i hfind
  intro k w hk hwt
  exact token_index_unique l hnd k i w v hk hv (by rw [hwt, hvt])

/-- The token list after a `TelegramAddUser` that answered 200 and whose store
write succeeded. -/
theorem TelegramAddUser_tokens (env : TelegramAddEnv) (s : AppState) (req : TelegramSetDTO)
    (hreply : (TelegramAddUser env s req).reply = .bool (respondBool 200 true))
    (hstore : env.storeTelegramUsersErr = false) :
    ∃ i, telegramFind s.telegramTokens req.Token = some i ∧
      (TelegramAddUser env s req).state.telegramTokens = swapRemove s.telegramTokens i := by
  unfold TelegramAddUser at hreply ⊢
  by_cases hreq : req.Token = "" ∨ req.ID = ""
  · rw [if_pos hreq] at hreply
    simp [respondBool] at hreply
  · rw [if_neg hreq] at hreply ⊢
    cases hfind : telegramFind s.telegramTokens req.Token with
    | none =>
      rw [hfind] at hreply
      simp [respondBool] at hreply
    | some i =>
      refine ⟨i, rfl, ?_⟩
      simp [hstore]

/-! ## Lemmas on `timeDiff` -/

theorem daysIn_bounds (y m : Int) : 28 ≤ daysIn y m ∧ daysIn y m ≤ 31 := by
  unfold daysIn
  split_ifs <;> omega

theorem UTCTime.valid_iff (t : UTCTime) :
    t.valid = true ↔
      (1 ≤ t.month ∧ t.month ≤ 12 ∧ 1 ≤ t.day ∧ t.day ≤ daysIn t.year t.month ∧
       0 ≤ t.hour ∧ t.hour ≤ 23 ∧ 0 ≤ t.min ∧ t.min ≤ 59 ∧ 0 ≤ t.sec ∧ t.sec ≤ 59 ∧
       0 ≤ t.nsec ∧ t.nsec ≤ 999999999) := by
  simp [UTCTime.valid, and_assoc]

theorem UTCTime.after_iff (a b : UTCTime) :
    a.after b = true ↔
      (b.year < a.year ∨ (b.year = a.year ∧
      (b.month < a.month ∨ (b.month = a.month ∧
      (b.day < a.day ∨ (b.day = a.day ∧
      (b.hour < a.hour ∨ (b.hour = a.hour ∧
      (b.min < a.min ∨ (b.min = a.min ∧
      (b.sec < a.sec ∨ (b.sec = a.sec ∧ b.nsec < a.nsec)))))))))))) := by
  simp [UTCTime.after]

/-- The bounds on the results of `fieldDiff` for fields in order. -/
theorem fieldDiff_bounds (a b : UTCTime) (ha : a.valid = true) (hb : b.valid = true)
    (hle : a.after b = false) :
    0 ≤ (fieldDiff a b).year ∧
    0 ≤ (fieldDiff a b).month ∧ (fieldDiff a b).month ≤ 11 ∧
    0 ≤ (fieldDiff a b).day ∧ (fieldDiff a b).day ≤ 30 ∧
    0 ≤ (fieldDiff a b).hour ∧ (fieldDiff a b).hour ≤ 23 ∧
    0 ≤ (fieldDiff a b).min ∧ (fieldDiff a b).min ≤ 59 ∧
    0 ≤ (fieldDiff a b).sec ∧ (fieldDiff a b).sec ≤ 59 := by
  rw [UTCTime.valid_iff] at ha hb
  have hle' : ¬ (a.after b = true) := by simp [hle]
  rw [UTCTime.after_iff] at hle'
  have hd := daysIn_bounds a.year a.month
  have hd' := daysIn_bounds b.year b.month
  simp only [fieldDiff, dayOf32]
  refine ⟨?_, ?_, ?_, ?_, ?_, ?_, ?_, ?_, ?_, ?_, ?_⟩ <;> split_ifs <;> omega

theorem UTCTime.after_asymm (a b : UTCTime) (h : a.after b = true) : b.after a = false := by
  rw [UTCTime.after_iff] at h
  have : ¬ (b.after a = true) := by
    rw [UTCTime.after_iff]; omega
  simpa using this

theorem UTCTime.eq_of_not_after (a b : UTCTime) (h₁ : a.after b = false)
    (h₂ : b.after a = false) : a = b := by
  have h₁' : ¬ (a.after b = true) := by simp [h₁]
  have h₂' : ¬ (b.after a = true) := by simp [h₂]
  rw [UTCTime.after_iff] at h₁' h₂'
  cases a; cases b
  simp only [UTCTime.mk.injEq]
  simp only at h₁' h₂'
  omega

theorem timeDiff_comm (a b : UTCTime) : timeDiff a b = timeDiff b a := by
  unfold timeDiff
  cases hab : a.after b
  · cases hba : b.after a
    · rw [UTCTime.eq_of_not_after a b hab hba]
    · simp
  · rw [UTCTime.after_asymm a b hab]
    simp

/-- The shape of a run of `newUser` that returns `success = false`: the state
it leaves and the calls it made. -/
theorem newUser_failure_shape (cfg : Config) (env : Env) (s : AppState) (req : NewUserDTO)
    (confirmed : Bool) (hret : (newUser cfg env s req confirmed).panicked = false)
    (hfail : (newUser cfg env s req confirmed).success = false) :
    (env.existingUserName ≠ "" ∧ (newUser cfg env s req confirmed).state = s ∧
      (newUser cfg env s req confirmed).trace = [Event.userByName req.Username]) ∨
    (env.existingUserName = "" ∧
      ∃ rest,
        (newUser cfg env s req confirmed).trace =
          [Event.userByName req.Username] ++ (discordCheck cfg env s req).1 ++ rest ∧
        (∀ e ∈ rest, e = Event.signToken (confirmationClaims env req) ∨
          e = Event.storeInvites ∨ e = Event.jfNewUser req.Username req.Password) ∧
        ((newUser cfg env s req confirmed).state = s ∨
          (gateOpen cfg confirmed = true ∧ ∃ key, env.signedString = some key ∧
            (newUser cfg env s req confirmed).state =
              { s with
                invites := s.invites.put req.Code
                  { (s.invites.get req.Code).getD default with
                    Keys := ((s.invites.get req.Code).getD default).Keys ++ [key] } }))) := by
  by_cases hname : env.existingUserName = ""
  swap
  · left
    rw [newUser_name_taken cfg env s req confirmed hname]
    exact ⟨hname, rfl, rfl⟩
  right
  refine ⟨hname, ?_⟩
  rcases hd : discordCheck cfg env s req with ⟨td, e | ⟨du, dv⟩⟩
  · rw [newUser_discord_fails cfg env s req confirmed hname td e hd]
    exact ⟨[], by simp, by simp, Or.inl rfl⟩
  rcases hm : matrixCheck cfg s req with e | ⟨mu, mv⟩
  · rw [newUser_matrix_fails cfg env s req confirmed hname td du dv e hd hm]
    exact ⟨[], by simp, by simp, Or.inl rfl⟩
  rcases ht : telegramCheck cfg s req with e | ti
  · rw [newUser_telegram_fails cfg env s req confirmed hname td du dv mu mv e hd hm ht]
    exact ⟨[], by simp, by simp, Or.inl rfl⟩
  cases hg : gateOpen cfg confirmed
  · have heq := newUser_past_gate cfg env s req confirmed hname td du dv mu mv ti hd hm ht hg
    rw [heq] at hfail hret
    have hok := createAccount_failure_returned cfg env s req du dv mu mv ti _ hret hfail
    rw [heq, createAccount_fails cfg env s req du dv mu mv ti _ hok]
    exact ⟨[Event.jfNewUser req.Username req.Password], rfl, by simp, Or.inl rfl⟩
  · have heq := newUser_at_gate cfg env s req confirmed hname td du dv mu mv ti hd hm ht hg
    rw [heq]
    cases hk : env.signedString with
    | none =>
      rw [confirmationGate_unsigned env s req _ hk]
      exact ⟨[Event.signToken (confirmationClaims env req)], rfl, by simp, Or.inl rfl⟩
    | some key =>
      rw [confirmationGate_signed env s req _ key hk]
      exact ⟨[Event.signToken (confirmationClaims env req), Event.storeInvites], rfl,
        by simp, Or.inr ⟨rfl, key, rfl, rfl⟩⟩

/-! ## Lemmas on calls of `checkInvite` that overlap -/

/-- A call that continues on the state it read from is the call `checkInvite`. -/
theorem checkInviteAfterRead_own_read (cfg : Config) (s : AppState) (now : Time)
    (code : String) (used : Bool) (u : String) :
    checkInviteAfterRead cfg s now code used u (s.invites.get code) =
      checkInvite cfg s now code used u := by
  unfold checkInviteAfterRead checkInvite
  cases s.invites.get code <;> rfl

/-- A consuming call that read an unexpired invite returns true, whatever the
state it continues on. -/
theorem checkInviteAfterRead_consume (cfg : Config) (s : AppState) (now : Time)
    (code u : String) (inv : Invite) (hle : now ≤ inv.ValidTill) :
    (checkInviteAfterRead cfg s now code true u (some inv)).ok = true ∧
    (inv.RemainingUses = 1 →
      (checkInviteAfterRead cfg s now code true u (some inv)).state.invites =
        s.invites.del code) ∧
    (inv.RemainingUses ≠ 1 →
      (checkInviteAfterRead cfg s now code true u (some inv)).state.invites =
        s.invites.put code
          { inv with
            RemainingUses :=
              if inv.RemainingUses ≠ 0 then inv.RemainingUses - 1 else inv.RemainingUses
            UsedBy := inv.UsedBy ++ [[u, formatInt now.unix]] }) := by
  have hna : now.after inv.ValidTill = false := by
    simp only [Time.after, decide_eq_false_iff_not, not_lt]
    exact hle
  unfold checkInviteAfterRead
  simp only [hna]
  refine ⟨rfl, ?_, ?_⟩
  · intro h1
    simp [h1]
  · intro h1
    simp [h1]

/-! ## Theorems -/

/-- C1: for every N ≥ 1 and every invite with `RemainingUses = N` whose
`ValidTill` is not before any of the call times, N successive calls
`checkInvite(code, true, u)` each return true; after the Nth call the code is
absent from the invite map, and a further call `checkInvite(code, true, u)`
returns false. -/
theorem checkInvite_N_uses_then_invalid (cfg : Config) (s : AppState) (code u : String)
    (inv : Invite) (N : Nat) (times : List Time) (later : Time)
    (hN : 1 ≤ N)
    (hget : s.invites.get code = some inv)
    (huses : inv.RemainingUses = (N : Int))
    (hlen : times.length = N)
    (htimes : ∀ t ∈ times, ¬ inv.ValidTill < t) :
    (consumeAt cfg code u s times).2 = List.replicate N true ∧
    (consumeAt cfg code u s times).1.invites.get code = none ∧
    (checkInvite cfg (consumeAt cfg code u s times).1 later code true u).ok = false := by
  subst hlen
  have hne : times ≠ [] := by
    intro h; subst h; simp at hN
  have h := consumeAt_exhausts cfg code u times s inv hget huses hne
    (fun t ht => not_lt.mp (htimes t ht))
  refine ⟨h.1, h.2, ?_⟩
  rw [checkInvite_missing cfg _ later code true u h.2]

/-- C1, at an invite with two uses left consumed at instants 10 and 20. -/
theorem checkInvite_N_uses_then_invalid_witness :
    (1 ≤ 2 ∧
      (GoMap.get [("X7K2", ({ RemainingUses := 2, ValidTill := 100 } : Invite))] "X7K2"
        = some { RemainingUses := 2, ValidTill := 100 }) ∧
      (∀ t ∈ [(10 : Time), 20], ¬ (100 : Time) < t)) ∧
    (consumeAt {} "X7K2" "alice"
        { invites := [("X7K2", { RemainingUses := 2, ValidTill := 100 })] } [10, 20]).2
      = [true, true] ∧
    (consumeAt {} "X7K2" "alice"
        { invites := [("X7K2", { RemainingUses := 2, ValidTill := 100 })] }
        [10, 20]).1.invites.get "X7K2" = none ∧
    (checkInvite {}
        (consumeAt {} "X7K2" "alice"
          { invites := [("X7K2", { RemainingUses := 2, ValidTill := 100 })] } [10, 20]).1
        30 "X7K2" true "alice").ok = false :=
  ⟨⟨by decide, by decide, by decide⟩,
    checkInvite_N_uses_then_invalid {}
      { invites := [("X7K2", { RemainingUses := 2, ValidTill := 100 })] } "X7K2" "alice"
      { RemainingUses := 2, ValidTill := 100 } 2 [10, 20] 30
      (by decide) (by decide) rfl rfl (by decide)⟩

/-- C3: when `newUser` has called the account service's `NewUser` and the call
returned a status other than 200/204 or an error, `newUser` returns
`success = false` and the invite map, the Discord, Matrix and Telegram
verification registries, the email map and the linked-identity maps (indeed the
whole state) are as they were before the call. -/
theorem newUser_creation_failure_changes_nothing (cfg : Config) (env : Env) (s : AppState)
    (req : NewUserDTO) (confirmed : Bool)
    (hcall : createsAccount (newUser cfg env s req confirmed).trace = true)
    (hfail : env.jfNewUser.ok = false) :
    (newUser cfg env s req confirmed).success = false ∧
    (newUser cfg env s req confirmed).state.invites = s.invites ∧
    (newUser cfg env s req confirmed).state.discordTokens = s.discordTokens ∧
    (newUser cfg env s req confirmed).state.matrixTokens = s.matrixTokens ∧
    (newUser cfg env s req confirmed).state.telegramTokens = s.telegramTokens ∧
    (newUser cfg env s req confirmed).state.emails = s.emails ∧
    (newUser cfg env s req confirmed).state.discord = s.discord ∧
    (newUser cfg env s req confirmed).state.matrix = s.matrix ∧
    (newUser cfg env s req confirmed).state.telegram = s.telegram ∧
    (newUser cfg env s req confirmed).state = s := by
  rcases newUser_split cfg env s req confirmed with
    ⟨_, _, _, hc, _⟩ | ⟨_, _, _, pre, hpre, _, heq⟩ | ⟨_, _, _, pre, du, dv, mu, mv, ti, _, _, heq⟩
  · rw [hc] at hcall; exact absurd hcall (by decide)
  · rw [heq, (confirmationGate_no_creation env s req pre).1, hpre] at hcall
    exact absurd hcall (by decide)
  · rw [heq, createAccount_fails cfg env s req du dv mu mv ti pre hfail]
    exact ⟨rfl, rfl, rfl, rfl, rfl, rfl, rfl, rfl, rfl, rfl⟩

/-- C3, at a request on a single-use invite whose account creation is answered
with status 500. -/
theorem newUser_creation_failure_changes_nothing_witness :
    (createsAccount
        (newUser {} { jfNewUser := { status := 500 } }
          { invites := [("X7K2", { RemainingUses := 1, ValidTill := 100 })] }
          { Username := "alice", Password := "p1", Code := "X7K2" } false).trace = true ∧
      ({ jfNewUser := { status := 500 } } : Env).jfNewUser.ok = false) ∧
    (newUser {} { jfNewUser := { status := 500 } }
        { invites := [("X7K2", { RemainingUses := 1, ValidTill := 100 })] }
        { Username := "alice", Password := "p1", Code := "X7K2" } false).success = false ∧
    (newUser {} { jfNewUser := { status := 500 } }
        { invites := [("X7K2", { RemainingUses := 1, ValidTill := 100 })] }
        { Username := "alice", Password := "p1", Code := "X7K2" } false).state.invites
      = [("X7K2", { RemainingUses := 1, ValidTill := 100 })] :=
  have h := newUser_creation_failure_changes_nothing {} { jfNewUser := { status := 500 } }
    { invites := [("X7K2", { RemainingUses := 1, ValidTill := 100 })] }
    { Username := "alice", Password := "p1", Code := "X7K2" } false (by decide) (by decide)
  ⟨⟨by decide, by decide⟩, h.1, h.2.1⟩

/-- C4 fails: once the account service has created the account, `newUser`
returns `success = true` for every answer of every later call but one: when the
companion service's user list holds a record whose `userName` is absent, the
unchecked type assertion in `getOmbiUser` panics, `newUser` does not return, and
the handler `NewUser` panics, with the account created, the invite consumed and
the Discord identity stored. -/
theorem newUser_panics_after_creation :
    (∀ (cfg : Config) (env : Env) (s : AppState) (req : NewUserDTO) (confirmed : Bool),
      createsAccount (newUser cfg env s req confirmed).trace = true →
      env.jfNewUser.ok = true →
      (newUser cfg env s req confirmed).success =
        !(newUser cfg env s req confirmed).panicked) ∧
    newUser { discordEnabled := true, ombiEnabled := true }
        { ombiUsers := [{ emailAddress := .str "al@b.c" }] }
        { invites := [("M3", { RemainingUses := 3, ValidTill := 100, Profile := "P" })]
          profiles := [("P", { Ombi := [("k", "v")] })]
          discordTokens := [("1234", { ID := "d1", Username := "al" })] }
        { Username := "alice", Password := "p1", Code := "M3", DiscordPIN := "1234" }
        false =
      { state :=
          { invites := [("M3", { RemainingUses := 2, ValidTill := 100, Profile := "P"
                                 UsedBy := [["alice", "0"]] })]
            profiles := [("P", { Ombi := [("k", "v")] })]
            discord := [("id", { ID := "d1", Username := "al" })] }
        f := none
        success := false
        panicked := true
        trace :=
          [Event.userByName "alice", Event.applyRole "d1", Event.jfNewUser "alice" "p1",
            Event.loadProfiles, Event.storeInvites, Event.storeDiscordUsers,
            Event.ombiNewUser "alice", Event.ombiGetUsers, Event.jfUserByID "id"] } ∧
    (NewUser { discordEnabled := true, ombiEnabled := true }
        { env := { ombiUsers := [{ emailAddress := .str "al@b.c" }] } }
        { invites := [("M3", { RemainingUses := 3, ValidTill := 100, Profile := "P" })]
          profiles := [("P", { Ombi := [("k", "v")] })]
          discordTokens := [("1234", { ID := "d1", Username := "al" })] }
        { Username := "alice", Password := "p1", Code := "M3", DiscordPIN := "1234" }).reply =
      Reply.panic := by
  refine ⟨?_, by decide, by decide⟩
  intro cfg env s req confirmed hcall hok
  rcases newUser_split cfg env s req confirmed with
    ⟨_, _, _, hc, _⟩ | ⟨_, _, _, pre, hpre, _, heq⟩ | ⟨_, _, _, pre, du, dv, mu, mv, ti, _, _, heq⟩
  · rw [hc] at hcall; exact absurd hcall (by decide)
  · rw [heq, (confirmationGate_no_creation env s req pre).1, hpre] at hcall
    exact absurd hcall (by decide)
  · rw [heq, createAccount_creates, hok, Bool.true_and]

/-- C2 as stated fails: with the captcha check enabled and failed, `NewUser`
answers `errorCaptcha` for a request naming an expired invite, not
`errorInvalidCode`, and the expired invite stays in the map. -/
theorem NewUser_expired_invite_captcha_counterexample :
    (({ RemainingUses := 1, ValidTill := 100 } : Invite).ValidTill < (200 : Time)) ∧
    (NewUser { captchaEnabled := true } { captchaOk := false, nowValidate := 200 }
        { invites := [("X7K2", { RemainingUses := 1, ValidTill := 100 })] }
        { Username := "alice", Password := "p1", Code := "X7K2" }).reply
      = Reply.message (respond 400 "errorCaptcha") ∧
    (NewUser { captchaEnabled := true } { captchaOk := false, nowValidate := 200 }
        { invites := [("X7K2", { RemainingUses := 1, ValidTill := 100 })] }
        { Username := "alice", Password := "p1", Code := "X7K2" }).reply
      ≠ Reply.message (respond 401 "errorInvalidCode") ∧
    (NewUser { captchaEnabled := true } { captchaOk := false, nowValidate := 200 }
        { invites := [("X7K2", { RemainingUses := 1, ValidTill := 100 })] }
        { Username := "alice", Password := "p1", Code := "X7K2" }).state.invites.get "X7K2"
      = some { RemainingUses := 1, ValidTill := 100 } := by
  decide

/-- C2, amended: for every invite in the store whose `ValidTill` is in the past,
`checkInvite(code, used, u)` returns false and removes the code from the invite
map, for every value of `RemainingUses` and of `used`; `NewUser` creates no
account for a request naming it, and rejects the request with
`errorInvalidCode` (401) after removing the invite, unless the captcha check is
enabled and fails, in which case it answers `errorCaptcha` (400). -/
theorem expired_invite_is_rejected (cfg : Config) (s : AppState) (code : String)
    (inv : Invite) (now : Time)
    (hget : s.invites.get code = some inv) (hexp : inv.ValidTill < now) :
    (∀ (used : Bool) (u : String),
      (checkInvite cfg s now code used u).ok = false ∧
      (checkInvite cfg s now code used u).state.invites.get code = none) ∧
    (∀ (h : HandlerEnv) (req : NewUserDTO), req.Code = code → h.nowValidate = now →
      createsAccount (NewUser cfg h s req).trace = false ∧
      ((cfg.captchaEnabled && !h.captchaOk) = false →
        (NewUser cfg h s req).reply = Reply.message (respond 401 "errorInvalidCode") ∧
        (NewUser cfg h s req).state.invites.get code = none) ∧
      ((cfg.captchaEnabled && !h.captchaOk) = true →
        (NewUser cfg h s req).reply = Reply.message (respond 400 "errorCaptcha"))) := by
  have hck : ∀ (used : Bool) (u : String),
      (checkInvite cfg s now code used u).ok = false ∧
      (checkInvite cfg s now code used u).state.invites.get code = none := by
    intro used u
    rw [checkInvite_expired cfg s now code used u inv hget hexp]
    exact ⟨rfl, GoMap.get_del_self _ _⟩
  refine ⟨hck, ?_⟩
  intro h req hcode hnow
  subst hcode hnow
  have hc := hck false ""
  have htr := checkInvite_no_creation cfg s h.nowValidate req.Code false ""
  cases hcap : (cfg.captchaEnabled && !h.captchaOk)
  · have hN : NewUser cfg h s req =
        { state := (checkInvite cfg s h.nowValidate req.Code false "").state
          reply := Reply.message (respond 401 "errorInvalidCode")
          trace := (if cfg.captchaEnabled then [Event.verifyCaptcha req.Code] else []) ++
            (checkInvite cfg s h.nowValidate req.Code false "").trace } := by
      simp only [NewUser, hcap, hc.1]
      simp
    rw [hN]
    refine ⟨?_, fun _ => ⟨rfl, hc.2⟩, fun hh => absurd hh (by decide)⟩
    simp only [createsAccount_append, htr]
    split_ifs <;> rfl
  · have hN : NewUser cfg h s req =
        { state := s, reply := Reply.message (respond 400 "errorCaptcha")
          trace := [Event.verifyCaptcha req.Code] } := by
      simp only [NewUser, hcap]
      simp
    rw [hN]
    exact ⟨rfl, fun hh => absurd hh (by decide), fun _ => rfl⟩

/-- C2 amended, at a single-use invite that expired at 100, looked up at 200. -/
theorem expired_invite_is_rejected_witness :
    (GoMap.get [("X7K2", ({ RemainingUses := 1, ValidTill := 100 } : Invite))] "X7K2"
        = some { RemainingUses := 1, ValidTill := 100 } ∧
      ({ RemainingUses := 1, ValidTill := 100 } : Invite).ValidTill < (200 : Time)) ∧
    (checkInvite {} { invites := [("X7K2", { RemainingUses := 1, ValidTill := 100 })] }
        200 "X7K2" true "alice").ok = false ∧
    (NewUser {} { nowValidate := 200 }
        { invites := [("X7K2", { RemainingUses := 1, ValidTill := 100 })] }
        { Username := "alice", Password := "p1", Code := "X7K2" }).reply
      = Reply.message (respond 401 "errorInvalidCode") :=
  have h := expired_invite_is_rejected {}
    { invites := [("X7K2", { RemainingUses := 1, ValidTill := 100 })] } "X7K2"
    { RemainingUses := 1, ValidTill := 100 } 200 (by decide) (by decide)
  ⟨⟨by decide, by decide⟩, (h.1 true "alice").1,
    ((h.2 { nowValidate := 200 } { Username := "alice", Password := "p1", Code := "X7K2" }
      rfl rfl).2.1 (by decide)).1⟩

/-- C5: every successful `newUser` consumes the invite exactly once: the invite
map afterwards is the map before with `checkInvite(code, true, username)`
applied once; so, for an invite that is unexpired at that call, a single-use
invite (`RemainingUses = 1`) no longer exists and a multi-use invite
(`RemainingUses ≥ 2`) has `RemainingUses` lower by one and one more `UsedBy`
entry naming the new username. -/
theorem newUser_success_consumes_once (cfg : Config) (env : Env) (s : AppState)
    (req : NewUserDTO) (confirmed : Bool)
    (hsucc : (newUser cfg env s req confirmed).success = true) :
    (newUser cfg env s req confirmed).state.invites =
      (checkInvite cfg s env.nowConsume req.Code true req.Username).state.invites ∧
    (∀ inv : Invite, s.invites.get req.Code = some inv → ¬ inv.ValidTill < env.nowConsume →
      (inv.RemainingUses = 1 →
        (newUser cfg env s req confirmed).state.invites.get req.Code = none) ∧
      (2 ≤ inv.RemainingUses →
        (newUser cfg env s req confirmed).state.invites.get req.Code =
          some { inv with
                 RemainingUses := inv.RemainingUses - 1
                 UsedBy := inv.UsedBy ++
                   [[req.Username, formatInt (Time.unix env.nowConsume)]] })) := by
  have hinv : (newUser cfg env s req confirmed).state.invites =
      (checkInvite cfg s env.nowConsume req.Code true req.Username).state.invites := by
    rcases newUser_split cfg env s req confirmed with
      ⟨_, hf, _⟩ | ⟨_, _, _, pre, _, _, heq⟩ | ⟨_, _, _, pre, du, dv, mu, mv, ti, _, _, heq⟩
    · rw [hf] at hsucc; exact absurd hsucc (by decide)
    · rw [heq, (confirmationGate_no_creation env s req pre).2] at hsucc
      exact absurd hsucc (by decide)
    · rw [heq] at hsucc
      have hok := createAccount_success_ok cfg env s req du dv mu mv ti pre hsucc
      rw [heq, createAccount_succeeds cfg env s req du dv mu mv ti pre hok,
        provision_invites]
  refine ⟨hinv, ?_⟩
  intro inv hget hexp
  have hle : env.nowConsume ≤ inv.ValidTill := not_lt.mp hexp
  constructor
  · intro h1
    rw [hinv, checkInvite_last_use cfg s _ _ _ inv hget hle h1]
    exact GoMap.get_del_self _ _
  · intro h2
    rw [hinv, checkInvite_counted_use cfg s _ _ _ inv hget hle (by omega) (by omega)]
    exact GoMap.get_put_self _ _ _

/-- C5, at a successful request on an invite with three uses left. -/
theorem newUser_success_consumes_once_witness :
    (newUser {} {} { invites := [("M3", { RemainingUses := 3, ValidTill := 100 })] }
        { Username := "alice", Password := "p1", Code := "M3" } false).success = true ∧
    (newUser {} {} { invites := [("M3", { RemainingUses := 3, ValidTill := 100 })] }
        { Username := "alice", Password := "p1", Code := "M3" } false).state.invites =
      (checkInvite {} { invites := [("M3", { RemainingUses := 3, ValidTill := 100 })] }
        0 "M3" true "alice").state.invites :=
  ⟨by decide,
    (newUser_success_consumes_once {} {}
      { invites := [("M3", { RemainingUses := 3, ValidTill := 100 })] }
      { Username := "alice", Password := "p1", Code := "M3" } false (by decide)).1⟩

/-- C6 as stated fails: the Discord check also fails when the PIN is non-empty
and resolves to an entry of `verifiedTokens`, if applying the member role
returns an error; the failure is the generic `error`, neither
`errorDiscordVerification` nor `errorInvalidPIN`. -/
theorem discordCheck_role_failure_counterexample :
    ("1234" ≠ "" ∧
      GoMap.get [("1234", ({ ID := "d1" } : DiscordUser))] "1234" = some { ID := "d1" }) ∧
    (discordCheck { discordEnabled := true } { applyRoleErr := true }
        { discordTokens := [("1234", { ID := "d1" })] } { DiscordPIN := "1234" }).2
      = Except.error (respond 401 "error") ∧
    respond 401 "error" ≠ respond 401 "errorDiscordVerification" ∧
    respond 401 "error" ≠ respond 401 "errorInvalidPIN" ∧
    (newUser { discordEnabled := true } { applyRoleErr := true }
        { discordTokens := [("1234", { ID := "d1" })] }
        { Username := "alice", DiscordPIN := "1234" } false).f
      = some { resp := respond 401 "error" } := by
  decide

/-- C6, amended: for each enabled provider the check of `newUser` fails exactly
in these cases: with the provider-specific error when the PIN is empty and the
provider is required; with `errorInvalidPIN` when a non-empty PIN does not
resolve to a verified entry of the registry (absent from Discord
`verifiedTokens`; absent from Matrix `tokens` or present with
`Verified = false`; matching no Telegram `verifiedTokens` entry); and, for
Discord only, with `error` when the PIN resolves but applying the member role
fails.  In every other case the check passes: an empty PIN for a provider that
is not required captures no identity, and a PIN that resolves captures the
identity of its entry. -/
theorem provider_checks_fail_exactly (cfg : Config) (env : Env) (s : AppState)
    (req : NewUserDTO) :
    (cfg.discordEnabled = true →
      (req.DiscordPIN = "" → cfg.discordRequired = true →
        (discordCheck cfg env s req).2 = .error (respond 401 "errorDiscordVerification")) ∧
      (req.DiscordPIN = "" → cfg.discordRequired = false →
        discordCheck cfg env s req = ([], .ok (default, false))) ∧
      (req.DiscordPIN ≠ "" → s.discordTokens.get req.DiscordPIN = none →
        (discordCheck cfg env s req).2 = .error (respond 401 "errorInvalidPIN")) ∧
      (∀ u, req.DiscordPIN ≠ "" → s.discordTokens.get req.DiscordPIN = some u →
        env.applyRoleErr = true →
        (discordCheck cfg env s req).2 = .error (respond 401 "error")) ∧
      (∀ u, req.DiscordPIN ≠ "" → s.discordTokens.get req.DiscordPIN = some u →
        env.applyRoleErr = false →
        (discordCheck cfg env s req).2 = .ok (u, true))) ∧
    (cfg.matrixEnabled = true →
      (req.MatrixPIN = "" → cfg.matrixRequired = true →
        matrixCheck cfg s req = .error (respond 401 "errorMatrixVerification")) ∧
      (req.MatrixPIN = "" → cfg.matrixRequired = false →
        matrixCheck cfg s req = .ok (default, false)) ∧
      (req.MatrixPIN ≠ "" → s.matrixTokens.get req.MatrixPIN = none →
        matrixCheck cfg s req = .error (respond 401 "errorInvalidPIN")) ∧
      (∀ t, req.MatrixPIN ≠ "" → s.matrixTokens.get req.MatrixPIN = some t →
        t.Verified = false →
        matrixCheck cfg s req = .error (respond 401 "errorInvalidPIN")) ∧
      (∀ t, req.MatrixPIN ≠ "" → s.matrixTokens.get req.MatrixPIN = some t →
        t.Verified = true →
        matrixCheck cfg s req = .ok (t.User, true))) ∧
    (cfg.telegramEnabled = true →
      (req.TelegramPIN = "" → cfg.telegramRequired = true →
        telegramCheck cfg s req = .error (respond 401 "errorTelegramVerification")) ∧
      (req.TelegramPIN = "" → cfg.telegramRequired = false →
        telegramCheck cfg s req = .ok none) ∧
      (req.TelegramPIN ≠ "" → (∀ v ∈ s.telegramTokens, v.Token ≠ req.TelegramPIN) →
        telegramCheck cfg s req = .error (respond 401 "errorInvalidPIN")) ∧
      (req.TelegramPIN ≠ "" → (∃ v ∈ s.telegramTokens, v.Token = req.TelegramPIN) →
        ∃ i v, telegramCheck cfg s req = .ok (some i) ∧
          s.telegramTokens[i]? = some v ∧ v.Token = req.TelegramPIN)) := by
  refine ⟨fun hd => ⟨?_, ?_, ?_, ?_, ?_⟩, fun hm => ⟨?_, ?_, ?_, ?_, ?_⟩,
    fun ht => ⟨?_, ?_, ?_, ?_⟩⟩
  · intro h1 h2; simp [discordCheck, hd, h1, h2]
  · intro h1 h2; simp [discordCheck, hd, h1, h2]
  · intro h1 h2; simp [discordCheck, hd, h1, h2]
  · intro u h1 h2 h3; simp [discordCheck, hd, h1, h2, h3]
  · intro u h1 h2 h3; simp [discordCheck, hd, h1, h2, h3]
  · intro h1 h2; simp [matrixCheck, hm, h1, h2]
  · intro h1 h2; simp [matrixCheck, hm, h1, h2]
  · intro h1 h2; simp [matrixCheck, hm, h1, h2]
  · intro t h1 h2 h3; simp [matrixCheck, hm, h1, h2, h3]
  · intro t h1 h2 h3; simp [matrixCheck, hm, h1, h2, h3]
  · intro h1 h2; simp [telegramCheck, ht, h1, h2]
  · intro h1 h2; simp [telegramCheck, ht, h1, h2]
  · intro h1 h2
    have := (telegramFind_none s.telegramTokens req.TelegramPIN).mpr h2
    simp [telegramCheck, ht, h1, this]
  · intro h1 h2
    cases hf : telegramFind s.telegramTokens req.TelegramPIN with
    | none =>
      obtain ⟨v, hv, hvt⟩ := h2
      exact absurd hvt ((telegramFind_none _ _).mp hf v hv)
    | some i =>
      obtain ⟨v, hv, hvt⟩ := telegramFind_some _ _ i hf
      exact ⟨i, v, by simp [telegramCheck, ht, h1, hf], hv, hvt⟩

/-- C6 amended, with the three providers enabled and Discord required. -/
theorem provider_checks_fail_exactly_witness :
    (({ discordEnabled := true, matrixEnabled := true, telegramEnabled := true
        discordRequired := true } : Config).discordEnabled = true) ∧
    (discordCheck { discordEnabled := true, matrixEnabled := true, telegramEnabled := true
                    discordRequired := true } {} {} { Username := "alice" }).2
      = .error (respond 401 "errorDiscordVerification") :=
  ⟨rfl,
    ((provider_checks_fail_exactly
      { discordEnabled := true, matrixEnabled := true, telegramEnabled := true
        discordRequired := true } {} {} { Username := "alice" }).1 rfl).1 rfl rfl⟩

/-- C7: in a run of `newUser` that performs the checks (the username is free),
the providers are checked in the order Discord, Matrix, Telegram and the run
stops at the first failure: the `errorFunc` returned is the error of the first
provider in that order whose check fails, whatever the PINs and registry
contents of the later providers. -/
theorem newUser_first_failing_provider (cfg : Config) (env : Env) (s : AppState)
    (req : NewUserDTO) (confirmed : Bool) (hname : env.existingUserName = "") :
    (∀ e, (discordCheck cfg env s req).2 = .error e →
      (newUser cfg env s req confirmed).f = some { resp := e } ∧
      (newUser cfg env s req confirmed).success = false) ∧
    (∀ v e, (discordCheck cfg env s req).2 = .ok v → matrixCheck cfg s req = .error e →
      (newUser cfg env s req confirmed).f = some { resp := e } ∧
      (newUser cfg env s req confirmed).success = false) ∧
    (∀ v w e, (discordCheck cfg env s req).2 = .ok v → matrixCheck cfg s req = .ok w →
      telegramCheck cfg s req = .error e →
      (newUser cfg env s req confirmed).f = some { resp := e } ∧
      (newUser cfg env s req confirmed).success = false) := by
  refine ⟨?_, ?_, ?_⟩
  · intro e he
    rcases hd : discordCheck cfg env s req with ⟨td, r⟩
    rw [hd] at he
    simp only at he
    subst he
    rw [newUser_discord_fails cfg env s req confirmed hname td e hd]
    exact ⟨rfl, rfl⟩
  · intro v e hv hm
    rcases hd : discordCheck cfg env s req with ⟨td, r⟩
    rw [hd] at hv
    simp only at hv
    subst hv
    rw [newUser_matrix_fails cfg env s req confirmed hname td v.1 v.2 e hd hm]
    exact ⟨rfl, rfl⟩
  · intro v w e hv hm ht
    rcases hd : discordCheck cfg env s req with ⟨td, r⟩
    rw [hd] at hv
    simp only at hv
    subst hv
    rw [newUser_telegram_fails cfg env s req confirmed hname td v.1 v.2 w.1 w.2 e hd hm ht]
    exact ⟨rfl, rfl⟩

/-- C7, at a request failing both the Discord and the Telegram check: the
Discord error is returned. -/
theorem newUser_first_failing_provider_witness :
    (({} : Env).existingUserName = "") ∧
    (newUser { discordEnabled := true, telegramEnabled := true, discordRequired := true } {} {}
        { Username := "alice", TelegramPIN := "9999" } false).f
      = some { resp := respond 401 "errorDiscordVerification" } :=
  ⟨rfl,
    ((newUser_first_failing_provider
      { discordEnabled := true, telegramEnabled := true, discordRequired := true } {} {}
      { Username := "alice", TelegramPIN := "9999" } false rfl).1
      (respond 401 "errorDiscordVerification") (by decide)).1⟩

/-- C8: whenever `newUser` fails in ValidateVerifications (a provider's check
fails: a required PIN is missing, or a supplied PIN is invalid), the invite
still exists with `RemainingUses`, `UsedBy` and `Keys` unchanged, the three
verification registries and the linked-identity maps are unchanged (indeed the
whole state is), and no account was created. -/
theorem newUser_verification_failure_changes_nothing (cfg : Config) (env : Env)
    (s : AppState) (req : NewUserDTO) (confirmed : Bool)
    (hfail : checksPass cfg env s req = false) :
    (newUser cfg env s req confirmed).success = false ∧
    createsAccount (newUser cfg env s req confirmed).trace = false ∧
    (∀ inv, s.invites.get req.Code = some inv →
      (newUser cfg env s req confirmed).state.invites.get req.Code = some inv) ∧
    (newUser cfg env s req confirmed).state.invites = s.invites ∧
    (newUser cfg env s req confirmed).state.discordTokens = s.discordTokens ∧
    (newUser cfg env s req confirmed).state.matrixTokens = s.matrixTokens ∧
    (newUser cfg env s req confirmed).state.telegramTokens = s.telegramTokens ∧
    (newUser cfg env s req confirmed).state.discord = s.discord ∧
    (newUser cfg env s req confirmed).state.matrix = s.matrix ∧
    (newUser cfg env s req confirmed).state.telegram = s.telegram ∧
    (newUser cfg env s req confirmed).state = s := by
  rcases newUser_split cfg env s req confirmed with
    ⟨_, hs, hst, hc, _⟩ | ⟨_, hp, _⟩ | ⟨_, hp, _⟩
  · rw [hst]
    exact ⟨hs, hc, fun _ h => h, rfl, rfl, rfl, rfl, rfl, rfl, rfl, rfl⟩
  · rw [hp] at hfail; exact absurd hfail (by decide)
  · rw [hp] at hfail; exact absurd hfail (by decide)

/-- C8, at Scenario B: invite `Q9`, Discord required, no PIN supplied. -/
theorem newUser_verification_failure_changes_nothing_witness :
    (checksPass { discordEnabled := true, discordRequired := true } {}
        { invites := [("Q9", { RemainingUses := 2, ValidTill := 100 })] }
        { Username := "alice", Password := "p1", Code := "Q9" } = false) ∧
    (newUser { discordEnabled := true, discordRequired := true } {}
        { invites := [("Q9", { RemainingUses := 2, ValidTill := 100 })] }
        { Username := "alice", Password := "p1", Code := "Q9" } false).success = false ∧
    createsAccount (newUser { discordEnabled := true, discordRequired := true } {}
        { invites := [("Q9", { RemainingUses := 2, ValidTill := 100 })] }
        { Username := "alice", Password := "p1", Code := "Q9" } false).trace = false ∧
    (newUser { discordEnabled := true, discordRequired := true } {}
        { invites := [("Q9", { RemainingUses := 2, ValidTill := 100 })] }
        { Username := "alice", Password := "p1", Code := "Q9" } false).state.invites.get "Q9"
      = some { RemainingUses := 2, ValidTill := 100 } :=
  have h := newUser_verification_failure_changes_nothing
    { discordEnabled := true, discordRequired := true } {}
    { invites := [("Q9", { RemainingUses := 2, ValidTill := 100 })] }
    { Username := "alice", Password := "p1", Code := "Q9" } false (by decide)
  ⟨by decide, h.1, h.2.1, h.2.2.1 { RemainingUses := 2, ValidTill := 100 } (by decide)⟩

/-- C9: when email and email confirmation are enabled, `confirmed = false`, the
username is free and every verification check passes, `newUser` stops at the
confirmation gate: with `key` the token issued by the signer, it returns the
`confirmEmail` outcome with `success = false`, appends exactly `key` to the end
of the invite's `Keys`, leaves the invite's `RemainingUses` and `UsedBy` (and
every other field, and every other invite) unchanged, and does not call the
account service to create a user. -/
theorem newUser_stops_at_confirmation_gate (cfg : Config) (env : Env) (s : AppState)
    (req : NewUserDTO) (inv : Invite) (key : String)
    (hemail : cfg.emailEnabled = true) (hconf : cfg.emailConfirmation = true)
    (hname : env.existingUserName = "")
    (hpass : checksPass cfg env s req = true)
    (hkey : env.signedString = some key)
    (hget : s.invites.get req.Code = some inv) :
    (newUser cfg env s req false).success = false ∧
    (∃ f, (newUser cfg env s req false).f = some f ∧ f.resp = respond 401 "confirmEmail") ∧
    (newUser cfg env s req false).state.invites.get req.Code =
      some { inv with Keys := inv.Keys ++ [key] } ∧
    (∀ inv₁, (newUser cfg env s req false).state.invites.get req.Code = some inv₁ →
      inv₁.Keys = inv.Keys ++ [key] ∧ inv₁.RemainingUses = inv.RemainingUses ∧
      inv₁.UsedBy = inv.UsedBy) ∧
    (∀ c, c ≠ req.Code →
      (newUser cfg env s req false).state.invites.get c = s.invites.get c) ∧
    createsAccount (newUser cfg env s req false).trace = false := by
  have hg : gateOpen cfg false = true := by simp [gateOpen, hemail, hconf]
  rcases newUser_split cfg env s req false with
    ⟨hor, _⟩ | ⟨_, _, _, pre, hpre, _, heq⟩ | ⟨_, _, hg₂, _⟩
  · rcases hor with h | h
    · exact absurd hname h
    · rw [hpass] at h; exact absurd h (by decide)
  · have hc := (confirmationGate_no_creation env s req pre).1
    rw [← heq, hpre] at hc
    rw [heq, confirmationGate_signed env s req pre key hkey]
    simp only [hget, Option.getD_some]
    have hlook : (s.invites.put req.Code { inv with Keys := inv.Keys ++ [key] }).get req.Code
        = some { inv with Keys := inv.Keys ++ [key] } := GoMap.get_put_self _ _ _
    refine ⟨trivial, ⟨_, rfl, rfl⟩, hlook, ?_, ?_, ?_⟩
    · intro inv₁ h₁
      rw [hlook] at h₁
      cases h₁
      exact ⟨rfl, rfl, rfl⟩
    · intro c hc₁
      exact GoMap.get_put_ne _ _ hc₁
    · rw [heq, confirmationGate_signed env s req pre key hkey] at hc
      exact hc
  · rw [hg] at hg₂; exact absurd hg₂ (by decide)

/-- C9, at Scenario C: invite `M3` with email confirmation enabled. -/
theorem newUser_stops_at_confirmation_gate_witness :
    (checksPass { emailEnabled := true, emailConfirmation := true } { signedString := some "tok" }
        { invites := [("M3", { RemainingUses := 1, ValidTill := 100 })] }
        { Username := "alice", Password := "p1", Email := "a@b", Code := "M3" } = true) ∧
    (newUser { emailEnabled := true, emailConfirmation := true } { signedString := some "tok" }
        { invites := [("M3", { RemainingUses := 1, ValidTill := 100 })] }
        { Username := "alice", Password := "p1", Email := "a@b", Code := "M3" }
        false).state.invites.get "M3"
      = some { RemainingUses := 1, ValidTill := 100, Keys := ["tok"] } ∧
    createsAccount
      (newUser { emailEnabled := true, emailConfirmation := true } { signedString := some "tok" }
        { invites := [("M3", { RemainingUses := 1, ValidTill := 100 })] }
        { Username := "alice", Password := "p1", Email := "a@b", Code := "M3" }
        false).trace = false :=
  have h := newUser_stops_at_confirmation_gate
    { emailEnabled := true, emailConfirmation := true } { signedString := some "tok" }
    { invites := [("M3", { RemainingUses := 1, ValidTill := 100 })] }
    { Username := "alice", Password := "p1", Email := "a@b", Code := "M3" }
    { RemainingUses := 1, ValidTill := 100 } "tok" rfl rfl rfl (by decide) rfl (by decide)
  ⟨by decide, h.2.2.1, h.2.2.2.2.2⟩

/-- C10 as stated fails: a resumed `newUser` (`confirmed = true`) runs
ValidateVerifications again, so whether it reaches account creation depends on
the `required` settings: with Discord required and no Discord PIN in the payload
it stops with `errorDiscordVerification` and creates no account, while the same
call with Discord not required creates the account. -/
theorem newUser_confirmed_rechecks_counterexample :
    (newUser { discordEnabled := true, discordRequired := true } {}
        { invites := [("M3", { RemainingUses := 1, ValidTill := 100 })] }
        { Username := "alice", Password := "p1", Email := "a@b", Code := "M3" } true).f
      = some { resp := respond 401 "errorDiscordVerification" } ∧
    createsAccount
      (newUser { discordEnabled := true, discordRequired := true } {}
        { invites := [("M3", { RemainingUses := 1, ValidTill := 100 })] }
        { Username := "alice", Password := "p1", Email := "a@b", Code := "M3" } true).trace
      = false ∧
    createsAccount
      (newUser { discordEnabled := true, discordRequired := false } {}
        { invites := [("M3", { RemainingUses := 1, ValidTill := 100 })] }
        { Username := "alice", Password := "p1", Email := "a@b", Code := "M3" } true).trace
      = true := by
  decide

/-- C10, amended: `newUser` invoked with `confirmed = true` issues no
confirmation token and adds no key to any invite (every invite left in the map
was there before with the same `Keys`); it repeats the username check and
ValidateVerifications on the payload it is given, and reaches account creation
exactly when the username is free and every enabled provider's check passes. -/
theorem newUser_confirmed_resumes (cfg : Config) (env : Env) (s : AppState)
    (req : NewUserDTO) :
    issuesToken (newUser cfg env s req true).trace = false ∧
    (∀ c inv₁, (newUser cfg env s req true).state.invites.get c = some inv₁ →
      ∃ inv, s.invites.get c = some inv ∧ inv₁.Keys = inv.Keys) ∧
    (createsAccount (newUser cfg env s req true).trace = true ↔
      env.existingUserName = "" ∧ checksPass cfg env s req = true) := by
  rcases newUser_split cfg env s req true with
    ⟨hor, _, hst, hc, htok⟩ | ⟨_, _, hg, _⟩ |
    ⟨hname, hpass, _, pre, du, dv, mu, mv, ti, hpc, hpt, heq⟩
  · refine ⟨htok, ?_, ?_⟩
    · intro c inv₁ h
      rw [hst] at h
      exact ⟨inv₁, h, rfl⟩
    · rw [hc]
      constructor
      · intro h; exact absurd h (by decide)
      · rintro ⟨h1, h2⟩
        rcases hor with h | h
        · exact absurd h1 h
        · rw [h2] at h; exact absurd h (by decide)
  · rw [gateOpen_confirmed] at hg; exact absurd hg (by decide)
  · rw [heq]
    refine ⟨?_, ?_, ?_⟩
    · rw [createAccount_tokens]; exact hpt
    · intro c inv₁ h
      cases hok : env.jfNewUser.ok
      · rw [createAccount_fails cfg env s req du dv mu mv ti pre hok] at h
        exact ⟨inv₁, h, rfl⟩
      · rw [createAccount_succeeds cfg env s req du dv mu mv ti pre hok,
          provision_invites] at h
        exact checkInvite_keys cfg s env.nowConsume req.Code true req.Username c inv₁ h
    · rw [createAccount_calls_creation]
      exact ⟨fun _ => ⟨hname, hpass⟩, fun _ => rfl⟩

/-- C16: `checkInvite` never decrements `RemainingUses` below 0: for every
stored invite with `RemainingUses ≥ 0` and every call
`checkInvite(code, true, u)`, an invite that is still in the map afterwards has
`RemainingUses ≥ 0`; for the invite of `code` it is the old value minus one when
the old value was at least 2 and the old value when it was 0, and every other
invite is as it was. -/
theorem checkInvite_uses_never_negative (cfg : Config) (s : AppState) (now : Time)
    (code u c : String) (inv inv₁ : Invite)
    (hget : s.invites.get c = some inv)
    (hpos : 0 ≤ inv.RemainingUses)
    (hafter : (checkInvite cfg s now code true u).state.invites.get c = some inv₁) :
    0 ≤ inv₁.RemainingUses ∧
    (c = code → 2 ≤ inv.RemainingUses → inv₁.RemainingUses = inv.RemainingUses - 1) ∧
    (c = code → inv.RemainingUses = 0 → inv₁.RemainingUses = 0) ∧
    (c ≠ code → inv₁ = inv) := by
  by_cases hc : c = code
  · subst hc
    rw [checkInvite_get_self cfg s now c u inv hget] at hafter
    by_cases h : inv.ValidTill < now ∨ inv.RemainingUses = 1
    · rw [if_pos h] at hafter
      exact absurd hafter (by simp)
    · have h1 : inv.RemainingUses ≠ 1 := fun e => h (Or.inr e)
      rw [if_neg h] at hafter
      cases hafter
      refine ⟨?_, fun _ h2 => ?_, fun _ h0 => ?_, fun hne => absurd rfl hne⟩
      · show 0 ≤ (if inv.RemainingUses = 0 then 0 else inv.RemainingUses - 1)
        split_ifs <;> omega
      · show (if inv.RemainingUses = 0 then 0 else inv.RemainingUses - 1) = _
        rw [if_neg (by omega)]
      · show (if inv.RemainingUses = 0 then 0 else inv.RemainingUses - 1) = _
        rw [if_pos h0]
  · rw [checkInvite_get_other cfg s now code true u c hc, hget] at hafter
    cases hafter
    exact ⟨hpos, fun h => absurd h hc, fun h => absurd h hc, fun _ => rfl⟩

/-- C16, at an invite with three uses left. -/
theorem checkInvite_uses_never_negative_witness :
    (GoMap.get [("M3", ({ RemainingUses := 3, ValidTill := 100 } : Invite))] "M3"
        = some { RemainingUses := 3, ValidTill := 100 } ∧
      (0 : Int) ≤ ({ RemainingUses := 3, ValidTill := 100 } : Invite).RemainingUses ∧
      (checkInvite {} { invites := [("M3", { RemainingUses := 3, ValidTill := 100 })] }
          10 "M3" true "alice").state.invites.get "M3"
        = some { RemainingUses := 2, ValidTill := 100, UsedBy := [["alice", formatInt 0]] }) ∧
    (0 : Int) ≤ ({ RemainingUses := 2, ValidTill := 100
                   UsedBy := [["alice", formatInt 0]] } : Invite).RemainingUses :=
  ⟨⟨by decide, by decide, by decide⟩,
    (checkInvite_uses_never_negative {}
      { invites := [("M3", { RemainingUses := 3, ValidTill := 100 })] } 10 "M3" "alice" "M3"
      { RemainingUses := 3, ValidTill := 100 }
      { RemainingUses := 2, ValidTill := 100, UsedBy := [["alice", formatInt 0]] }
      (by decide) (by decide) (by decide)).1⟩

/-- C17: `RemainingUses = 0` is the unlimited sentinel: for every unexpired
invite with `RemainingUses = 0`, `checkInvite(code, true, u)` returns true, keeps
the invite in the map and leaves `RemainingUses` at 0; so any number of
consumptions, at instants before expiry, all succeed and leave the invite in
the map with `RemainingUses = 0`. -/
theorem unlimited_invite_never_exhausted (cfg : Config) (code u : String) :
    ∀ (times : List Time) (s : AppState) (inv : Invite),
      s.invites.get code = some inv →
      inv.RemainingUses = 0 →
      (∀ t ∈ times, ¬ inv.ValidTill < t) →
      (∀ t, ¬ inv.ValidTill < t →
        (checkInvite cfg s t code true u).ok = true ∧
        ∃ inv₁, (checkInvite cfg s t code true u).state.invites.get code = some inv₁ ∧
          inv₁.RemainingUses = 0) ∧
      (consumeAt cfg code u s times).2 = List.replicate times.length true ∧
      ∃ inv₁, (consumeAt cfg code u s times).1.invites.get code = some inv₁ ∧
        inv₁.RemainingUses = 0 ∧ inv₁.ValidTill = inv.ValidTill := by
  intro times
  induction times with
  | nil =>
    intro s inv hget h0 _
    refine ⟨?_, rfl, inv, hget, h0, rfl⟩
    intro t ht
    rw [checkInvite_unlimited_use cfg s t code u inv hget (not_lt.mp ht) h0]
    exact ⟨rfl, _, GoMap.get_put_self _ _ _, h0⟩
  | cons t ts ih =>
    intro s inv hget h0 htimes
    have hone : ∀ t, ¬ inv.ValidTill < t →
        (checkInvite cfg s t code true u).ok = true ∧
        ∃ inv₁, (checkInvite cfg s t code true u).state.invites.get code = some inv₁ ∧
          inv₁.RemainingUses = 0 := by
      intro t ht
      rw [checkInvite_unlimited_use cfg s t code u inv hget (not_lt.mp ht) h0]
      exact ⟨rfl, _, GoMap.get_put_self _ _ _, h0⟩
    have ht : t ≤ inv.ValidTill := not_lt.mp (htimes t (List.mem_cons_self _ _))
    have hstep := checkInvite_unlimited_use cfg s t code u inv hget ht h0
    have hrec := ih
      { s with
        invites := s.invites.put code
          { inv with UsedBy := inv.UsedBy ++ [[u, formatInt (Time.unix t)]] } }
      { inv with UsedBy := inv.UsedBy ++ [[u, formatInt (Time.unix t)]] }
      (GoMap.get_put_self _ _ _) h0
      (fun t₁ h₁ => htimes t₁ (List.mem_cons_of_mem _ h₁))
    refine ⟨hone, ?_, ?_⟩
    · rw [consumeAt]
      simp only [hstep]
      rw [hrec.2.1]
      simp [List.replicate_succ]
    · rw [consumeAt]
      simp only [hstep]
      exact hrec.2.2

/-- C17, at three consumptions of an unlimited invite. -/
theorem unlimited_invite_never_exhausted_witness :
    (GoMap.get [("U0", ({ NoLimit := true, ValidTill := 100 } : Invite))] "U0"
        = some { NoLimit := true, ValidTill := 100 } ∧
      ({ NoLimit := true, ValidTill := 100 } : Invite).RemainingUses = 0 ∧
      (∀ t ∈ [(10 : Time), 20, 30], ¬ (100 : Time) < t)) ∧
    (consumeAt {} "U0" "alice" { invites := [("U0", { NoLimit := true, ValidTill := 100 })] }
        [10, 20, 30]).2 = [true, true, true] :=
  ⟨⟨by decide, rfl, by decide⟩,
    (unlimited_invite_never_exhausted {} "U0" "alice" [10, 20, 30]
      { invites := [("U0", { NoLimit := true, ValidTill := 100 })] }
      { NoLimit := true, ValidTill := 100 } (by decide) rfl (by decide)).2.1⟩

/-- C19: `UsedBy` is append-only: a consumption `checkInvite(code, true, u)` at
time `t` that leaves the invite in the map sets its `UsedBy` to the previous
`UsedBy` followed by exactly one pair `(u, decimal Unix seconds of t)`, so the
earlier pairs keep their order and content, and every field of the invite other
than `RemainingUses` and `UsedBy` is unchanged. -/
theorem checkInvite_appends_usedBy (cfg : Config) (s : AppState) (t : Time)
    (code u : String) (inv inv₁ : Invite)
    (hget : s.invites.get code = some inv)
    (hafter : (checkInvite cfg s t code true u).state.invites.get code = some inv₁) :
    inv₁.UsedBy = inv.UsedBy ++ [[u, formatInt (Time.unix t)]] ∧
    inv₁.UsedBy.take inv.UsedBy.length = inv.UsedBy ∧
    inv₁.Label = inv.Label ∧ inv₁.Created = inv.Created ∧ inv₁.ValidTill = inv.ValidTill ∧
    inv₁.NoLimit = inv.NoLimit ∧ inv₁.Profile = inv.Profile ∧
    inv₁.UserExpiry = inv.UserExpiry ∧ inv₁.UserMonths = inv.UserMonths ∧
    inv₁.UserDays = inv.UserDays ∧ inv₁.UserHours = inv.UserHours ∧
    inv₁.UserMinutes = inv.UserMinutes ∧ inv₁.Notify = inv.Notify ∧
    inv₁.SendTo = inv.SendTo ∧ inv₁.Keys = inv.Keys := by
  rw [checkInvite_get_self cfg s t code u inv hget] at hafter
  by_cases h : inv.ValidTill < t ∨ inv.RemainingUses = 1
  · rw [if_pos h] at hafter
    exact absurd hafter (by simp)
  · rw [if_neg h] at hafter
    cases hafter
    refine ⟨rfl, ?_, rfl, rfl, rfl, rfl, rfl, rfl, rfl, rfl, rfl, rfl, rfl, rfl, rfl⟩
    simp

/-- C19, at the first consumption of an invite with three uses, at 10 s. -/
theorem checkInvite_appends_usedBy_witness :
    (GoMap.get [("M3", ({ RemainingUses := 3, ValidTill := 20000000000
                          UsedBy := [["bob", "5"]] } : Invite))] "M3"
        = some { RemainingUses := 3, ValidTill := 20000000000, UsedBy := [["bob", "5"]] } ∧
      (checkInvite {}
          { invites := [("M3", { RemainingUses := 3, ValidTill := 20000000000
                                 UsedBy := [["bob", "5"]] })] }
          10000000000 "M3" true "alice").state.invites.get "M3"
        = some { RemainingUses := 2, ValidTill := 20000000000
                 UsedBy := [["bob", "5"], ["alice", formatInt 10]] }) ∧
    ({ RemainingUses := 2, ValidTill := 20000000000
       UsedBy := [["bob", "5"], ["alice", formatInt 10]] } : Invite).UsedBy
      = [["bob", "5"]] ++ [["alice", formatInt (Time.unix 10000000000)]] :=
  ⟨⟨by decide, by decide⟩,
    (checkInvite_appends_usedBy {}
      { invites := [("M3", { RemainingUses := 3, ValidTill := 20000000000
                             UsedBy := [["bob", "5"]] })] }
      10000000000 "M3" "alice"
      { RemainingUses := 3, ValidTill := 20000000000, UsedBy := [["bob", "5"]] }
      { RemainingUses := 2, ValidTill := 20000000000
        UsedBy := [["bob", "5"], ["alice", formatInt 10]] }
      (by decide) (by decide)).1⟩

/-- C20: a validation-only lookup does not mutate: `checkInvite(code, false, u)`
returns true and leaves the state, hence the invite map, unchanged and makes no
store call when the code's invite is unexpired; and it returns false, again
with the state unchanged and no store call, when the code is not in the map. -/
theorem checkInvite_validation_only (cfg : Config) (s : AppState) (now : Time)
    (code u : String) :
    (∀ inv, s.invites.get code = some inv → ¬ inv.ValidTill < now →
      checkInvite cfg s now code false u = { state := s, ok := true, trace := [] }) ∧
    (s.invites.get code = none →
      checkInvite cfg s now code false u = { state := s, ok := false, trace := [] }) := by
  constructor
  · intro inv hget hexp
    exact checkInvite_validate cfg s now code u inv hget (not_lt.mp hexp)
  · intro hget
    exact checkInvite_missing cfg s now code false u hget

/-- C13: after `checkInvites` runs at time `t` on a map with distinct codes, the
invite map is exactly the prior map restricted to the invites whose `ValidTill`
has not passed at `t`: every such invite is still present with every field
unchanged, every invite whose `ValidTill` has passed is gone, no code is added,
the rest of the state is untouched, and the map is persisted once if at least
one invite was deleted and not at all otherwise. -/
theorem checkInvites_keeps_exactly_unexpired (cfg : Config) (s : AppState) (t : Time)
    (hn : (s.invites.map Prod.fst).Nodup) :
    (checkInvites cfg s t).state.invites =
      s.invites.filter (fun e => !t.after e.2.ValidTill) ∧
    (∀ code inv, s.invites.get code = some inv → ¬ inv.ValidTill < t →
      (checkInvites cfg s t).state.invites.get code = some inv) ∧
    (∀ code inv, s.invites.get code = some inv → inv.ValidTill < t →
      (checkInvites cfg s t).state.invites.get code = none) ∧
    (∀ code, s.invites.get code = none →
      (checkInvites cfg s t).state.invites.get code = none) ∧
    (checkInvites cfg s t).state =
      { s with invites := (checkInvites cfg s t).state.invites } ∧
    storeCount (checkInvites cfg s t).trace =
      (if s.invites.any (fun e => t.after e.2.ValidTill) then 1 else 0) := by
  refine ⟨checkInvites_map cfg s t hn, ?_, ?_, ?_, rfl, checkInvites_stores cfg s t⟩
  · intro code inv hget hexp
    rw [checkInvites_get cfg s t code hn, hget]
    simp [Time.after, hexp]
  · intro code inv hget hexp
    rw [checkInvites_get cfg s t code hn, hget]
    simp [Time.after, hexp]
  · intro code hget
    rw [checkInvites_get cfg s t code hn, hget]

/-- C13, at a map with one expired and one unexpired invite, swept at 150. -/
theorem checkInvites_keeps_exactly_unexpired_witness :
    (([("old", ({ RemainingUses := 1, ValidTill := 100 } : Invite)),
       ("new", { RemainingUses := 1, ValidTill := 200 })] : GoMap String Invite).map
        Prod.fst).Nodup ∧
    (checkInvites {}
        { invites := [("old", { RemainingUses := 1, ValidTill := 100 }),
                      ("new", { RemainingUses := 1, ValidTill := 200 })] } 150).state.invites
      = [("new", { RemainingUses := 1, ValidTill := 200 })] ∧
    storeCount (checkInvites {}
        { invites := [("old", { RemainingUses := 1, ValidTill := 100 }),
                      ("new", { RemainingUses := 1, ValidTill := 200 })] } 150).trace = 1 :=
  have h := checkInvites_keeps_exactly_unexpired {}
    { invites := [("old", { RemainingUses := 1, ValidTill := 100 }),
                  ("new", { RemainingUses := 1, ValidTill := 200 })] } 150 (by decide)
  ⟨by decide, h.1.trans (by decide), h.2.2.2.2.2.trans (by decide)⟩

/-- C14 as stated fails: an invite whose `ValidTill` equals the current time
exactly is not expired: `checkInvites` keeps it and `checkInvite` returns true
for it. -/
theorem expiry_at_equal_time_counterexample :
    (({ RemainingUses := 2, ValidTill := 100 } : Invite).ValidTill = (100 : Time)) ∧
    (checkInvites {} { invites := [("Q9", { RemainingUses := 2, ValidTill := 100 })] }
        100).state.invites.get "Q9" = some { RemainingUses := 2, ValidTill := 100 } ∧
    (checkInvite {} { invites := [("Q9", { RemainingUses := 2, ValidTill := 100 })] }
        100 "Q9" false "").ok = true ∧
    (checkInvite {} { invites := [("Q9", { RemainingUses := 2, ValidTill := 100 })] }
        100 "Q9" true "alice").ok = true := by
  decide

/-- C14, amended: an invite counts as expired when its `ValidTill` is strictly
before the current time (`currentTime.After(expiry)`): for an invite whose
`ValidTill` equals the current time exactly, `checkInvites` keeps it unchanged
and `checkInvite` returns true for it; at every later instant `checkInvites`
removes it and `checkInvite` returns false for it. -/
theorem expiry_is_strict (cfg : Config) (s : AppState) (code : String) (inv : Invite)
    (now : Time)
    (hn : (s.invites.map Prod.fst).Nodup)
    (hget : s.invites.get code = some inv)
    (heq : inv.ValidTill = now) :
    (checkInvites cfg s now).state.invites.get code = some inv ∧
    (∀ used u, (checkInvite cfg s now code used u).ok = true) ∧
    (∀ later, now < later →
      (checkInvites cfg s later).state.invites.get code = none ∧
      ∀ used u, (checkInvite cfg s later code used u).ok = false) := by
  refine ⟨?_, ?_, ?_⟩
  · rw [checkInvites_get cfg s now code hn, hget]
    simp [Time.after, heq]
  · intro used u
    rw [checkInvite_ok cfg s now code used u inv hget]
    simp [Time.after, heq]
  · intro later hl
    have hlt : inv.ValidTill < later := heq ▸ hl
    constructor
    · rw [checkInvites_get cfg s later code hn, hget]
      simp [Time.after, hlt]
    · intro used u
      rw [checkInvite_ok cfg s later code used u inv hget]
      simp [Time.after, hlt]

/-- C14 amended, at an invite valid until 100 looked up at 100. -/
theorem expiry_is_strict_witness :
    ((([("Q9", ({ RemainingUses := 2, ValidTill := 100 } : Invite))] :
        GoMap String Invite).map Prod.fst).Nodup ∧
      GoMap.get [("Q9", ({ RemainingUses := 2, ValidTill := 100 } : Invite))] "Q9"
        = some { RemainingUses := 2, ValidTill := 100 } ∧
      ({ RemainingUses := 2, ValidTill := 100 } : Invite).ValidTill = (100 : Time)) ∧
    (checkInvites {} { invites := [("Q9", { RemainingUses := 2, ValidTill := 100 })] }
        100).state.invites.get "Q9" = some { RemainingUses := 2, ValidTill := 100 } :=
  ⟨⟨by decide, by decide, rfl⟩,
    (expiry_is_strict {} { invites := [("Q9", { RemainingUses := 2, ValidTill := 100 })] }
      "Q9" { RemainingUses := 2, ValidTill := 100 } 100 (by decide) (by decide) rfl).1⟩

/-- C15 as stated fails: `GenerateInvite` has no duplicate check: when the code
generator returns a code that is already in the invite map, the handler
answers 200 with success and the existing invite is overwritten by the new
one. -/
theorem GenerateInvite_overwrites_counterexample :
    GoMap.get [("abc", ({ RemainingUses := 5, Label := "old", ValidTill := 100 } : Invite))]
        "abc" = some { RemainingUses := 5, Label := "old", ValidTill := 100 } ∧
    (GenerateInvite {} { codes := ["abc"] }
        { invites := [("abc", { RemainingUses := 5, Label := "old", ValidTill := 100 })] }
        { Label := "fresh" }).map (fun r => (r.code, r.reply, r.state.invites))
      = some ("abc", (200, { Success := true }),
          [("abc", { RemainingUses := 1, Label := "fresh" })]) := by
  decide

/-- C15, amended: `GenerateInvite` performs no duplicate check and has no
`DuplicateCode` outcome: whenever the generator yields a code not beginning
with a digit, the handler stores the invite it built under that code, whether
or not the code was in the map (an existing entry is overwritten), leaves every
other entry of the invite map unchanged, persists the map and answers 200 with
success. -/
theorem GenerateInvite_stores_under_generated_code (cfg : Config) (env : GenerateEnv)
    (s : AppState) (req : GenerateInviteDTO) (code : String)
    (hcode : pickCode env.codes = some code) :
    ∃ r, GenerateInvite cfg env s req = some r ∧
      r.code = code ∧
      r.reply = (200, { Success := true }) ∧
      r.invite = (buildInvite cfg env s req code).1 ∧
      r.state.invites.get code = some r.invite ∧
      (∀ c, c ≠ code → r.state.invites.get c = s.invites.get c) ∧
      Event.storeInvites ∈ r.trace := by
  refine ⟨_, GenerateInvite_of_code cfg env s req code hcode, rfl, rfl, rfl,
    GoMap.get_put_self _ _ _, fun c hc => GoMap.get_put_ne _ _ hc, ?_⟩
  simp

/-- C15 amended, at a generator whose first code begins with a digit. -/
theorem GenerateInvite_stores_under_generated_code_witness :
    pickCode ["7xy", "abc"] = some "abc" ∧
    ∃ r, GenerateInvite {} { codes := ["7xy", "abc"] } {} {} = some r ∧ r.code = "abc" :=
  ⟨by decide,
    (GenerateInvite_stores_under_generated_code {} { codes := ["7xy", "abc"] } {} {} "abc"
      (by decide)).imp (fun _ h => ⟨h.1, h.2.1⟩)⟩

/-- C18 as stated fails: a multiple-use request without `NoLimit` stores the
requested count unchecked, so a request with count 0 (or a negative count)
stores an invite with `RemainingUses = 0` (or negative) and `NoLimit` unset. -/
theorem GenerateInvite_zero_uses_counterexample :
    (GenerateInvite {} { codes := ["abc"] } {}
        { MultipleUses := true, NoLimit := false, RemainingUses := 0 }).map
        (fun r => (r.invite.RemainingUses, r.invite.NoLimit, r.state.invites.get "abc"))
      = some (0, false, some {}) ∧
    (GenerateInvite {} { codes := ["abc"] } {}
        { MultipleUses := true, NoLimit := false, RemainingUses := -3 }).map
        (fun r => (r.invite.RemainingUses, r.invite.NoLimit))
      = some (-3, false) := by
  decide

/-- C18, amended: the invite stored by `GenerateInvite` has `RemainingUses = 1`
and `NoLimit` unset for a single-use request, `RemainingUses = 0` and `NoLimit`
set for a multiple-use request with `NoLimit`, and the requested count,
unchecked, with `NoLimit` unset for a multiple-use request without `NoLimit`;
so it satisfies the data model (`RemainingUses` is 0 only when `NoLimit` is set
and is otherwise positive) exactly when such a request asks for a positive
count. -/
theorem GenerateInvite_uses (cfg : Config) (env : GenerateEnv) (s : AppState)
    (req : GenerateInviteDTO) (code : String)
    (hcode : pickCode env.codes = some code) :
    ∃ r, GenerateInvite cfg env s req = some r ∧
      r.state.invites.get r.code = some r.invite ∧
      (req.MultipleUses = false → r.invite.RemainingUses = 1 ∧ r.invite.NoLimit = false) ∧
      (req.MultipleUses = true → req.NoLimit = true →
        r.invite.RemainingUses = 0 ∧ r.invite.NoLimit = true) ∧
      (req.MultipleUses = true → req.NoLimit = false →
        r.invite.RemainingUses = req.RemainingUses ∧ r.invite.NoLimit = false) ∧
      (((r.invite.RemainingUses = 0 → r.invite.NoLimit = true) ∧
          (r.invite.NoLimit = false → 0 < r.invite.RemainingUses)) ↔
        (req.MultipleUses = true → req.NoLimit = false → 0 < req.RemainingUses)) := by
  have hb := buildInvite_uses cfg env s req code
  refine ⟨_, GenerateInvite_of_code cfg env s req code hcode, GoMap.get_put_self _ _ _, ?_⟩
  simp only [hb.1, hb.2]
  cases req.MultipleUses <;> cases req.NoLimit <;> simp
  intro h
  omega

/-- C18 amended, at a multiple-use request for five uses. -/
theorem GenerateInvite_uses_witness :
    pickCode ["abc"] = some "abc" ∧
    ∃ r, GenerateInvite {} { codes := ["abc"] } {}
        { MultipleUses := true, RemainingUses := 5 } = some r ∧
      r.state.invites.get r.code = some r.invite :=
  ⟨by decide,
    (GenerateInvite_uses {} { codes := ["abc"] } {} { MultipleUses := true, RemainingUses := 5 }
      "abc" (by decide)).imp (fun _ h => ⟨h.1, h.2.1⟩)⟩

/-- C11 as stated fails: on a successful `newUser` that verified a Discord PIN,
the PIN's entry stays in `verifiedTokens` when the store write of the linked
identities returns an error. -/
theorem newUser_keeps_pin_on_store_error_counterexample :
    (newUser { discordEnabled := true } { storeDiscordUsersErr := true }
        { invites := [("M3", { RemainingUses := 3, ValidTill := 100 })]
          discordTokens := [("1234", { ID := "d1", Username := "al" })] }
        { Username := "alice", Password := "p1", Code := "M3", DiscordPIN := "1234" }
        false).success = true ∧
    (newUser { discordEnabled := true } { storeDiscordUsersErr := true }
        { invites := [("M3", { RemainingUses := 3, ValidTill := 100 })]
          discordTokens := [("1234", { ID := "d1", Username := "al" })] }
        { Username := "alice", Password := "p1", Code := "M3", DiscordPIN := "1234" }
        false).state.discord.get "id" = some { ID := "d1", Username := "al" } ∧
    (newUser { discordEnabled := true } { storeDiscordUsersErr := true }
        { invites := [("M3", { RemainingUses := 3, ValidTill := 100 })]
          discordTokens := [("1234", { ID := "d1", Username := "al" })] }
        { Username := "alice", Password := "p1", Code := "M3", DiscordPIN := "1234" }
        false).state.discordTokens.get "1234" = some { ID := "d1", Username := "al" } := by
  decide

/-- C11, amended: on a successful `newUser`, for each provider (Discord, Matrix,
Telegram) whose PIN verified in ValidateVerifications, the verified identity is
stored in that provider's linked-identity map under the new account's id, with
`Contact` taken from the request; the Matrix PIN's entry is removed from
`tokens`, and the Discord or Telegram PIN's entry is removed from
`verifiedTokens` when the store write of the linked identities succeeds and is
left in place when that write returns an error. -/
theorem newUser_links_identities (cfg : Config) (env : Env) (s : AppState)
    (req : NewUserDTO) (confirmed : Bool)
    (hsucc : (newUser cfg env s req confirmed).success = true) :
    (∀ u, cfg.discordEnabled = true → req.DiscordPIN ≠ "" →
      s.discordTokens.get req.DiscordPIN = some u →
      (newUser cfg env s req confirmed).state.discord.get env.newUserID =
        some { u with Contact := req.DiscordContact } ∧
      (env.storeDiscordUsersErr = false →
        (newUser cfg env s req confirmed).state.discordTokens =
          s.discordTokens.del req.DiscordPIN ∧
        (newUser cfg env s req confirmed).state.discordTokens.get req.DiscordPIN = none) ∧
      (env.storeDiscordUsersErr = true →
        (newUser cfg env s req confirmed).state.discordTokens = s.discordTokens)) ∧
    (∀ t, cfg.matrixEnabled = true → req.MatrixPIN ≠ "" →
      s.matrixTokens.get req.MatrixPIN = some t →
      (newUser cfg env s req confirmed).state.matrix.get env.newUserID =
        some { t.User with Contact := req.MatrixContact } ∧
      (newUser cfg env s req confirmed).state.matrixTokens =
        s.matrixTokens.del req.MatrixPIN ∧
      (newUser cfg env s req confirmed).state.matrixTokens.get req.MatrixPIN = none) ∧
    (∀ i, cfg.telegramEnabled = true → req.TelegramPIN ≠ "" →
      telegramFind s.telegramTokens req.TelegramPIN = some i →
      ∃ tok, s.telegramTokens[i]? = some tok ∧ tok.Token = req.TelegramPIN ∧
        (newUser cfg env s req confirmed).state.telegram.get env.newUserID =
          some { ChatID := tok.ChatID
                 Username := tok.Username
                 Contact := req.TelegramContact
                 Lang := (s.telegramLanguages.get tok.ChatID).getD "" } ∧
        (env.storeTelegramUsersErr = false →
          (newUser cfg env s req confirmed).state.telegramTokens =
            swapRemove s.telegramTokens i) ∧
        (env.storeTelegramUsersErr = true →
          (newUser cfg env s req confirmed).state.telegramTokens = s.telegramTokens)) := by
  obtain ⟨td, du, dv, mu, mv, ti, _, hd, hm, ht, _, heq⟩ :=
    newUser_success_shape cfg env s req confirmed hsucc
  have hl := provision_links cfg env s req du dv mu mv ti
    ([Event.userByName req.Username] ++ td ++ [Event.jfNewUser req.Username req.Password])
    (by rw [← heq]; exact hsucc)
  rw [heq]
  refine ⟨?_, ?_, ?_⟩
  · intro u hen hpin hget
    have hdu : du = u ∧ dv = true := by
      simp only [discordCheck, hen, hpin, hget, if_true, if_false] at hd
      split_ifs at hd
      · simp at hd
      · simp only [Prod.mk.injEq, Except.ok.injEq] at hd
        exact ⟨hd.2.1.symm, hd.2.2.symm⟩
    obtain ⟨rfl, rfl⟩ := hdu
    rw [hl.1, hl.2.1]
    simp only [hen, Bool.and_self, if_true, Bool.true_and]
    refine ⟨GoMap.get_put_self _ _ _, ?_, ?_⟩
    · intro he
      simp only [he, Bool.not_false, if_true]
      exact ⟨trivial, GoMap.get_del_self _ _⟩
    · intro he
      simp [he]
  · intro t hen hpin hget
    have hmu : mu = t.User ∧ mv = true := by
      simp only [matrixCheck, hen, hpin, hget, if_true, if_false] at hm
      split_ifs at hm with hv
      · simp only [Except.ok.injEq, Prod.mk.injEq] at hm
        refine ⟨hm.1.symm, ?_⟩
        rw [← hm.2]
        simpa using hv
    obtain ⟨rfl, rfl⟩ := hmu
    rw [hl.2.2.1, hl.2.2.2.1]
    simp only [if_true]
    exact ⟨GoMap.get_put_self _ _ _, trivial, GoMap.get_del_self _ _⟩
  · intro i hen hpin hfind
    have hti : ti = some i := by
      simp only [telegramCheck, hen, hpin, hfind, if_true, if_false] at ht
      simp only [Except.ok.injEq] at ht
      exact ht.symm
    subst hti
    obtain ⟨tok, htok, htt⟩ := telegramFind_some _ _ i hfind
    rw [hl.2.2.2.2.1, hl.2.2.2.2.2]
    simp only [hen, if_true, Bool.true_and, htok, Option.getD_some]
    refine ⟨tok, rfl, htt, GoMap.get_put_self _ _ _, ?_, ?_⟩
    · intro he; simp [he]
    · intro he; simp [he]

/-- C11 amended, at a successful request that verified a Discord PIN. -/
theorem newUser_links_identities_witness :
    (newUser { discordEnabled := true } {}
        { invites := [("M3", { RemainingUses := 3, ValidTill := 100 })]
          discordTokens := [("1234", { ID := "d1", Username := "al" })] }
        { Username := "alice", Password := "p1", Code := "M3", DiscordPIN := "1234"
          DiscordContact := true }
        false).success = true ∧
    (newUser { discordEnabled := true } {}
        { invites := [("M3", { RemainingUses := 3, ValidTill := 100 })]
          discordTokens := [("1234", { ID := "d1", Username := "al" })] }
        { Username := "alice", Password := "p1", Code := "M3", DiscordPIN := "1234"
          DiscordContact := true }
        false).state.discord.get "id" = some { ID := "d1", Username := "al", Contact := true } :=
  ⟨by decide,
    ((newUser_links_identities { discordEnabled := true } {}
      { invites := [("M3", { RemainingUses := 3, ValidTill := 100 })]
        discordTokens := [("1234", { ID := "d1", Username := "al" })] }
      { Username := "alice", Password := "p1", Code := "M3", DiscordPIN := "1234"
        DiscordContact := true }
      false (by decide)).1 { ID := "d1", Username := "al" } rfl (by decide) (by decide)).1⟩

/-- C12 as stated fails: when the store write of the linked Discord identities
returns an error, the first `newUser` still succeeds but leaves the PIN in
`verifiedTokens`, and a second `newUser` presenting the same PIN passes the
check and creates a second account. -/
theorem newUser_pin_reused_counterexample :
    (newUser { discordEnabled := true } { storeDiscordUsersErr := true }
        { invites := [("M3", { RemainingUses := 3, ValidTill := 100 })]
          discordTokens := [("1234", { ID := "d1", Username := "al" })] }
        { Username := "alice", Password := "p1", Code := "M3", DiscordPIN := "1234" }
        false).success = true ∧
    (newUser { discordEnabled := true } { newUserID := "id2" }
        (newUser { discordEnabled := true } { storeDiscordUsersErr := true }
          { invites := [("M3", { RemainingUses := 3, ValidTill := 100 })]
            discordTokens := [("1234", { ID := "d1", Username := "al" })] }
          { Username := "alice", Password := "p1", Code := "M3", DiscordPIN := "1234" }
          false).state
        { Username := "bob", Password := "p2", Code := "M3", DiscordPIN := "1234" }
        false).success = true ∧
    createsAccount
      (newUser { discordEnabled := true } { newUserID := "id2" }
        (newUser { discordEnabled := true } { storeDiscordUsersErr := true }
          { invites := [("M3", { RemainingUses := 3, ValidTill := 100 })]
            discordTokens := [("1234", { ID := "d1", Username := "al" })] }
          { Username := "alice", Password := "p1", Code := "M3", DiscordPIN := "1234" }
          false).state
        { Username := "bob", Password := "p2", Code := "M3", DiscordPIN := "1234" }
        false).trace = true := by
  decide

/-- C12, amended: after one successful `newUser` that presented a PIN of an
enabled provider, a second `newUser` presenting the same PIN for that provider
fails that provider's check with `errorInvalidPIN` and creates no account,
provided, for Discord and Telegram, that the first call's store write of the
linked identities succeeded and, for Telegram, that no other entry of
`verifiedTokens` carries the PIN.  The error the second call returns is
`errorInvalidPIN` when its username is free and the providers checked before
that one pass. -/
theorem pins_are_single_use (cfg : Config) (env₁ env₂ : Env) (s : AppState)
    (req₁ req₂ : NewUserDTO) (c₁ c₂ : Bool)
    (hfirst : (newUser cfg env₁ s req₁ c₁).success = true) :
    (cfg.discordEnabled = true → req₁.DiscordPIN ≠ "" →
      env₁.storeDiscordUsersErr = false → req₂.DiscordPIN = req₁.DiscordPIN →
      (discordCheck cfg env₂ (newUser cfg env₁ s req₁ c₁).state req₂).2 =
        .error (respond 401 "errorInvalidPIN") ∧
      (newUser cfg env₂ (newUser cfg env₁ s req₁ c₁).state req₂ c₂).success = false ∧
      createsAccount
        (newUser cfg env₂ (newUser cfg env₁ s req₁ c₁).state req₂ c₂).trace = false ∧
      (env₂.existingUserName = "" →
        (newUser cfg env₂ (newUser cfg env₁ s req₁ c₁).state req₂ c₂).f =
          some { resp := respond 401 "errorInvalidPIN" })) ∧
    (cfg.matrixEnabled = true → req₁.MatrixPIN ≠ "" → req₂.MatrixPIN = req₁.MatrixPIN →
      matrixCheck cfg (newUser cfg env₁ s req₁ c₁).state req₂ =
        .error (respond 401 "errorInvalidPIN") ∧
      (newUser cfg env₂ (newUser cfg env₁ s req₁ c₁).state req₂ c₂).success = false ∧
      createsAccount
        (newUser cfg env₂ (newUser cfg env₁ s req₁ c₁).state req₂ c₂).trace = false ∧
      (env₂.existingUserName = "" →
        (∃ v, (discordCheck cfg env₂ (newUser cfg env₁ s req₁ c₁).state req₂).2 = .ok v) →
        (newUser cfg env₂ (newUser cfg env₁ s req₁ c₁).state req₂ c₂).f =
          some { resp := respond 401 "errorInvalidPIN" })) ∧
    (cfg.telegramEnabled = true → req₁.TelegramPIN ≠ "" →
      env₁.storeTelegramUsersErr = false →
      (∀ (j k : Nat) (v w : TelegramVerifiedToken),
        s.telegramTokens[j]? = some v → s.telegramTokens[k]? = some w →
        v.Token = req₁.TelegramPIN → w.Token = req₁.TelegramPIN → j = k) →
      req₂.TelegramPIN = req₁.TelegramPIN →
      telegramCheck cfg (newUser cfg env₁ s req₁ c₁).state req₂ =
        .error (respond 401 "errorInvalidPIN") ∧
      (newUser cfg env₂ (newUser cfg env₁ s req₁ c₁).state req₂ c₂).success = false ∧
      createsAccount
        (newUser cfg env₂ (newUser cfg env₁ s req₁ c₁).state req₂ c₂).trace = false ∧
      (env₂.existingUserName = "" →
        (∃ v, (discordCheck cfg env₂ (newUser cfg env₁ s req₁ c₁).state req₂).2 = .ok v) →
        (∃ w, matrixCheck cfg (newUser cfg env₁ s req₁ c₁).state req₂ = .ok w) →
        (newUser cfg env₂ (newUser cfg env₁ s req₁ c₁).state req₂ c₂).f =
          some { resp := respond 401 "errorInvalidPIN" })) := by
  have hreg := newUser_success_registries cfg env₁ s req₁ c₁ hfirst
  refine ⟨?_, ?_, ?_⟩
  · intro hen hpin he hsame
    have htok := hreg.1 hen hpin he
    have hnone : (newUser cfg env₁ s req₁ c₁).state.discordTokens.get req₂.DiscordPIN
        = none := by
      rw [htok, hsame]; exact GoMap.get_del_self _ _
    have hpin₂ : req₂.DiscordPIN ≠ "" := hsame ▸ hpin
    have hchk : discordCheck cfg env₂ (newUser cfg env₁ s req₁ c₁).state req₂ =
        ([], .error (respond 401 "errorInvalidPIN")) := by
      simp [discordCheck, hen, hpin₂, hnone]
    have hfail : checksPass cfg env₂ (newUser cfg env₁ s req₁ c₁).state req₂ = false := by
      simp [checksPass, hchk]
    have h2 := newUser_fails_of_checks cfg env₂ _ req₂ c₂ hfail
    refine ⟨by rw [hchk], h2.1, h2.2, fun hname => ?_⟩
    rw [newUser_discord_fails cfg env₂ _ req₂ c₂ hname [] _ hchk]
  · intro hen hpin hsame
    have htok := hreg.2.1 hen hpin
    have hnone : (newUser cfg env₁ s req₁ c₁).state.matrixTokens.get req₂.MatrixPIN
        = none := by
      rw [htok, hsame]; exact GoMap.get_del_self _ _
    have hpin₂ : req₂.MatrixPIN ≠ "" := hsame ▸ hpin
    have hchk : matrixCheck cfg (newUser cfg env₁ s req₁ c₁).state req₂ =
        .error (respond 401 "errorInvalidPIN") := by
      simp [matrixCheck, hen, hpin₂, hnone]
    have hfail : checksPass cfg env₂ (newUser cfg env₁ s req₁ c₁).state req₂ = false := by
      unfold checksPass
      rw [hchk]
      cases (discordCheck cfg env₂ (newUser cfg env₁ s req₁ c₁).state req₂).2 <;> rfl
    have h2 := newUser_fails_of_checks cfg env₂ _ req₂ c₂ hfail
    refine ⟨hchk, h2.1, h2.2, fun hname hd => ?_⟩
    obtain ⟨v, hv⟩ := hd
    rcases hdc : discordCheck cfg env₂ (newUser cfg env₁ s req₁ c₁).state req₂ with ⟨td, r⟩
    rw [hdc] at hv
    simp only at hv
    subst hv
    rw [newUser_matrix_fails cfg env₂ _ req₂ c₂ hname td v.1 v.2 _ hdc hchk]
  · intro hen hpin he huniq hsame
    obtain ⟨i, hfind, htok⟩ := hreg.2.2 hen hpin he
    have hnone : telegramFind (newUser cfg env₁ s req₁ c₁).state.telegramTokens
        req₂.TelegramPIN = none := by
      rw [htok, hsame]
      apply telegramFind_after_removal _ _ _ hfind
      intro k v hk hvt
      obtain ⟨tok, htk, htt⟩ := telegramFind_some _ _ i hfind
      exact huniq k i v tok hk htk hvt htt
    have hpin₂ : req₂.TelegramPIN ≠ "" := hsame ▸ hpin
    have hchk : telegramCheck cfg (newUser cfg env₁ s req₁ c₁).state req₂ =
        .error (respond 401 "errorInvalidPIN") := by
      simp [telegramCheck, hen, hpin₂, hnone]
    have hfail : checksPass cfg env₂ (newUser cfg env₁ s req₁ c₁).state req₂ = false := by
      unfold checksPass
      rw [hchk]
      cases (discordCheck cfg env₂ (newUser cfg env₁ s req₁ c₁).state req₂).2 <;>
        cases matrixCheck cfg (newUser cfg env₁ s req₁ c₁).state req₂ <;> rfl
    have h2 := newUser_fails_of_checks cfg env₂ _ req₂ c₂ hfail
    refine ⟨hchk, h2.1, h2.2, fun hname hd hm => ?_⟩
    obtain ⟨v, hv⟩ := hd
    obtain ⟨w, hw⟩ := hm
    rcases hdc : discordCheck cfg env₂ (newUser cfg env₁ s req₁ c₁).state req₂ with ⟨td, r⟩
    rw [hdc] at hv
    simp only at hv
    subst hv
    rw [newUser_telegram_fails cfg env₂ _ req₂ c₂ hname td v.1 v.2 w.1 w.2 _ hdc hw hchk]

/-- C12 amended, at two requests presenting the same Discord PIN. -/
theorem pins_are_single_use_witness :
    (newUser { discordEnabled := true } {}
        { invites := [("M3", { RemainingUses := 3, ValidTill := 100 })]
          discordTokens := [("1234", { ID := "d1", Username := "al" })] }
        { Username := "alice", Password := "p1", Code := "M3", DiscordPIN := "1234" }
        false).success = true ∧
    (newUser { discordEnabled := true } { newUserID := "id2" }
        (newUser { discordEnabled := true } {}
          { invites := [("M3", { RemainingUses := 3, ValidTill := 100 })]
            discordTokens := [("1234", { ID := "d1", Username := "al" })] }
          { Username := "alice", Password := "p1", Code := "M3", DiscordPIN := "1234" }
          false).state
        { Username := "bob", Password := "p2", Code := "M3", DiscordPIN := "1234" }
        false).f = some { resp := respond 401 "errorInvalidPIN" } :=
  ⟨by decide,
    ((pins_are_single_use { discordEnabled := true } {} { newUserID := "id2" }
      { invites := [("M3", { RemainingUses := 3, ValidTill := 100 })]
        discordTokens := [("1234", { ID := "d1", Username := "al" })] }
      { Username := "alice", Password := "p1", Code := "M3", DiscordPIN := "1234" }
      { Username := "bob", Password := "p2", Code := "M3", DiscordPIN := "1234" }
      false false (by decide)).1 rfl (by decide) rfl rfl).2.2.2 rfl⟩

/-- C21: when `newUser` stops at the confirmation gate (the username is free,
every provider check passes, and e-mail confirmation is on for an unconfirmed
request), the one claim set it signs is `valid = true`, `invite = req.Code`,
`email = req.Email`, `username = req.Username`, `password = req.Password`,
`telegramPIN = req.TelegramPIN`, `type = "confirmation"` and `exp` = the Unix
seconds of the issue time plus 12 hours. -/
theorem newUser_gate_claims (cfg : Config) (env : Env) (s : AppState) (req : NewUserDTO)
    (confirmed : Bool) (hname : env.existingUserName = "")
    (hpass : checksPass cfg env s req = true) (hgate : gateOpen cfg confirmed = true) :
    (newUser cfg env s req confirmed).trace.filter Event.isTokenIssue =
      [Event.signToken
        { valid := true
          invite := req.Code
          email := req.Email
          username := req.Username
          password := req.Password
          telegramPIN := req.TelegramPIN
          exp := Time.unix env.nowGate + 12 * 3600
          type := "confirmation" }] := by
  have hclaims : confirmationClaims env req =
      { valid := true, invite := req.Code, email := req.Email, username := req.Username
        password := req.Password, telegramPIN := req.TelegramPIN
        exp := Time.unix env.nowGate + 12 * 3600, type := "confirmation" } := by
    simp only [confirmationClaims, Time.unix, Claims.mk.injEq, true_and, and_true]
    omega
  rcases newUser_split cfg env s req confirmed with
    ⟨h, _⟩ | ⟨_, _, _, pre, _, hpre, heq⟩ | ⟨_, _, hg, _⟩
  · rcases h with h | h
    · exact absurd hname h
    · rw [hpass] at h; exact absurd h (by decide)
  · rw [heq, confirmationGate_tokens env s req pre hpre, hclaims]
  · rw [hgate] at hg; exact absurd hg (by decide)

/-- C21 at a request stopped at the gate at instant 5 s: `exp` is 43205. -/
theorem newUser_gate_claims_witness :
    (newUser { emailEnabled := true, emailConfirmation := true } { nowGate := 5000000000 }
        { invites := [("M3", { RemainingUses := 3, ValidTill := 100 })] }
        { Username := "alice", Password := "p1", Email := "a@b.c", Code := "M3"
          TelegramPIN := "77" } false).trace.filter Event.isTokenIssue =
      [Event.signToken
        { valid := true, invite := "M3", email := "a@b.c", username := "alice"
          password := "p1", telegramPIN := "77", exp := 43205, type := "confirmation" }] :=
  newUser_gate_claims { emailEnabled := true, emailConfirmation := true }
    { nowGate := 5000000000 }
    { invites := [("M3", { RemainingUses := 3, ValidTill := 100 })] }
    { Username := "alice", Password := "p1", Email := "a@b.c", Code := "M3"
      TelegramPIN := "77" } false rfl (by decide) (by decide)

/-- C22 as stated fails: the response `newUser` sends for `confirmEmail` has
status 401 and carries the message in the error field; the response field is
empty. -/
theorem newUser_confirmEmail_is_error_response_counterexample :
    (newUser { emailEnabled := true, emailConfirmation := true } {}
        { invites := [("M3", { RemainingUses := 3, ValidTill := 100 })] }
        { Username := "alice", Password := "p1", Email := "a@b.c", Code := "M3" }
        false).f =
      some
        { resp := { code := 401, body := { Response := "", Error := "confirmEmail" } }
          after := [Event.constructConfirmation "M3" "alice" "key", Event.emailSend "a@b.c"] } := by
  decide

/-- C22, amended: when `newUser` stops at the confirmation gate with a signed
key, it returns `success = false` and an `errorFunc` that sends
`respond(401, "confirmEmail")`, that is status 401 with the message in the error
field and an empty response field, and then builds and sends the confirmation
mail; no account-creation call is made.  Function `respond` puts the message in
the response field for status 200 and 204 only. -/
theorem newUser_gate_response (cfg : Config) (env : Env) (s : AppState) (req : NewUserDTO)
    (confirmed : Bool) (key : String) (hname : env.existingUserName = "")
    (hpass : checksPass cfg env s req = true) (hgate : gateOpen cfg confirmed = true)
    (hkey : env.signedString = some key) :
    (newUser cfg env s req confirmed).success = false ∧
    (newUser cfg env s req confirmed).f =
      some
        { resp := { code := 401, body := { Response := "", Error := "confirmEmail" } }
          after := [Event.constructConfirmation req.Code req.Username key] ++
            (if env.constructConfirmationErr then [] else [Event.emailSend req.Email]) } ∧
    createsAccount (newUser cfg env s req confirmed).trace = false ∧
    (∀ (code : Int) (message : String),
      (respond code message).code = code ∧
      (respond code message).body =
        (if code = 200 ∨ code = 204 then { Response := message, Error := "" }
        else { Response := "", Error := message })) := by
  refine ⟨?_, ?_, ?_, ?_⟩
  · rcases newUser_split cfg env s req confirmed with
      ⟨_, hs, _⟩ | ⟨_, _, _, pre, _, _, heq⟩ | ⟨_, _, hg, _⟩
    · exact hs
    · rw [heq, confirmationGate_signed env s req pre key hkey]
    · rw [hgate] at hg; exact absurd hg (by decide)
  · rcases newUser_split cfg env s req confirmed with
      ⟨h, _⟩ | ⟨_, _, _, pre, _, _, heq⟩ | ⟨_, _, hg, _⟩
    · rcases h with h | h
      · exact absurd hname h
      · rw [hpass] at h; exact absurd h (by decide)
    · rw [heq, confirmationGate_signed env s req pre key hkey]
      rfl
    · rw [hgate] at hg; exact absurd hg (by decide)
  · rcases newUser_split cfg env s req confirmed with
      ⟨_, _, _, hc, _⟩ | ⟨_, _, _, pre, hpre, _, heq⟩ | ⟨_, _, hg, _⟩
    · exact hc
    · rw [heq, (confirmationGate_no_creation env s req pre).1, hpre]
    · rw [hgate] at hg; exact absurd hg (by decide)
  · intro code message
    unfold respond
    split_ifs <;> exact ⟨rfl, rfl⟩

/-- C22 amended, at a request stopped at the gate. -/
theorem newUser_gate_response_witness :
    (newUser { emailEnabled := true, emailConfirmation := true } {}
        { invites := [("M3", { RemainingUses := 3, ValidTill := 100 })] }
        { Username := "alice", Password := "p1", Email := "a@b.c", Code := "M3" }
        false).success = false ∧
    createsAccount (newUser { emailEnabled := true, emailConfirmation := true } {}
        { invites := [("M3", { RemainingUses := 3, ValidTill := 100 })] }
        { Username := "alice", Password := "p1", Email := "a@b.c", Code := "M3" }
        false).trace = false :=
  ⟨(newUser_gate_response { emailEnabled := true, emailConfirmation := true } {}
      { invites := [("M3", { RemainingUses := 3, ValidTill := 100 })] }
      { Username := "alice", Password := "p1", Email := "a@b.c", Code := "M3" }
      false "key" rfl (by decide) (by decide) rfl).1,
   (newUser_gate_response { emailEnabled := true, emailConfirmation := true } {}
      { invites := [("M3", { RemainingUses := 3, ValidTill := 100 })] }
      { Username := "alice", Password := "p1", Email := "a@b.c", Code := "M3" }
      false "key" rfl (by decide) (by decide) rfl).2.2.1⟩

/-- C23 as stated fails: with a resolving Discord PIN and Matrix required but
no Matrix PIN, `newUser` fails with `errorMatrixVerification` and creates no
account, after it has applied the Discord role to the verified user; the same
holds when the account service then refuses to create the account. -/
theorem newUser_role_applied_before_failure_counterexample :
    (newUser { discordEnabled := true, matrixEnabled := true, matrixRequired := true } {}
        { invites := [("M3", { RemainingUses := 3, ValidTill := 100 })]
          discordTokens := [("1234", { ID := "d1", Username := "al" })] }
        { Username := "alice", Password := "p1", Code := "M3", DiscordPIN := "1234" }
        false) =
      { state :=
          { invites := [("M3", { RemainingUses := 3, ValidTill := 100 })]
            discordTokens := [("1234", { ID := "d1", Username := "al" })] }
        f := some { resp := respond 401 "errorMatrixVerification" }
        success := false
        trace := [Event.userByName "alice", Event.applyRole "d1"] } ∧
    (newUser { discordEnabled := true } { jfNewUser := { status := 400 } }
        { invites := [("M3", { RemainingUses := 3, ValidTill := 100 })]
          discordTokens := [("1234", { ID := "d1", Username := "al" })] }
        { Username := "alice", Password := "p1", Code := "M3", DiscordPIN := "1234" }
        false).trace =
      [Event.userByName "alice", Event.applyRole "d1", Event.jfNewUser "alice" "p1"] := by
  decide

/-- C23, amended: in every run of `newUser` that returns without the account
having been created, the state is unchanged but for the invite map, which is
written only by the confirmation gate (the key of the token it signed), and the
calls made are the username lookup, the Discord role application, the signing
of the confirmation token with the store of its key, and the refused
account-creation call, nothing else.  The Discord role is the one provider
action such a run can have performed: it is applied exactly when the username
is free, Discord is enabled and the Discord PIN supplied resolves to a verified
user, and the calls of the Discord check come straight after the username
lookup, ahead of the token signing and of the account-creation call. -/
theorem newUser_failure_effects (cfg : Config) (env : Env) (s : AppState) (req : NewUserDTO)
    (confirmed : Bool) (hret : (newUser cfg env s req confirmed).panicked = false)
    (hfail : (newUser cfg env s req confirmed).success = false) :
    (newUser cfg env s req confirmed).state =
      { s with invites := (newUser cfg env s req confirmed).state.invites } ∧
    ((newUser cfg env s req confirmed).state.invites = s.invites ∨
      (gateOpen cfg confirmed = true ∧ ∃ key, env.signedString = some key ∧
        (newUser cfg env s req confirmed).state.invites =
          s.invites.put req.Code
            { (s.invites.get req.Code).getD default with
              Keys := ((s.invites.get req.Code).getD default).Keys ++ [key] })) ∧
    (∀ e ∈ (newUser cfg env s req confirmed).trace,
      e = Event.userByName req.Username ∨ e.isRoleApplication = true ∨
      e = Event.signToken (confirmationClaims env req) ∨ e = Event.storeInvites ∨
      e = Event.jfNewUser req.Username req.Password) ∧
    (appliesRole (newUser cfg env s req confirmed).trace = true ↔
      (env.existingUserName = "" ∧ cfg.discordEnabled = true ∧ req.DiscordPIN ≠ "" ∧
        (s.discordTokens.get req.DiscordPIN).isSome = true)) ∧
    (env.existingUserName = "" →
      ∃ rest,
        (newUser cfg env s req confirmed).trace =
          [Event.userByName req.Username] ++ (discordCheck cfg env s req).1 ++ rest ∧
        appliesRole rest = false) := by
  rcases newUser_failure_shape cfg env s req confirmed hret hfail with
    ⟨hname, hst, htr⟩ | ⟨hname, rest, htr, hrest, hst⟩
  · rw [hst, htr]
    refine ⟨rfl, Or.inl rfl, ?_, ?_, fun h => absurd h hname⟩
    · intro e he; left; simpa using he
    · constructor
      · intro h; simp [appliesRole, Event.isRoleApplication] at h
      · intro h; exact absurd h.1 hname
  · have h := failure_trace cfg env s req (discordCheck cfg env s req).1 rest rfl hname hrest
    have hnone : appliesRole rest = false := by
      unfold appliesRole
      rw [List.any_eq_false]
      intro e he
      rcases hrest e he with h | h | h <;> subst h <;> simp [Event.isRoleApplication]
    rw [htr]
    refine ⟨?_, ?_, h.1, h.2, fun _ => ⟨rest, rfl, hnone⟩⟩
    · rcases hst with hst | ⟨_, key, _, hst⟩ <;> rw [hst]
    · rcases hst with hst | ⟨hg, key, hk, hst⟩
      · left; rw [hst]
      · right; exact ⟨hg, key, hk, by rw [hst]⟩

/-- C23 amended, at a request that fails the Matrix check after its Discord
PIN resolved: the role has been applied. -/
theorem newUser_failure_effects_witness :
    (newUser { discordEnabled := true, matrixEnabled := true, matrixRequired := true } {}
        { invites := [("M3", { RemainingUses := 3, ValidTill := 100 })]
          discordTokens := [("1234", { ID := "d1", Username := "al" })] }
        { Username := "alice", Password := "p1", Code := "M3", DiscordPIN := "1234" }
        false).success = false ∧
    appliesRole
      (newUser { discordEnabled := true, matrixEnabled := true, matrixRequired := true } {}
        { invites := [("M3", { RemainingUses := 3, ValidTill := 100 })]
          discordTokens := [("1234", { ID := "d1", Username := "al" })] }
        { Username := "alice", Password := "p1", Code := "M3", DiscordPIN := "1234" }
        false).trace = true :=
  ⟨by decide,
    (newUser_failure_effects
      { discordEnabled := true, matrixEnabled := true, matrixRequired := true } {}
      { invites := [("M3", { RemainingUses := 3, ValidTill := 100 })]
        discordTokens := [("1234", { ID := "d1", Username := "al" })] }
      { Username := "alice", Password := "p1", Code := "M3", DiscordPIN := "1234" }
      false (by decide) (by decide)).2.2.2.1.2 ⟨rfl, rfl, by decide, by decide⟩⟩

/-- C24 fails in `newUser`: `ExtendExpiry` and `GetUsers` make no account-service
call, companion-service call or send between `Lock` and `Unlock`, but `newUser`
on an invite with `UserExpiry` takes `usersLock` with a deferred `Unlock` and
then calls the companion service and sends the welcome message before it
returns. -/
theorem newUser_holds_usersLock_during_calls :
    (∀ (env : ExtendEnv) (s : AppState) (req : ExtendExpiryDTO),
      lockHeldAtCall false (ExtendExpiry env s req).trace = false) ∧
    (∀ jfGetUsers : CallResult, lockHeldAtCall false (GetUsers jfGetUsers).2 = false) ∧
    (newUser { ombiEnabled := true, emailEnabled := true, welcomeEmail := true } {}
        { invites := [("M3", { RemainingUses := 3, ValidTill := 100, UserExpiry := true
                               Profile := "P" })]
          profiles := [("P", { Ombi := [("k", "v")] })] }
        { Username := "alice", Password := "p1", Email := "a@b.c", Code := "M3" }
        false).trace =
      [Event.userByName "alice", Event.jfNewUser "alice" "p1", Event.loadProfiles,
        Event.storeInvites, Event.storeEmails, Event.lockUsers, Event.storeUsers,
        Event.ombiNewUser "alice", Event.constructWelcome "alice", Event.sendByID "id",
        Event.unlockUsers] ∧
    lockHeldAtCall false
      (newUser { ombiEnabled := true, emailEnabled := true, welcomeEmail := true } {}
        { invites := [("M3", { RemainingUses := 3, ValidTill := 100, UserExpiry := true
                               Profile := "P" })]
          profiles := [("P", { Ombi := [("k", "v")] })] }
        { Username := "alice", Password := "p1", Email := "a@b.c", Code := "M3" }
        false).trace = true :=
  ⟨ExtendExpiry_lock, GetUsers_lock, by decide, by decide⟩

/-- C25 fails: after `SetDefaultProfile` for `A` and then for `B`, both calls
answering 200, `defaultProfile` is `B` and profile `B` has `Admin = true`, but
profile `A` still has `Admin = true`: for a profile other than the one named,
the loop assigns `Admin = false` to its loop variable and does not write the
map. -/
theorem SetDefaultProfile_leaves_other_admin :
    SetDefaultProfile { profiles := [("A", {}), ("B", {})] } { Name := "A" } =
      { state := { profiles := [("A", { Admin := true }), ("B", {})], defaultProfile := "A" }
        reply := .bool (200, { Success := true })
        trace := [] } ∧
    SetDefaultProfile
        { profiles := [("A", { Admin := true }), ("B", {})], defaultProfile := "A" }
        { Name := "B" } =
      { state :=
          { profiles := [("A", { Admin := true }), ("B", { Admin := true })]
            defaultProfile := "B" }
        reply := .bool (200, { Success := true })
        trace := [] } := by
  decide

/-- C26 as stated fails: two calls `checkInvite(code, true, u)` on a single-use
invite that both read the invite before either writes both return true; on an
invite with three uses the two calls both return true and leave two uses and
the second caller alone in `UsedBy`. -/
theorem checkInvite_overlapping_calls_counterexample :
    (checkInviteBothRead {} { invites := [("X7K2", { RemainingUses := 1, ValidTill := 100 })] }
        10 20 "X7K2" "alice" "bob").1.ok = true ∧
    (checkInviteBothRead {} { invites := [("X7K2", { RemainingUses := 1, ValidTill := 100 })] }
        10 20 "X7K2" "alice" "bob").2.ok = true ∧
    (checkInviteBothRead {} { invites := [("M3", { RemainingUses := 3, ValidTill := 100 })] }
        10 20 "M3" "alice" "bob").1.ok = true ∧
    (checkInviteBothRead {} { invites := [("M3", { RemainingUses := 3, ValidTill := 100 })] }
        10 20 "M3" "alice" "bob").2 =
      { state :=
          { invites := [("M3", { RemainingUses := 2, ValidTill := 100
                                 UsedBy := [["bob", "0"]] })] }
        ok := true
        trace := [Event.storeInvites] } := by
  decide

/-- C26, amended: calls `checkInvite(code, true, u)` on one invite that run one
after another lose no update: on a single-use invite the second call returns
false, and on an invite with `n ≥ 3` uses two calls leave `n - 2` uses and both
callers in `UsedBy`.  The function takes no lock, so calls that run at the same
time are not serialised: when two calls on an unexpired invite both read it
before either writes, both return true and the write of the second replaces
that of the first; a single-use invite is then consumed twice, and any other
invite is left with the count and the `UsedBy` list that the second call alone
would have written. -/
theorem checkInvite_calls_not_serialised (cfg : Config) (s : AppState) (code : String)
    (inv : Invite) (t₁ t₂ : Time) (u₁ u₂ : String)
    (hget : s.invites.get code = some inv)
    (h₁ : ¬ inv.ValidTill < t₁) (h₂ : ¬ inv.ValidTill < t₂) :
    ((inv.RemainingUses = 1 →
        (checkInvite cfg s t₁ code true u₁).ok = true ∧
        (checkInvite cfg (checkInvite cfg s t₁ code true u₁).state t₂ code true u₂).ok
          = false) ∧
      (3 ≤ inv.RemainingUses →
        (checkInvite cfg s t₁ code true u₁).ok = true ∧
        (checkInvite cfg (checkInvite cfg s t₁ code true u₁).state t₂ code true u₂).ok
          = true ∧
        (checkInvite cfg (checkInvite cfg s t₁ code true u₁).state t₂ code true
            u₂).state.invites.get code =
          some { inv with
                 RemainingUses := inv.RemainingUses - 2
                 UsedBy := inv.UsedBy ++ [[u₁, formatInt t₁.unix]] ++
                   [[u₂, formatInt t₂.unix]] })) ∧
    ((checkInviteBothRead cfg s t₁ t₂ code u₁ u₂).1.ok = true ∧
      (checkInviteBothRead cfg s t₁ t₂ code u₁ u₂).2.ok = true ∧
      (inv.RemainingUses = 1 →
        (checkInviteBothRead cfg s t₁ t₂ code u₁ u₂).2.state.invites.get code = none) ∧
      (inv.RemainingUses ≠ 1 →
        (checkInviteBothRead cfg s t₁ t₂ code u₁ u₂).2.state.invites.get code =
          some { inv with
                 RemainingUses :=
                   if inv.RemainingUses ≠ 0 then inv.RemainingUses - 1
                   else inv.RemainingUses
                 UsedBy := inv.UsedBy ++ [[u₂, formatInt t₂.unix]] })) := by
  have hle₁ : t₁ ≤ inv.ValidTill := not_lt.mp h₁
  have hle₂ : t₂ ≤ inv.ValidTill := not_lt.mp h₂
  refine ⟨⟨?_, ?_⟩, ?_⟩
  · intro h1
    rw [checkInvite_last_use cfg s t₁ code u₁ inv hget hle₁ h1]
    refine ⟨rfl, ?_⟩
    rw [checkInvite_missing cfg _ t₂ code true u₂ (GoMap.get_del_self _ _)]
  · intro h3
    rw [checkInvite_counted_use cfg s t₁ code u₁ inv hget hle₁ (by omega) (by omega)]
    refine ⟨rfl, ?_⟩
    have hget₂ :
        GoMap.get
          ({ s with
              invites := s.invites.put code
                { inv with
                  RemainingUses := inv.RemainingUses - 1
                  UsedBy := inv.UsedBy ++ [[u₁, formatInt (Time.unix t₁)]] } } :
            AppState).invites code =
          some { inv with
                 RemainingUses := inv.RemainingUses - 1
                 UsedBy := inv.UsedBy ++ [[u₁, formatInt (Time.unix t₁)]] } :=
      GoMap.get_put_self _ _ _
    rw [checkInvite_counted_use cfg _ t₂ code u₂ _ hget₂ hle₂
      (by show inv.RemainingUses - 1 ≠ 1; omega) (by show inv.RemainingUses - 1 ≠ 0; omega)]
    refine ⟨rfl, ?_⟩
    show GoMap.get (GoMap.put _ _ _) _ = _
    rw [GoMap.get_put_self]
    have : inv.RemainingUses - 1 - 1 = inv.RemainingUses - 2 := by omega
    simp only [this]
  · have hA := checkInviteAfterRead_consume cfg s t₁ code u₁ inv hle₁
    have hB := fun s' => checkInviteAfterRead_consume cfg s' t₂ code u₂ inv hle₂
    simp only [checkInviteBothRead, hget]
    refine ⟨hA.1, (hB _).1, ?_, ?_⟩
    · intro h1
      rw [(hB _).2.1 h1]
      exact GoMap.get_del_self _ _
    · intro h1
      rw [(hB _).2.2 h1]
      exact GoMap.get_put_self _ _ _

/-- C26 amended, at a single-use invite: one after another the second call
returns false, overlapping both return true. -/
theorem checkInvite_calls_not_serialised_witness :
    (checkInvite {}
        (checkInvite {} { invites := [("X7K2", { RemainingUses := 1, ValidTill := 100 })] }
          10 "X7K2" true "alice").state 20 "X7K2" true "bob").ok = false ∧
    (checkInviteBothRead {} { invites := [("X7K2", { RemainingUses := 1, ValidTill := 100 })] }
        10 20 "X7K2" "alice" "bob").2.ok = true :=
  ⟨((checkInvite_calls_not_serialised {}
      { invites := [("X7K2", { RemainingUses := 1, ValidTill := 100 })] } "X7K2"
      { RemainingUses := 1, ValidTill := 100 } 10 20 "alice" "bob" rfl (by decide)
      (by decide)).1.1 rfl).2,
   (checkInvite_calls_not_serialised {}
      { invites := [("X7K2", { RemainingUses := 1, ValidTill := 100 })] } "X7K2"
      { RemainingUses := 1, ValidTill := 100 } 10 20 "alice" "bob" rfl (by decide)
      (by decide)).2.2.1⟩

/-- C27 fails: for a request naming the code `ghost`, which is not in the
invite map, and an existing profile, `SetProfile` answers 200 and stores a
zero-valued invite with that profile under `ghost`. -/
theorem SetProfile_adds_absent_code :
    SetProfile
        { invites := [("M3", { RemainingUses := 3, ValidTill := 100 })]
          profiles := [("P", {})] }
        { Invite := "ghost", Profile := "P" } =
      { state :=
          { invites := [("M3", { RemainingUses := 3, ValidTill := 100 }),
                        ("ghost", { Profile := "P" })]
            profiles := [("P", {})] }
        reply := .bool (200, { Success := true })
        trace := [Event.storeInvites] } ∧
    (SetProfile {} { Invite := "ghost", Profile := "" }).state.invites.map Prod.fst =
      ["ghost"] := by
  decide

/-- C28 fails: from profiles `A`, `B`, `C` with `A` the default, for which
`GetInvites` lists `A`, `B`, `C`, the call `DeleteProfile` for `A` leaves `B` and
`C` with an empty default name; `GetInvites` then writes the empty name at index
0 and both names from index 1 on into a slice of length 2, and the second
write is out of range.  With `A` and `B` only, the list after the deletion is
the empty name alone. -/
theorem GetInvites_profile_list_out_of_range :
    profileList
      { profiles := [("A", { Admin := true }), ("B", {}), ("C", {})], defaultProfile := "A" } =
      some ["A", "B", "C"] ∧
    (DeleteProfile
        { profiles := [("A", { Admin := true }), ("B", {}), ("C", {})], defaultProfile := "A" }
        { Name := "A" }).state =
      { profiles := [("B", {}), ("C", {})], defaultProfile := "" } ∧
    profileList
      (DeleteProfile
        { profiles := [("A", { Admin := true }), ("B", {}), ("C", {})], defaultProfile := "A" }
        { Name := "A" }).state = none ∧
    profileList
      (DeleteProfile
        { profiles := [("A", { Admin := true }), ("B", {})], defaultProfile := "A" }
        { Name := "A" }).state = some [""] := by
  decide

/-- C29: a successful `newUser` that presented a Telegram PIN, and a
`TelegramAddUser` that answered 200, each with a successful store write, remove
from `verifiedTokens` one entry, the first whose `Token` is the PIN: the list is
shorter by one, it is a permutation of the old list without the entry at that
index, and when the tokens of the old list are pairwise distinct the PIN is
not found in the new list. -/
theorem telegram_token_consumed (cfg : Config) (env : Env) (s : AppState) (req : NewUserDTO)
    (confirmed : Bool) (tenv : TelegramAddEnv) (treq : TelegramSetDTO) :
    ((newUser cfg env s req confirmed).success = true → cfg.telegramEnabled = true →
      req.TelegramPIN ≠ "" → env.storeTelegramUsersErr = false →
      ∃ (i : Nat) (v : TelegramVerifiedToken),
        s.telegramTokens[i]? = some v ∧ v.Token = req.TelegramPIN ∧
        (∀ (j : Nat) (w : TelegramVerifiedToken), j < i → s.telegramTokens[j]? = some w →
          w.Token ≠ req.TelegramPIN) ∧
        (newUser cfg env s req confirmed).state.telegramTokens.length + 1 =
          s.telegramTokens.length ∧
        (newUser cfg env s req confirmed).state.telegramTokens.Perm
          (s.telegramTokens.eraseIdx i) ∧
        ((s.telegramTokens.map (fun t => t.Token)).Nodup →
          telegramFind (newUser cfg env s req confirmed).state.telegramTokens
            req.TelegramPIN = none)) ∧
    ((TelegramAddUser tenv s treq).reply = .bool (respondBool 200 true) →
      tenv.storeTelegramUsersErr = false →
      ∃ (i : Nat) (v : TelegramVerifiedToken),
        s.telegramTokens[i]? = some v ∧ v.Token = treq.Token ∧
        (∀ (j : Nat) (w : TelegramVerifiedToken), j < i → s.telegramTokens[j]? = some w →
          w.Token ≠ treq.Token) ∧
        (TelegramAddUser tenv s treq).state.telegramTokens.length + 1 =
          s.telegramTokens.length ∧
        (TelegramAddUser tenv s treq).state.telegramTokens.Perm
          (s.telegramTokens.eraseIdx i) ∧
        ((s.telegramTokens.map (fun t => t.Token)).Nodup →
          telegramFind (TelegramAddUser tenv s treq).state.telegramTokens
            treq.Token = none)) := by
  constructor
  · intro hsucc hen hpin hstore
    obtain ⟨i, hfind, htok⟩ :=
      (newUser_success_registries cfg env s req confirmed hsucc).2.2 hen hpin hstore
    obtain ⟨v, h⟩ := swapRemove_found s.telegramTokens req.TelegramPIN i hfind
    rw [htok]
    exact ⟨i, v, h⟩
  · intro hreply hstore
    obtain ⟨i, hfind, htok⟩ := TelegramAddUser_tokens tenv s treq hreply hstore
    obtain ⟨v, h⟩ := swapRemove_found s.telegramTokens treq.Token i hfind
    rw [htok]
    exact ⟨i, v, h⟩

/-- C29 at three pending tokens: `newUser` and `TelegramAddUser` presenting the
first one each leave a list in which it is not found. -/
theorem telegram_token_consumed_witness :
    telegramFind
      (newUser { telegramEnabled := true } {}
        { invites := [("M3", { RemainingUses := 3, ValidTill := 100 })]
          telegramTokens :=
            [{ ChatID := 1, Token := "11", Username := "u1" },
             { ChatID := 2, Token := "22", Username := "u2" },
             { ChatID := 3, Token := "33", Username := "u3" }] }
        { Username := "alice", Password := "p1", Code := "M3", TelegramPIN := "11" }
        false).state.telegramTokens "11" = none ∧
    telegramFind
      (TelegramAddUser {}
        { invites := [("M3", { RemainingUses := 3, ValidTill := 100 })]
          telegramTokens :=
            [{ ChatID := 1, Token := "11", Username := "u1" },
             { ChatID := 2, Token := "22", Username := "u2" },
             { ChatID := 3, Token := "33", Username := "u3" }] }
        { Token := "11", ID := "id9" }).state.telegramTokens "11" = none :=
  ⟨((telegram_token_consumed { telegramEnabled := true } {}
      { invites := [("M3", { RemainingUses := 3, ValidTill := 100 })]
        telegramTokens :=
          [{ ChatID := 1, Token := "11", Username := "u1" },
           { ChatID := 2, Token := "22", Username := "u2" },
           { ChatID := 3, Token := "33", Username := "u3" }] }
      { Username := "alice", Password := "p1", Code := "M3", TelegramPIN := "11" }
      false {} { Token := "11", ID := "id9" }).1
        (by decide) rfl (by decide) rfl).elim
      (fun _ h => h.elim (fun _ h => h.2.2.2.2.2 (by decide))),
   ((telegram_token_consumed { telegramEnabled := true } {}
      { invites := [("M3", { RemainingUses := 3, ValidTill := 100 })]
        telegramTokens :=
          [{ ChatID := 1, Token := "11", Username := "u1" },
           { ChatID := 2, Token := "22", Username := "u2" },
           { ChatID := 3, Token := "33", Username := "u3" }] }
      { Username := "alice", Password := "p1", Code := "M3", TelegramPIN := "11" }
      false {} { Token := "11", ID := "id9" }).2
        (by decide) rfl).elim
      (fun _ h => h.elim (fun _ h => h.2.2.2.2.2 (by decide)))⟩

/-- C30: for two times in UTC, given by the fields `Date` and `Clock` return,
`timeDiff(a, b)` returns `year ≥ 0`, `0 ≤ month ≤ 11`, `0 ≤ day ≤ 30`,
`0 ≤ hour ≤ 23`, `0 ≤ min ≤ 59` and `0 ≤ sec ≤ 59`, and
`timeDiff(a, b) = timeDiff(b, a)`. -/
theorem timeDiff_normalised (a b : UTCTime) (ha : a.valid = true) (hb : b.valid = true) :
    0 ≤ (timeDiff a b).year ∧
    0 ≤ (timeDiff a b).month ∧ (timeDiff a b).month ≤ 11 ∧
    0 ≤ (timeDiff a b).day ∧ (timeDiff a b).day ≤ 30 ∧
    0 ≤ (timeDiff a b).hour ∧ (timeDiff a b).hour ≤ 23 ∧
    0 ≤ (timeDiff a b).min ∧ (timeDiff a b).min ≤ 59 ∧
    0 ≤ (timeDiff a b).sec ∧ (timeDiff a b).sec ≤ 59 ∧
    timeDiff a b = timeDiff b a := by
  have hb' : 0 ≤ (timeDiff a b).year ∧
      0 ≤ (timeDiff a b).month ∧ (timeDiff a b).month ≤ 11 ∧
      0 ≤ (timeDiff a b).day ∧ (timeDiff a b).day ≤ 30 ∧
      0 ≤ (timeDiff a b).hour ∧ (timeDiff a b).hour ≤ 23 ∧
      0 ≤ (timeDiff a b).min ∧ (timeDiff a b).min ≤ 59 ∧
      0 ≤ (timeDiff a b).sec ∧ (timeDiff a b).sec ≤ 59 := by
    unfold timeDiff
    cases hab : a.after b
    · simpa using fieldDiff_bounds a b ha hb hab
    · simpa using fieldDiff_bounds b a hb ha (UTCTime.after_asymm a b hab)
  obtain ⟨h1, h2, h3, h4, h5, h6, h7, h8, h9, h10, h11⟩ := hb'
  exact ⟨h1, h2, h3, h4, h5, h6, h7, h8, h9, h10, h11, timeDiff_comm a b⟩

/-- C30 from 31 January 23:59:59 to 1 March 00:00:00 of 2024, in either
order: one month, no day and one second. -/
theorem timeDiff_normalised_witness :
    timeDiff { year := 2024, month := 1, day := 31, hour := 23, min := 59, sec := 59 }
        { year := 2024, month := 3, day := 1 } =
      { year := 0, month := 1, day := 0, hour := 0, min := 0, sec := 1 } ∧
    timeDiff { year := 2024, month := 1, day := 31, hour := 23, min := 59, sec := 59 }
        { year := 2024, month := 3, day := 1 } =
      timeDiff { year := 2024, month := 3, day := 1 }
        { year := 2024, month := 1, day := 31, hour := 23, min := 59, sec := 59 } :=
  ⟨by decide,
    (timeDiff_normalised
      { year := 2024, month := 1, day := 31, hour := 23, min := 59, sec := 59 }
      { year := 2024, month := 3, day := 1 } (by decide) (by decide)).2.2.2.2.2.2.2.2.2.2.2⟩

end JfaGo
